import Mathlib

/-!
# Comfort controller (`ac_service.c`), its breathing-light animator, the
# command handler (`websocket_service.c`), the sensor pipeline and the drivers

A shallow embedding of `components/services/ac_service/ac_service.c`, of the part
of `rgb_pwm_driver.c` it writes to, and of `handle_command` of
`components/services/websocket_service/websocket_service.c`; then of one cycle
of `sensor_task` (`sensor_service.c`) with the snapshot queue, of one iteration
of `temp_humidity_display_task` (`temp_humidity_app.c`), of `angle_to_duty` and
`servo_set_angle` (`servo_driver.c`), of `find_valid_frame` and
`co2_driver_read` (`co2_driver.c`) and of the motor functions of
`tb6612_driver.c`.

Modelling conventions

* The file-scope `static` variables of `ac_service.c` are the fields of `State`;
  every C function becomes a function on `State`.
* C `float` values (temperatures, voltages) are exact rationals `ℚ`: the
  decision logic only compares them, subtracts two of them and multiplies by ten.
  NaN and binary rounding are outside the model. The concrete inputs on which an
  arithmetic result is evaluated (deviations 0.875, 2, 12.5, 25, 26, 30) are
  exactly representable in binary32 together with their products by ten; the
  others (0.2 V, 3.9, 7.9, 11.9, 19.8 degrees) are only compared with a threshold
  that lies well outside their rounding error. The conversion `(float)n` of an
  `int` is the rational `n`.
* `uint8_t` values are natural numbers; every place where the C code narrows or
  adds in `uint8_t` reduces modulo `256` explicitly. `int` values are integers;
  the only place where the range of `int` matters is the result of `atoi`.
* A `NULL`-able pointer argument is an `Option`.
* A C string is the list of its characters before the terminating NUL.
* The FreeRTOS facts the code depends on are the fields of `Platform`.
* The calls `handle_command` makes to the motor service and to the servo driver
  are recorded as a list of `actuator_call`.
* `uint16_t` and `uint32_t` values are natural numbers reduced modulo `65536`
  and `2 ^ 32` where the C code narrows or can wrap; an integer division whose
  divisor can be zero makes the function return an `Option`.
* A FreeRTOS queue is the list of the items it holds, oldest first, with its
  length; `xQueueSend` and `xQueueReceive` follow the FreeRTOS reference, times
  are in milliseconds. What the other tasks do while a call blocks is an
  argument of the call.
* The results of driver reads and of LEDC, GPIO and `malloc` calls are arguments
  (`Option` for a read, the fields of `Hardware` for the motor driver).
-/

namespace AcService

/-- The `esp_err_t` codes the embedded functions return. -/
inductive esp_err_t where
  | ESP_OK
  | ESP_FAIL
  | ESP_ERR_NO_MEM
  | ESP_ERR_INVALID_ARG
  | ESP_ERR_INVALID_STATE
  | ESP_ERR_NOT_FOUND
  | ESP_ERR_TIMEOUT
  deriving DecidableEq, Repr

/-- Operating mode, `ac_mode_t` of `ac_service.h`. -/
inductive ac_mode_t where
  | AC_MODE_OFF
  | AC_MODE_COMFORT
  | AC_MODE_HEATING
  | AC_MODE_COOLING
  deriving DecidableEq, Repr

/-- Controller status, `ac_status_t` of `ac_service.h`. -/
structure ac_status_t where
  mode : ac_mode_t
  intensity : Nat
  target_temp : ℚ
  auto_mode : Bool
  deriving DecidableEq, Repr

/-- Comfort-band configuration, `ac_service_config_t` of `ac_service.h`. -/
structure ac_service_config_t where
  temp_min : ℚ
  temp_max : ℚ
  humidity_min : Int
  humidity_max : Int
  smoke_threshold : ℚ
  gpio_r : Int
  gpio_g : Int
  gpio_b : Int
  deriving DecidableEq, Repr

/-- One sensor reading, `sensor_data_t` of `sensor_service.h`. -/
structure sensor_data_t where
  temperature : ℚ
  humidity : Nat
  smoke_detected : Bool
  smoke_voltage : ℚ
  light_intensity : ℚ
  light_sufficient : Bool
  timestamp_ms : Nat
  valid : Bool
  deriving DecidableEq, Repr

/-- Colour written to the RGB output, `rgb_color_t` of `rgb_pwm_driver.h`. -/
structure rgb_color_t where
  r : Nat
  g : Nat
  b : Nat
  deriving DecidableEq, Repr

/-- What the code asks of FreeRTOS: whether `xTaskCreate` returns `pdPASS`, and
whether a running animation task clears its handle within the 500 ms that
`stop_breathing_animation` waits for it. -/
structure Platform where
  task_create_ok : Bool
  task_stop_ok : Bool
  deriving DecidableEq, Repr

/-- The file-scope variables of `ac_service.c`, followed by the two facts of
`rgb_pwm_driver.c` the service can observe: the driver's own initialised flag
and the last colour `rgb_pwm_set_color` applied. -/
structure State where
  s_config : ac_service_config_t
  s_status : ac_status_t
  s_initialized : Bool
  s_current_temp : ℚ
  s_led_enabled : Bool
  s_animation_task : Bool
  s_animation_running : Bool
  s_current_brightness : Nat
  s_brightness_increasing : Bool
  s_breathing_min : Nat
  s_breathing_max : Nat
  s_breathing_step : Nat
  s_breathing_delay_ms : Nat
  rgb_initialized : Bool
  rgb_output : rgb_color_t
  deriving DecidableEq, Repr

/-- The four derived animation parameters, in the order
`{min_brightness, max_brightness, step, delay_ms}`. -/
structure BreathingParams where
  min_brightness : Nat
  max_brightness : Nat
  step : Nat
  delay_ms : Nat
  deriving DecidableEq, Repr

/-- The animation parameters currently held in the state. -/
def State.breathing (s : State) : BreathingParams :=
  { min_brightness := s.s_breathing_min, max_brightness := s.s_breathing_max,
    step := s.s_breathing_step, delay_ms := s.s_breathing_delay_ms }

/-- The C conversion `(uint8_t)x` of a `float`: the fractional part is discarded
(truncation toward zero) and the integer is reduced to eight bits. -/
def float_to_uint8 (x : ℚ) : Nat :=
  ((if 0 ≤ x then ⌊x⌋ else ⌈x⌉) % 256).toNat

/-- The values as initialised at load time (`ac_service.c` lines 16-37,
`rgb_pwm_driver.c` line 25); the zero-initialised `s_config` is all zeros. -/
def initial_state : State :=
  { s_config := { temp_min := 0, temp_max := 0, humidity_min := 0, humidity_max := 0,
                  smoke_threshold := 0, gpio_r := 0, gpio_g := 0, gpio_b := 0 }
    s_status := { mode := .AC_MODE_OFF, intensity := 0, target_temp := 24, auto_mode := false }
    s_initialized := false
    s_current_temp := 25
    s_led_enabled := true
    s_animation_task := false
    s_animation_running := false
    s_current_brightness := 0
    s_brightness_increasing := true
    s_breathing_min := 30
    s_breathing_max := 100
    s_breathing_step := 2
    s_breathing_delay_ms := 30
    rgb_initialized := false
    rgb_output := { r := 0, g := 0, b := 0 } }

/-- `rgb_pwm_set_color`: refused before the driver is initialised, otherwise each
channel is limited to 100 and applied. -/
def rgb_pwm_set_color (color : rgb_color_t) (s : State) : State :=
  if !s.rgb_initialized then s
  else
    { s with rgb_output := { r := if color.r > 100 then 100 else color.r
                             g := if color.g > 100 then 100 else color.g
                             b := if color.b > 100 then 100 else color.b } }

/-- `calculate_breathing_params` (lines 48-83): select the tier by `temp_diff`,
then reset the brightness to the new minimum, direction increasing. -/
def calculate_breathing_params (temp_diff : ℚ) (s : State) : State :=
  let s1 : State :=
    if temp_diff < 4 then
      { s with s_breathing_min := 10, s_breathing_max := 70,
               s_breathing_step := 2, s_breathing_delay_ms := 40 }
    else if temp_diff < 8 then
      { s with s_breathing_min := 10, s_breathing_max := 85,
               s_breathing_step := 3, s_breathing_delay_ms := 25 }
    else if temp_diff < 12 then
      { s with s_breathing_min := 10, s_breathing_max := 100,
               s_breathing_step := 4, s_breathing_delay_ms := 15 }
    else
      { s with s_breathing_min := 5, s_breathing_max := 100,
               s_breathing_step := 5, s_breathing_delay_ms := 10 }
  { s1 with s_current_brightness := s1.s_breathing_min, s_brightness_increasing := true }

/-- The end of `breathing_animation_task` (lines 153-156): the task clears the
running flag and its own handle. -/
def breathing_animation_exit (s : State) : State :=
  { s with s_animation_running := false, s_animation_task := false }

/-- The brightness update of one animation tick (lines 131-148), with the
`uint8_t` addition reduced modulo 256. -/
def next_brightness (s : State) : State :=
  if s.s_brightness_increasing then
    let b := (s.s_current_brightness + s.s_breathing_step) % 256
    if b ≥ s.s_breathing_max then
      { s with s_current_brightness := s.s_breathing_max, s_brightness_increasing := false }
    else
      { s with s_current_brightness := b }
  else
    let b := if s.s_current_brightness ≥ s.s_breathing_step
             then s.s_current_brightness - s.s_breathing_step
             else s.s_breathing_min
    if b ≤ s.s_breathing_min then
      { s with s_current_brightness := s.s_breathing_min, s_brightness_increasing := true }
    else
      { s with s_current_brightness := b }

/-- One pass through the `while` loop of `breathing_animation_task`
(lines 95-151): leave when the running flag is clear or the mode is neither
cooling nor heating, otherwise write the colour and advance the brightness. -/
def breathing_animation_tick (s : State) : State :=
  if !s.s_animation_running then breathing_animation_exit s
  else if s.s_status.mode ≠ .AC_MODE_COOLING ∧ s.s_status.mode ≠ .AC_MODE_HEATING then
    breathing_animation_exit s
  else
    let color : rgb_color_t :=
      if s.s_status.mode = .AC_MODE_COOLING then { r := 0, g := 0, b := s.s_current_brightness }
      else { r := s.s_current_brightness, g := 0, b := 0 }
    next_brightness (rgb_pwm_set_color color s)

/-- The state after `n` animation ticks. -/
def breathing_animation_run : Nat → State → State
  | 0, s => s
  | n + 1, s => breathing_animation_tick (breathing_animation_run n s)

/-- `start_breathing_animation` (lines 162-188). -/
def start_breathing_animation (p : Platform) (s : State) : State :=
  let temp_diff := |s.s_current_temp - s.s_status.target_temp|
  let s1 := calculate_breathing_params temp_diff s
  if s1.s_animation_running then s1
  else if p.task_create_ok then
    { s1 with s_animation_running := true, s_animation_task := true }
  else
    { s1 with s_animation_running := false }

/-- `stop_breathing_animation` (lines 193-215): clear the running flag and wait
for the task to clear its handle. -/
def stop_breathing_animation (p : Platform) (s : State) : State :=
  if !s.s_animation_running then s
  else
    { s with s_animation_running := false,
             s_animation_task := if p.task_stop_ok then false else s.s_animation_task }

/-- The conversion at the end of `calculate_temp_deviation` (lines 235-241):
`(uint8_t)(deviation * 10.0f)`, then limited to 100. -/
def deviation_to_intensity (deviation : ℚ) : Nat :=
  let intensity := float_to_uint8 (deviation * 10)
  if intensity > 100 then 100 else intensity

/-- `calculate_temp_deviation` (lines 220-242). -/
def calculate_temp_deviation (cfg : ac_service_config_t) (current_temp : ℚ) : Nat :=
  if current_temp < cfg.temp_min then
    deviation_to_intensity (cfg.temp_min - current_temp)
  else if current_temp > cfg.temp_max then
    deviation_to_intensity (current_temp - cfg.temp_max)
  else 0

/-- `update_rgb_led` (lines 247-301). -/
def update_rgb_led (p : Platform) (s : State) : State × esp_err_t :=
  if !s.s_led_enabled then
    (rgb_pwm_set_color { r := 0, g := 0, b := 0 } (stop_breathing_animation p s), .ESP_OK)
  else
    match s.s_status.mode with
    | .AC_MODE_OFF =>
      (rgb_pwm_set_color { r := 0, g := 0, b := 0 } (stop_breathing_animation p s), .ESP_OK)
    | .AC_MODE_COMFORT =>
      (rgb_pwm_set_color { r := 0, g := 100, b := 0 } (stop_breathing_animation p s), .ESP_OK)
    | .AC_MODE_HEATING => (start_breathing_animation p s, .ESP_OK)
    | .AC_MODE_COOLING => (start_breathing_animation p s, .ESP_OK)

/-- `ac_service_init` (lines 303-345); `rgb_pwm_init` returns `ESP_OK` for the
non-null configuration it is given here. -/
def ac_service_init (config : Option ac_service_config_t) (s : State) : State × esp_err_t :=
  match config with
  | none => (s, .ESP_ERR_INVALID_ARG)
  | some cfg =>
    let s1 : State := { s with s_config := cfg, rgb_initialized := true }
    let s2 : State :=
      { s1 with s_status := { s1.s_status with mode := .AC_MODE_COMFORT, intensity := 0,
                                               auto_mode := false } }
    let s3 := rgb_pwm_set_color { r := 0, g := 100, b := 0 } s2
    ({ s3 with s_initialized := true }, .ESP_OK)

/-- `ac_service_update` (lines 347-410). -/
def ac_service_update (p : Platform) (sensor_data : Option sensor_data_t) (s : State) :
    State × esp_err_t :=
  if !s.s_initialized then (s, .ESP_ERR_INVALID_STATE)
  else
    match sensor_data with
    | none => (s, .ESP_ERR_INVALID_ARG)
    | some d =>
      if !d.valid then (s, .ESP_ERR_INVALID_ARG)
      else
        let temp := d.temperature
        let humidity : Int := d.humidity
        let smoke := d.smoke_voltage
        let old_temp := s.s_current_temp
        let s1 : State := { s with s_current_temp := temp }
        let s2 : State :=
          if s1.s_animation_running ∧ |temp - old_temp| > 1 then
            calculate_breathing_params |s1.s_current_temp - s1.s_status.target_temp| s1
          else s1
        if !s2.s_status.auto_mode then (s2, .ESP_OK)
        else if smoke > s2.s_config.smoke_threshold then
          update_rgb_led p
            { s2 with s_status := { s2.s_status with mode := .AC_MODE_OFF, intensity := 0 } }
        else
          let s3 : State :=
            if temp ≥ s2.s_config.temp_min ∧ temp ≤ s2.s_config.temp_max ∧
               humidity ≥ s2.s_config.humidity_min ∧ humidity ≤ s2.s_config.humidity_max then
              { s2 with s_status := { s2.s_status with mode := .AC_MODE_COMFORT, intensity := 0 } }
            else if temp < s2.s_config.temp_min then
              { s2 with s_status := { s2.s_status with
                  mode := .AC_MODE_HEATING,
                  intensity := calculate_temp_deviation s2.s_config temp } }
            else if temp > s2.s_config.temp_max then
              { s2 with s_status := { s2.s_status with
                  mode := .AC_MODE_COOLING,
                  intensity := calculate_temp_deviation s2.s_config temp } }
            else
              { s2 with s_status := { s2.s_status with mode := .AC_MODE_COMFORT, intensity := 0 } }
          update_rgb_led p s3

/-- `ac_service_get_status` (lines 412-424). The argument is what the `status`
pointer refers to before the call (`none` for `NULL`), the first result is what
it refers to afterwards. -/
def ac_service_get_status (status : Option ac_status_t) (s : State) :
    Option ac_status_t × esp_err_t :=
  if !s.s_initialized then (status, .ESP_ERR_INVALID_STATE)
  else
    match status with
    | none => (none, .ESP_ERR_INVALID_ARG)
    | some _ => (some s.s_status, .ESP_OK)

/-- `ac_service_set_mode` (lines 426-443). -/
def ac_service_set_mode (p : Platform) (mode : ac_mode_t) (intensity : Nat) (s : State) :
    State × esp_err_t :=
  if !s.s_initialized then (s, .ESP_ERR_INVALID_STATE)
  else
    let intensity := if intensity > 100 then 100 else intensity
    update_rgb_led p
      { s with s_status := { s.s_status with mode := mode, intensity := intensity,
                                             auto_mode := false } }

/-- `ac_service_set_auto` (lines 445-455). -/
def ac_service_set_auto (enable : Bool) (s : State) : State × esp_err_t :=
  if !s.s_initialized then (s, .ESP_ERR_INVALID_STATE)
  else ({ s with s_status := { s.s_status with auto_mode := enable } }, .ESP_OK)

/-- `ac_service_set_target_temp` (lines 457-474). -/
def ac_service_set_target_temp (target_temp : ℚ) (s : State) : State × esp_err_t :=
  if !s.s_initialized then (s, .ESP_ERR_INVALID_STATE)
  else
    let s1 : State := { s with s_status := { s.s_status with target_temp := target_temp } }
    if s1.s_animation_running then
      (calculate_breathing_params |s1.s_current_temp - s1.s_status.target_temp| s1, .ESP_OK)
    else (s1, .ESP_OK)

/-- `ac_service_set_led_enabled` (lines 476-487). -/
def ac_service_set_led_enabled (p : Platform) (enabled : Bool) (s : State) :
    State × esp_err_t :=
  if !s.s_initialized then (s, .ESP_ERR_INVALID_STATE)
  else update_rgb_led p { s with s_led_enabled := enabled }

/-- `ac_service_is_led_enabled` (lines 489-492). -/
def ac_service_is_led_enabled (s : State) : Bool := s.s_led_enabled

/-- `rgb_pwm_off` (`rgb_pwm_driver.c` lines 172-180). -/
def rgb_pwm_off (s : State) : State :=
  if !s.rgb_initialized then s
  else rgb_pwm_set_color { r := 0, g := 0, b := 0 } s

/-- `rgb_pwm_deinit` (`rgb_pwm_driver.c` lines 182-199). -/
def rgb_pwm_deinit (s : State) : State :=
  if !s.rgb_initialized then s
  else { rgb_pwm_off s with rgb_initialized := false }

/-- `ac_service_deinit` (lines 494-508). -/
def ac_service_deinit (p : Platform) (s : State) : State × esp_err_t :=
  if !s.s_initialized then (s, .ESP_OK)
  else
    let s1 := rgb_pwm_deinit (stop_breathing_animation p s)
    ({ s1 with s_initialized := false }, .ESP_OK)

/-! ## Command handling (`websocket_service.c`) -/

/-- What `handle_command` asks of the motor service and of the servo driver. -/
inductive actuator_call where
  | motor_service_stop (motor_id : Nat)
  | motor_service_forward (motor_id : Nat) (speed : Nat)
  | servo_set_angle (angle : Nat)
  deriving DecidableEq, Repr

/-- `MOTOR_ID_1` of `motor_service.h`. -/
def MOTOR_ID_1 : Nat := 0

/-- Largest value of the C type `int` on the target (32 bits). -/
def INT_MAX : Int := 2147483647

/-- Smallest value of the C type `int` on the target (32 bits). -/
def INT_MIN : Int := -2147483648

/-- `isspace` of the C locale: space, and the controls from tab to carriage
return. -/
def isspace (c : Char) : Bool :=
  c.toNat = 32 ∨ (9 ≤ c.toNat ∧ c.toNat ≤ 13)

/-- The digit loop of `strtol` in base ten: consume decimal digits, stop at the
first other character or at the end of the string. -/
def atoi_digits : Nat → List Char → Nat
  | acc, [] => acc
  | acc, c :: cs => if c.isDigit then atoi_digits (acc * 10 + (c.toNat - 48)) cs else acc

/-- The C library's `atoi` as the target's libc implements it,
`(int) strtol(s, NULL, 10)`: skip white space, take an optional sign, read the
decimal digits that follow, and clamp the value to the range of a 32-bit `long`.
A string without digits gives 0. The string is the list of its characters up to
the terminating NUL. -/
def atoi (s : List Char) : Int :=
  let t := s.dropWhile isspace
  if t.head? = some '-' then max INT_MIN (-(atoi_digits 0 t.tail : Int))
  else if t.head? = some '+' then min INT_MAX (atoi_digits 0 t.tail : Int)
  else min INT_MAX (atoi_digits 0 t : Int)

/-- The test `strncmp(s1, s2, n) == 0` on NUL-terminated strings. -/
def strncmp_eq (s1 s2 : List Char) (n : Nat) : Bool :=
  s1.take n == s2.take n

/-- The test `strcmp(s1, s2) == 0` on NUL-terminated strings. -/
def strcmp_eq (s1 s2 : List Char) : Bool :=
  s1 == s2

/-- `handle_command` (`websocket_service.c` lines 26-130). The result is the
controller state afterwards and the motor and servo calls issued, in order. The
return values of the service calls are ignored, as in the source. -/
def handle_command (p : Platform) (command : List Char) (s : State) :
    State × List actuator_call :=
  if strncmp_eq command "AC_".toList 3 then
    if strcmp_eq command "AC_AUTO_ON".toList then
      ((ac_service_set_auto true s).1, [])
    else if strcmp_eq command "AC_AUTO_OFF".toList then
      ((ac_service_set_auto false s).1, [])
    else if strcmp_eq command "AC_OFF".toList then
      ((ac_service_set_mode p .AC_MODE_COMFORT 0 s).1, [])
    else if strncmp_eq command "AC_COOLING_".toList 11 then
      let target_temp := atoi (command.drop 11)
      let s1 := (ac_service_set_target_temp (target_temp : ℚ) s).1
      ((ac_service_set_mode p .AC_MODE_COOLING 0 s1).1, [])
    else if strncmp_eq command "AC_HEATING_".toList 11 then
      let target_temp := atoi (command.drop 11)
      let s1 := (ac_service_set_target_temp (target_temp : ℚ) s).1
      ((ac_service_set_mode p .AC_MODE_HEATING 0 s1).1, [])
    else (s, [])
  else if strncmp_eq command "MOTOR_".toList 6 then
    let speed := atoi (command.drop 6)
    if speed ≥ 0 ∧ speed ≤ 100 then
      if speed = 0 then (s, [.motor_service_stop MOTOR_ID_1])
      else (s, [.motor_service_forward MOTOR_ID_1 (speed.toNat % 256)])
    else (s, [])
  else if strncmp_eq command "SERVO_".toList 6 then
    let angle := atoi (command.drop 6)
    if angle ≥ 0 ∧ angle ≤ 180 then (s, [.servo_set_angle (angle.toNat % 256)])
    else (s, [])
  else if strncmp_eq command "LED_".toList 4 then
    if strcmp_eq command "LED_ON".toList then
      ((ac_service_set_led_enabled p true s).1, [])
    else if strcmp_eq command "LED_OFF".toList then
      ((ac_service_set_led_enabled p false s).1, [])
    else if strcmp_eq command "LED_GREEN".toList then
      ((ac_service_set_mode p .AC_MODE_COMFORT 0 s).1, [])
    else if strcmp_eq command "LED_RED".toList then
      ((ac_service_set_mode p .AC_MODE_HEATING 100 s).1, [])
    else (s, [])
  else if strncmp_eq command "SMART_LIGHT_".toList 12 then
    if strcmp_eq command "SMART_LIGHT_ON".toList then
      ((ac_service_set_led_enabled p true s).1, [])
    else if strcmp_eq command "SMART_LIGHT_OFF".toList then
      ((ac_service_set_led_enabled p false s).1, [])
    else (s, [])
  else (s, [])

/-! ## Sampling loop (`sensor_service.c`) and the snapshot queue -/

/-- Result of `dht11_driver_read`, `dht11_data_t` of `dht11_driver.h`. -/
structure dht11_data_t where
  temperature : ℚ
  humidity : Nat
  temperature_raw : Nat
  humidity_raw : Nat
  deriving DecidableEq, Repr

/-- Result of `mq2_driver_read`, `mq2_data_t` of `mq2_driver.h`. -/
structure mq2_data_t where
  smoke_detected : Bool
  adc_value : Nat
  voltage : ℚ
  concentration : ℚ
  timestamp_ms : Nat
  deriving DecidableEq, Repr

/-- Light level, `light_level_t` of `ldr_driver.h`. -/
inductive light_level_t where
  | LIGHT_LEVEL_DARK
  | LIGHT_LEVEL_DIM
  | LIGHT_LEVEL_MODERATE
  | LIGHT_LEVEL_BRIGHT
  | LIGHT_LEVEL_VERY_BRIGHT
  deriving DecidableEq, Repr

/-- Result of `ldr_driver_read`, `ldr_data_t` of `ldr_driver.h`. -/
structure ldr_data_t where
  light_sufficient : Bool
  adc_value : Nat
  voltage : ℚ
  light_intensity : ℚ
  light_level : light_level_t
  timestamp_ms : Nat
  deriving DecidableEq, Repr

/-- The snapshot queue behind a `QueueHandle_t`: the length given to
`xQueueCreate` and the items it holds, oldest first. -/
structure QueueHandle_t where
  uxQueueLength : Nat
  items : List sensor_data_t
  deriving DecidableEq, Repr

/-- `xQueueCreate(uxQueueLength, sizeof(sensor_data_t))`: an empty queue. -/
def xQueueCreate (uxQueueLength : Nat) : QueueHandle_t :=
  { uxQueueLength := uxQueueLength, items := [] }

/-- The queue `init_system_resources` creates (`main.c` line 90). -/
def s_sensor_data_queue : QueueHandle_t := xQueueCreate 10

/-- What a call of `xQueueSend` did: the queue afterwards, whether it returned
`pdTRUE`, and for how many milliseconds the calling task was blocked. -/
structure send_outcome where
  queue : QueueHandle_t
  sent : Bool
  blocked_ms : Nat
  deriving DecidableEq, Repr

/-- FreeRTOS `xQueueSend(queue, &item, pdMS_TO_TICKS(wait_ms))`. With a free
slot the item is appended at once. On a full queue the caller blocks for at most
`wait_ms`: `slot_free_after = some t` says that another task takes the oldest
item `t` milliseconds into the wait, and if that happens before the wait expires
the item is appended behind the remaining ones; otherwise the call returns
`errQUEUE_FULL` after `wait_ms` and the queue is as it was. -/
def xQueueSend (queue : QueueHandle_t) (item : sensor_data_t) (wait_ms : Nat)
    (slot_free_after : Option Nat) : send_outcome :=
  if queue.items.length < queue.uxQueueLength then
    { queue := { queue with items := queue.items ++ [item] }, sent := true, blocked_ms := 0 }
  else
    match slot_free_after with
    | some t =>
      if t < wait_ms then
        { queue := { queue with items := queue.items.tail ++ [item] }, sent := true,
          blocked_ms := t }
      else { queue := queue, sent := false, blocked_ms := wait_ms }
    | none => { queue := queue, sent := false, blocked_ms := wait_ms }

/-- FreeRTOS `xQueueReceive` when no task sends during the call: the oldest item
and the queue without it, or `none` (the call times out) on an empty queue. -/
def xQueueReceive (queue : QueueHandle_t) : Option sensor_data_t × QueueHandle_t :=
  match queue.items with
  | [] => (none, queue)
  | item :: rest => (some item, { queue with items := rest })

/-- The file-scope variables of `sensor_service.c` that one cycle of
`sensor_task` reads or writes (lines 21-24). -/
structure SensorService where
  s_data_queue : Option QueueHandle_t
  s_websocket_enabled : Bool
  s_last_sensor_data : sensor_data_t
  s_last_ws_connected : Bool
  deriving DecidableEq, Repr

/-- The value of `sensor_data_t data = {0}`. -/
def zero_sensor_data : sensor_data_t :=
  { temperature := 0, humidity := 0, smoke_detected := false, smoke_voltage := 0,
    light_intensity := 0, light_sufficient := false, timestamp_ms := 0, valid := false }

/-- The snapshot `sensor_task` assembles in one cycle (lines 37-69). Each driver
read is `some` result for `ESP_OK` and `none` for an error; `time_us` is the
value of `esp_timer_get_time()`. -/
def sensor_task_read (dht11 : Option dht11_data_t) (mq2 : Option mq2_data_t)
    (ldr : Option ldr_data_t) (time_us : Nat) : sensor_data_t :=
  let data := zero_sensor_data
  let data :=
    match dht11 with
    | some dht11_data =>
      { data with temperature := dht11_data.temperature, humidity := dht11_data.humidity,
                  timestamp_ms := (time_us / 1000) % 2 ^ 32, valid := true }
    | none => { data with valid := false }
  let data :=
    match mq2 with
    | some mq2_data =>
      { data with smoke_detected := mq2_data.smoke_detected, smoke_voltage := mq2_data.voltage }
    | none => data
  match ldr with
  | some ldr_data =>
    { data with light_intensity := ldr_data.light_intensity,
                light_sufficient := ldr_data.light_sufficient }
  | none => { data with light_intensity := 0, light_sufficient := false }

/-- What one cycle of `sensor_task` did: the variables afterwards, the snapshot,
the arguments of its calls of `websocket_service_send_sensor_data` in order,
the result of `xQueueSend` (`none` when there is no queue) and the time the
task was blocked in it. -/
structure cycle_outcome where
  service : SensorService
  data : sensor_data_t
  ws_calls : List sensor_data_t
  queue_sent : Option Bool
  queue_blocked_ms : Nat
  deriving DecidableEq, Repr

/-- One cycle of the loop of `sensor_task` (lines 37-97), up to the periodic
delay. `ws_connected` is what `websocket_service_is_connected()` returns. -/
def sensor_task_cycle (dht11 : Option dht11_data_t) (mq2 : Option mq2_data_t)
    (ldr : Option ldr_data_t) (time_us : Nat) (ws_connected : Bool)
    (slot_free_after : Option Nat) (s : SensorService) : cycle_outcome :=
  let data := sensor_task_read dht11 mq2 ldr time_us
  let s1 : SensorService := { s with s_last_sensor_data := data }
  let current_ws_connected := s1.s_websocket_enabled && ws_connected
  let ws_just_connected := current_ws_connected && !s1.s_last_ws_connected
  let s2 : SensorService := { s1 with s_last_ws_connected := current_ws_connected }
  let ws_calls : List sensor_data_t :=
    if ws_just_connected && data.valid then [data]
    else if s2.s_websocket_enabled && data.valid then [data]
    else []
  match s2.s_data_queue with
  | none =>
    { service := s2, data := data, ws_calls := ws_calls, queue_sent := none,
      queue_blocked_ms := 0 }
  | some queue =>
    let r := xQueueSend queue data 100 slot_free_after
    { service := { s2 with s_data_queue := some r.queue }, data := data, ws_calls := ws_calls,
      queue_sent := some r.sent, queue_blocked_ms := r.blocked_ms }

/-- `websocket_service_send_sensor_data` (`websocket_service.c` lines 227-259):
the guards, then the transmission; `send_ok` says whether
`esp_websocket_client_send_text` succeeded. The second result is the snapshot
that was transmitted, if any. -/
def websocket_service_send_sensor_data (s_connected : Bool) (s_client : Bool)
    (send_ok : Bool) (data : Option sensor_data_t) : esp_err_t × Option sensor_data_t :=
  if !s_connected || !s_client then (.ESP_ERR_INVALID_STATE, none)
  else
    match data with
    | none => (.ESP_ERR_INVALID_ARG, none)
    | some d =>
      if !d.valid then (.ESP_ERR_INVALID_ARG, none)
      else if !send_ok then (.ESP_FAIL, none)
      else (.ESP_OK, some d)

/-! ## Display consumer (`temp_humidity_app.c`) -/

/-- The statistics of `temp_humidity_app.c` (lines 20-22). -/
structure DisplayStats where
  s_total_samples : Nat
  s_avg_temperature : ℚ
  s_avg_humidity : Nat
  deriving DecidableEq, Repr

/-- The statistics at start-up. -/
def initial_stats : DisplayStats :=
  { s_total_samples := 0, s_avg_temperature := 0, s_avg_humidity := 0 }

/-- The statistics update of `temp_humidity_display_task` for a valid snapshot
(lines 37-41). The counter is a `uint32_t`; the humidity mean is computed in
`uint32_t` (the `uint8_t` operands are promoted) and stored in a `uint8_t`. When
the counter wraps to 0 the integer division has a zero divisor and the update
has no result. -/
def update_statistics (data : sensor_data_t) (st : DisplayStats) : Option DisplayStats :=
  let total : Nat := (st.s_total_samples + 1) % 2 ^ 32
  let prev : Nat := (total + 2 ^ 32 - 1) % 2 ^ 32
  if total = 0 then none
  else
    some
      { s_total_samples := total
        s_avg_temperature := (st.s_avg_temperature * (prev : ℚ) + data.temperature) / (total : ℚ)
        s_avg_humidity :=
          (((st.s_avg_humidity * prev) % 2 ^ 32 + data.humidity) % 2 ^ 32 / total) % 256 }

/-- What one iteration of `temp_humidity_display_task` did: the statistics, the
controller and the queue afterwards, and the arguments of its calls of
`ac_service_update` in order. -/
structure display_outcome where
  stats : DisplayStats
  controller : State
  queue : QueueHandle_t
  updates : List sensor_data_t

/-- One iteration of the loop of `temp_humidity_display_task` (lines 35-110);
the logging and the advisory alerts write no state. `none` is the division by
zero of `update_statistics`. -/
def temp_humidity_display_iteration (p : Platform) (st : DisplayStats) (ac : State)
    (queue : QueueHandle_t) : Option display_outcome :=
  match xQueueReceive queue with
  | (none, queue1) =>
    some { stats := st, controller := ac, queue := queue1, updates := [] }
  | (some data, queue1) =>
    if data.valid then
      match update_statistics data st with
      | none => none
      | some st1 =>
        some { stats := st1, controller := (ac_service_update p (some data) ac).1,
               queue := queue1, updates := [data] }
    else some { stats := st, controller := ac, queue := queue1, updates := [] }

/-! ## Servo driver (`servo_driver.c`) -/

/-- Servo configuration, `servo_config_t` of `servo_driver.h`; `pwm_freq` is a
`uint32_t`, the pulse widths are `uint16_t`. -/
structure servo_config_t where
  gpio_pin : Int
  pwm_freq : Nat
  min_pulse : Nat
  max_pulse : Nat
  deriving DecidableEq, Repr

/-- `LEDC_DUTY_RES` of `servo_driver.c`: `LEDC_TIMER_14_BIT`, which is 14. -/
def LEDC_DUTY_RES : Nat := 14

/-- `LEDC_MAX_DUTY` of `servo_driver.c`: `(1 << LEDC_DUTY_RES) - 1`. -/
def LEDC_MAX_DUTY : Nat := (1 <<< LEDC_DUTY_RES) - 1

/-- The local `pulse_us` of `angle_to_duty` (lines 28-34): the angle is limited
to 180, the expression is evaluated in `int` (the division truncates towards
zero) and stored in a `uint16_t`. -/
def pulse_us (s_config : servo_config_t) (angle : Nat) : Nat :=
  let angle := if angle > 180 then 180 else angle
  (((s_config.min_pulse : Int) +
      Int.tdiv ((angle : Int) * ((s_config.max_pulse : Int) - (s_config.min_pulse : Int))) 180)
    % 65536).toNat

/-- `angle_to_duty` (lines 26-43). The two divisions are `uint32_t` divisions;
a zero divisor gives no result. -/
def angle_to_duty (s_config : servo_config_t) (angle : Nat) : Option Nat :=
  if s_config.pwm_freq = 0 then none
  else
    let period_us := 1000000 / s_config.pwm_freq
    if period_us = 0 then none
    else some ((pulse_us s_config angle * LEDC_MAX_DUTY) % 2 ^ 32 / period_us)

/-- The variables of `servo_driver.c` and the duty of its LEDC channel. -/
structure ServoDriver where
  s_config : servo_config_t
  s_initialized : Bool
  duty : Nat
  deriving DecidableEq, Repr

/-- `servo_set_angle` (lines 107-127); `ledc_set` and `ledc_update` are the
results of `ledc_set_duty` and `ledc_update_duty`. `none` is the division by
zero of `angle_to_duty`. -/
def servo_set_angle (ledc_set ledc_update : esp_err_t) (angle : Nat) (s : ServoDriver) :
    Option (ServoDriver × esp_err_t) :=
  if !s.s_initialized then some (s, .ESP_ERR_INVALID_STATE)
  else
    let angle := if angle > 180 then 180 else angle
    match angle_to_duty s.s_config angle with
    | none => none
    | some duty =>
      if ledc_set ≠ .ESP_OK then some (s, ledc_set)
      else if ledc_update ≠ .ESP_OK then some (s, ledc_update)
      else some ({ s with duty := duty }, .ESP_OK)

/-! ## CO2 sensor driver (`co2_driver.c`) -/

/-- `JW01_FRAME_SIZE`. -/
def JW01_FRAME_SIZE : Nat := 6

/-- `JW01_HEADER_1`. -/
def JW01_HEADER_1 : Nat := 0x2C

/-- The loop of `find_valid_frame` (lines 60-74) from offset `i` on; `rest` is
the buffer from `buffer[i]` to its end, so that `i + JW01_FRAME_SIZE <= len` is
`JW01_FRAME_SIZE <= rest.length`. The sum is a `uint8_t`. The result is the
returned `int` and the content of `frame_out` afterwards. -/
def find_valid_frame_loop : List Nat → Nat → List Nat → Int × List Nat
  | [], _, frame_out => (-1, frame_out)
  | b :: rest, i, frame_out =>
    if JW01_FRAME_SIZE ≤ (b :: rest).length then
      if b = JW01_HEADER_1 then
        let sum := ((b :: rest).take (JW01_FRAME_SIZE - 1)).foldl (fun acc x => (acc + x) % 256) 0
        if sum = (b :: rest).getD (JW01_FRAME_SIZE - 1) 0 then
          (((i + JW01_FRAME_SIZE : Nat) : Int), (b :: rest).take JW01_FRAME_SIZE)
        else find_valid_frame_loop rest (i + 1) frame_out
      else find_valid_frame_loop rest (i + 1) frame_out
    else (-1, frame_out)

/-- `find_valid_frame` (lines 56-76): `buffer` holds the `len` bytes, `frame_out`
is what the output array holds before the call. -/
def find_valid_frame (buffer : List Nat) (frame_out : List Nat) : Int × List Nat :=
  find_valid_frame_loop buffer 0 frame_out

/-- CO2 reading, `co2_data_t` of `co2_driver.h`. -/
structure co2_data_t where
  co2_ppm : Nat
  tvoc_ppb : Nat
  ch2o_ppb : Nat
  valid : Bool
  deriving DecidableEq, Repr

/-- The value `co2_driver_read` decodes from a frame (lines 176-178):
`(data_h << 8) | data_l`, stored in a `uint16_t`. -/
def decode_co2_ppm (frame : List Nat) : Nat :=
  let data_l := frame.getD 2 0
  let data_h := frame.getD 3 0
  ((data_h <<< 8) ||| data_l) % 65536

/-- `co2_driver_read` (lines 136-187): `data` is the output argument (`none` for
`NULL`), `uart` the bytes `uart_read_bytes` delivered (empty when it returned 0
or an error), `frame` the uninitialised content of the local frame array. -/
def co2_driver_read (s_initialized : Bool) (data : Option co2_data_t) (uart : List Nat)
    (frame : List Nat) : Option co2_data_t × esp_err_t :=
  if !s_initialized then (data, .ESP_ERR_INVALID_STATE)
  else
    match data with
    | none => (none, .ESP_ERR_INVALID_ARG)
    | some _ =>
      let data0 : co2_data_t := { co2_ppm := 0, tvoc_ppb := 0, ch2o_ppb := 0, valid := false }
      if uart.length = 0 then (some data0, .ESP_ERR_TIMEOUT)
      else
        let r := find_valid_frame uart frame
        if r.1 < 0 then (some data0, .ESP_ERR_NOT_FOUND)
        else
          (some { data0 with co2_ppm := decode_co2_ppm r.2, tvoc_ppb := 0, ch2o_ppb := 0,
                             valid := true }, .ESP_OK)

/-! ## DC motor driver (`tb6612_driver.c`) -/

/-- Motor state, `tb6612_state_t` of `tb6612_driver.h`. -/
inductive tb6612_state_t where
  | TB6612_STATE_IDLE
  | TB6612_STATE_FORWARD
  | TB6612_STATE_BACKWARD
  | TB6612_STATE_STOPPED
  deriving DecidableEq, Repr

/-- Motor direction, `tb6612_direction_t` of `tb6612_driver.h`. -/
inductive tb6612_direction_t where
  | TB6612_DIR_FORWARD
  | TB6612_DIR_BACKWARD
  deriving DecidableEq, Repr

/-- Motor configuration, `tb6612_config_t` of `tb6612_driver.h`. -/
structure tb6612_config_t where
  gpio_in1 : Int
  gpio_in2 : Int
  gpio_pwm : Int
  pwm_freq : Nat
  ledc_timer : Nat
  ledc_channel : Nat
  deriving DecidableEq, Repr

/-- One motor instance, `tb6612_motor_t` (lines 24-30), with the levels of its
two direction pins and the duty of its LEDC channel. -/
structure tb6612_motor_t where
  config : tb6612_config_t
  state : tb6612_state_t
  direction : tb6612_direction_t
  speed : Nat
  initialized : Bool
  in1 : Nat
  in2 : Nat
  duty : Nat
  deriving DecidableEq, Repr

/-- What the hardware layer answers to the driver: whether `malloc` succeeds,
and the results of `gpio_config`, of the three steps of `init_ledc_pwm`, of
`ledc_set_duty` and of `ledc_update_duty`. -/
structure Hardware where
  malloc_ok : Bool
  gpio_config : esp_err_t
  ledc_timer_config : esp_err_t
  ledc_channel_config : esp_err_t
  ledc_timer_resume : esp_err_t
  ledc_set_duty : esp_err_t
  ledc_update_duty : esp_err_t
  deriving DecidableEq, Repr

/-- `LEDC_MAX_DUTY` of `tb6612_driver.c` (10 bit resolution): 1023. -/
def TB6612_LEDC_MAX_DUTY : Nat := (1 <<< 10) - 1

/-- `init_gpio_output` (lines 40-54). -/
def init_gpio_output (hw : Hardware) (gpio_num : Int) : esp_err_t :=
  if gpio_num < 0 then .ESP_ERR_INVALID_ARG else hw.gpio_config

/-- `init_ledc_pwm` (lines 59-101). -/
def init_ledc_pwm (hw : Hardware) : esp_err_t :=
  if hw.ledc_timer_config ≠ .ESP_OK then hw.ledc_timer_config
  else if hw.ledc_channel_config ≠ .ESP_OK then hw.ledc_channel_config
  else if hw.ledc_timer_resume ≠ .ESP_OK then hw.ledc_timer_resume
  else .ESP_OK

/-- `set_pwm_duty` (lines 106-130); the duty reaches the channel, and the speed
is recorded, when both LEDC calls succeed. -/
def set_pwm_duty (hw : Hardware) (motor : tb6612_motor_t) (speed : Nat) :
    tb6612_motor_t × esp_err_t :=
  let speed := if speed > 100 then 100 else speed
  let duty := speed * TB6612_LEDC_MAX_DUTY / 100
  if hw.ledc_set_duty ≠ .ESP_OK then (motor, hw.ledc_set_duty)
  else if hw.ledc_update_duty ≠ .ESP_OK then (motor, hw.ledc_update_duty)
  else ({ motor with duty := duty, speed := speed }, .ESP_OK)

/-- `set_direction` (lines 135-150). -/
def set_direction (motor : tb6612_motor_t) (direction : tb6612_direction_t) : tb6612_motor_t :=
  if direction = .TB6612_DIR_FORWARD then
    { motor with in1 := 1, in2 := 0, direction := .TB6612_DIR_FORWARD }
  else
    { motor with in1 := 0, in2 := 1, direction := .TB6612_DIR_BACKWARD }

/-- `tb6612_create` (lines 152-217); `handle_given` says that the output pointer
`handle` is not `NULL`. The first result is the handle written, if any. -/
def tb6612_create (hw : Hardware) (config : Option tb6612_config_t) (handle_given : Bool) :
    Option tb6612_motor_t × esp_err_t :=
  match config with
  | none => (none, .ESP_ERR_INVALID_ARG)
  | some cfg =>
    if !handle_given then (none, .ESP_ERR_INVALID_ARG)
    else if !hw.malloc_ok then (none, .ESP_ERR_NO_MEM)
    else
      let motor : tb6612_motor_t :=
        { config := cfg, state := .TB6612_STATE_IDLE, direction := .TB6612_DIR_FORWARD,
          speed := 0, initialized := false, in1 := 0, in2 := 0, duty := 0 }
      if init_gpio_output hw cfg.gpio_in1 ≠ .ESP_OK then (none, init_gpio_output hw cfg.gpio_in1)
      else if init_gpio_output hw cfg.gpio_in2 ≠ .ESP_OK then
        (none, init_gpio_output hw cfg.gpio_in2)
      else if init_ledc_pwm hw ≠ .ESP_OK then (none, init_ledc_pwm hw)
      else
        let motor := set_direction motor .TB6612_DIR_FORWARD
        let motor := (set_pwm_duty hw motor 0).1
        (some { motor with initialized := true, state := .TB6612_STATE_STOPPED }, .ESP_OK)

/-- `tb6612_forward` (lines 219-248); a handle is `none` for `NULL`. -/
def tb6612_forward (hw : Hardware) (handle : Option tb6612_motor_t) (speed : Nat) :
    Option tb6612_motor_t × esp_err_t :=
  match handle with
  | none => (none, .ESP_ERR_INVALID_ARG)
  | some motor =>
    if !motor.initialized then (some motor, .ESP_ERR_INVALID_STATE)
    else
      let motor := set_direction motor .TB6612_DIR_FORWARD
      let r := set_pwm_duty hw motor speed
      if r.2 ≠ .ESP_OK then (some r.1, r.2)
      else (some { r.1 with state := .TB6612_STATE_FORWARD }, .ESP_OK)

/-- `tb6612_backward` (lines 250-275). -/
def tb6612_backward (hw : Hardware) (handle : Option tb6612_motor_t) (speed : Nat) :
    Option tb6612_motor_t × esp_err_t :=
  match handle with
  | none => (none, .ESP_ERR_INVALID_ARG)
  | some motor =>
    if !motor.initialized then (some motor, .ESP_ERR_INVALID_STATE)
    else
      let motor := set_direction motor .TB6612_DIR_BACKWARD
      let r := set_pwm_duty hw motor speed
      if r.2 ≠ .ESP_OK then (some r.1, r.2)
      else (some { r.1 with state := .TB6612_STATE_BACKWARD }, .ESP_OK)

/-- `tb6612_stop` (lines 277-300). -/
def tb6612_stop (hw : Hardware) (handle : Option tb6612_motor_t) :
    Option tb6612_motor_t × esp_err_t :=
  match handle with
  | none => (none, .ESP_ERR_INVALID_ARG)
  | some motor =>
    if !motor.initialized then (some motor, .ESP_ERR_INVALID_STATE)
    else
      let r := set_pwm_duty hw motor 0
      if r.2 ≠ .ESP_OK then (some r.1, r.2)
      else (some { r.1 with state := .TB6612_STATE_STOPPED }, .ESP_OK)

/-- `tb6612_set_speed` (lines 302-327). -/
def tb6612_set_speed (hw : Hardware) (handle : Option tb6612_motor_t) (speed : Nat) :
    Option tb6612_motor_t × esp_err_t :=
  match handle with
  | none => (none, .ESP_ERR_INVALID_ARG)
  | some motor =>
    if !motor.initialized then (some motor, .ESP_ERR_INVALID_STATE)
    else if speed = 0 then tb6612_stop hw (some motor)
    else
      let r := set_pwm_duty hw motor speed
      if r.2 ≠ .ESP_OK then (some r.1, r.2)
      else (some r.1, .ESP_OK)

/-- `tb6612_get_state` (lines 329-337). -/
def tb6612_get_state (handle : Option tb6612_motor_t) : tb6612_state_t :=
  match handle with
  | none => .TB6612_STATE_IDLE
  | some motor => motor.state

/-- `tb6612_get_speed` (lines 339-347). -/
def tb6612_get_speed (handle : Option tb6612_motor_t) : Nat :=
  match handle with
  | none => 0
  | some motor => motor.speed

/-! ## Auxiliary definitions: projections, the spec's formulas, concrete inputs -/

/-- The controller-owned part of the state that no animation helper writes. -/
def State.core (s : State) : ac_service_config_t × ac_status_t × Bool × ℚ × Bool :=
  (s.s_config, s.s_status, s.s_initialized, s.s_current_temp, s.s_led_enabled)

/-- The state `ac_service_update` has built when it reaches the `auto_mode` test
(lines 359-372): the temperature is stored and the animation parameters are
refreshed when the animator runs and the temperature moved by more than 1. -/
def update_stored (d : sensor_data_t) (s : State) : State :=
  let s1 : State := { s with s_current_temp := d.temperature }
  if s1.s_animation_running ∧ |d.temperature - s.s_current_temp| > 1 then
    calculate_breathing_params |s1.s_current_temp - s1.s_status.target_temp| s1
  else s1

/-- The configuration `main.c` passes to `ac_service_init`. -/
def main_config : ac_service_config_t :=
  { temp_min := 20, temp_max := 26, humidity_min := 30, humidity_max := 70,
    smoke_threshold := 1, gpio_r := 11, gpio_g := 12, gpio_b := 13 }

/-- The controller right after `ac_service_init main_config` on the load-time
state. -/
def ready_state : State := (ac_service_init (some main_config) initial_state).1

/-- The same controller with automatic control switched on (`ac_service_set_auto(true)`
only assigns `s_status.auto_mode`). -/
def auto_state : State :=
  { ready_state with s_status := { ready_state.s_status with auto_mode := true } }

/-- A valid reading with the given temperature, humidity and smoke voltage. -/
def reading (temperature : ℚ) (humidity : Nat) (smoke_voltage : ℚ) : sensor_data_t :=
  { temperature := temperature, humidity := humidity, smoke_detected := false,
    smoke_voltage := smoke_voltage, light_intensity := 50, light_sufficient := true,
    timestamp_ms := 0, valid := true }

/-- The platform on which task creation succeeds and a stop is honoured. -/
def good_platform : Platform := { task_create_ok := true, task_stop_ok := true }

/-- The spec's formula `clamp(round(d * 10), 0, 100)`. -/
def spec_deviation_to_intensity (d : ℚ) : Nat :=
  (max 0 (min (round (d * 10)) 100)).toNat

/-- An invalid reading with the given temperature, humidity and smoke voltage. -/
def invalid_reading (temperature : ℚ) (humidity : Nat) (smoke_voltage : ℚ) : sensor_data_t :=
  { reading temperature humidity smoke_voltage with valid := false }

/-- The tier table of the spec, keyed by the temperature deviation `d`:
`[0,4)`, `[4,8)`, `[8,12)` and `[12,∞)`; the table has no row for `d < 0`. -/
def spec_breathing_tier (d : ℚ) : Option BreathingParams :=
  if 0 ≤ d ∧ d < 4 then some { min_brightness := 10, max_brightness := 70, step := 2, delay_ms := 40 }
  else if 4 ≤ d ∧ d < 8 then
    some { min_brightness := 10, max_brightness := 85, step := 3, delay_ms := 25 }
  else if 8 ≤ d ∧ d < 12 then
    some { min_brightness := 10, max_brightness := 100, step := 4, delay_ms := 15 }
  else if 12 ≤ d then
    some { min_brightness := 5, max_brightness := 100, step := 5, delay_ms := 10 }
  else none

/-- The controller heating towards a target of 24 degrees with 24.5 degrees
stored as the current temperature. -/
def scenario_c_state : State :=
  { ready_state with
    s_status := { ready_state.s_status with mode := .AC_MODE_HEATING, target_temp := 24 }
    s_current_temp := 49/2 }

/-- The same controller with the animation task running. -/
def animating_state : State :=
  { scenario_c_state with s_animation_running := true, s_animation_task := true }

/-- A state in which the animation loop is live and holds one of the four
parameter rows, with the brightness inside the row's range and strictly inside
it on the side the direction points away from. -/
def TierState (t : State) : Prop :=
  t.s_animation_running = true ∧
  (t.s_status.mode = .AC_MODE_HEATING ∨ t.s_status.mode = .AC_MODE_COOLING) ∧
  ((t.s_breathing_min = 10 ∧ t.s_breathing_max = 70 ∧ t.s_breathing_step = 2) ∨
   (t.s_breathing_min = 10 ∧ t.s_breathing_max = 85 ∧ t.s_breathing_step = 3) ∨
   (t.s_breathing_min = 10 ∧ t.s_breathing_max = 100 ∧ t.s_breathing_step = 4) ∨
   (t.s_breathing_min = 5 ∧ t.s_breathing_max = 100 ∧ t.s_breathing_step = 5)) ∧
  t.s_breathing_min ≤ t.s_current_brightness ∧
  t.s_current_brightness ≤ t.s_breathing_max ∧
  (t.s_brightness_increasing = true → t.s_current_brightness < t.s_breathing_max) ∧
  (t.s_brightness_increasing = false → t.s_breathing_min < t.s_current_brightness)

/-- The state reached from `ready_state` by `ac_service_set_led_enabled(false)`
followed by `ac_service_deinit`. -/
def led_off_deinit_state : State :=
  (ac_service_deinit good_platform
    (ac_service_set_led_enabled good_platform false ready_state).1).1

/-- The controller in manual mode, heating towards 24 degrees with the animator
running, reached from `ready_state` by an update that stores `temp`, then
`ac_service_set_target_temp(24)` and `ac_service_set_mode(Heating, 0)`. -/
def manual_heating_state (temp : ℚ) : State :=
  (ac_service_set_mode good_platform .AC_MODE_HEATING 0
    (ac_service_set_target_temp 24
      (ac_service_update good_platform (some (reading temp 50 (1/5))) ready_state).1).1).1

/-- One call of the controller's interface, with its arguments. -/
inductive ac_call where
  | init (config : Option ac_service_config_t)
  | update (sensor_data : Option sensor_data_t)
  | set_mode (mode : ac_mode_t) (intensity : Nat)
  | set_auto (enable : Bool)
  | set_target_temp (target_temp : ℚ)
  | set_led_enabled (enabled : Bool)

/-- The state after one interface call. -/
def apply_call (p : Platform) : ac_call → State → State
  | .init config, s => (ac_service_init config s).1
  | .update sensor_data, s => (ac_service_update p sensor_data s).1
  | .set_mode mode intensity, s => (ac_service_set_mode p mode intensity s).1
  | .set_auto enable, s => (ac_service_set_auto enable s).1
  | .set_target_temp target_temp, s => (ac_service_set_target_temp target_temp s).1
  | .set_led_enabled enabled, s => (ac_service_set_led_enabled p enabled s).1

/-- The state after a sequence of interface calls, first call first. -/
def run_calls (p : Platform) : List ac_call → State → State
  | [], s => s
  | c :: cs, s => run_calls p cs (apply_call p c s)

/-- Whether every `ac_service_init` of the sequence is made while the animator
is not running. -/
def init_only_when_stopped (p : Platform) : List ac_call → State → Bool
  | [], _ => true
  | c :: cs, s =>
    (match c with
     | .init _ => !s.s_animation_running
     | _ => true) && init_only_when_stopped p cs (apply_call p c s)

/-- The animator invariant of the spec: the running flag is set exactly when the
light is enabled and the mode is `Heating` or `Cooling`. -/
def animator_invariant (s : State) : Prop :=
  s.s_animation_running = true ↔
    (s.s_led_enabled = true ∧
      (s.s_status.mode = .AC_MODE_HEATING ∨ s.s_status.mode = .AC_MODE_COOLING))

/-- The number a string of decimal digits denotes. -/
def decimal_value (ds : List Char) : Nat :=
  Nat.ofDigits 10 (ds.reverse.map (fun c => c.toNat - 48))

/-- The commands of the vocabulary that take no argument. -/
def exact_commands : List (List Char) :=
  ["AC_AUTO_ON".toList, "AC_AUTO_OFF".toList, "AC_OFF".toList, "LED_ON".toList,
   "LED_OFF".toList, "LED_GREEN".toList, "LED_RED".toList, "SMART_LIGHT_ON".toList,
   "SMART_LIGHT_OFF".toList]

/-- Whether the command starts with one of the four prefixes that are followed
by an argument: `AC_COOLING_`, `AC_HEATING_`, `MOTOR_`, `SERVO_`. -/
def takes_argument (command : List Char) : Bool :=
  strncmp_eq command "AC_COOLING_".toList 11 || strncmp_eq command "AC_HEATING_".toList 11 ||
  strncmp_eq command "MOTOR_".toList 6 || strncmp_eq command "SERVO_".toList 6

/-- Whether the last assignment to `s_status.mode` along a sequence of calls was
made by the automatic branch of `ac_service_update` (a valid reading on an
initialised controller in automatic mode). `ac_service_init` and
`ac_service_set_mode` assign the mode themselves; the other calls leave it. -/
def mode_set_by_auto (p : Platform) : List ac_call → State → Bool → Bool
  | [], _, b => b
  | c :: cs, s, b =>
    mode_set_by_auto p cs (apply_call p c s)
      (match c with
       | .init (some _) => false
       | .update (some d) =>
         if s.s_initialized && d.valid && s.s_status.auto_mode then true else b
       | .set_mode _ _ => if s.s_initialized then false else b
       | _ => b)

/-- The range property of C28 for one state: intensity at most 100, and 0 in
mode Off or Comfort when the flag says the automatic path wrote the mode. -/
def intensity_invariant (s : State) (b : Bool) : Prop :=
  s.s_status.intensity ≤ 100 ∧
  (b = true → (s.s_status.mode = .AC_MODE_OFF ∨ s.s_status.mode = .AC_MODE_COMFORT) →
    s.s_status.intensity = 0)

/-- A DHT11 result used in the examples: 23 °C, 50 %. -/
def dht11_sample : dht11_data_t :=
  { temperature := 23, humidity := 50, temperature_raw := 230, humidity_raw := 500 }

/-- An MQ-2 result used in the examples: smoke detected at 3/2 V. -/
def mq2_sample : mq2_data_t :=
  { smoke_detected := true, adc_value := 1861, voltage := 3/2, concentration := 45,
    timestamp_ms := 0 }

/-- An LDR result used in the examples: 80 % light. -/
def ldr_sample : ldr_data_t :=
  { light_sufficient := true, adc_value := 3276, voltage := 66/25, light_intensity := 80,
    light_level := .LIGHT_LEVEL_BRIGHT, timestamp_ms := 0 }

/-- The variables of `sensor_service.c` once the service runs with the queue of
`main.c` and the telemetry sink enabled, before the first cycle. -/
def sensor_service_started : SensorService :=
  { s_data_queue := some s_sensor_data_queue, s_websocket_enabled := true,
    s_last_sensor_data := zero_sensor_data, s_last_ws_connected := false }

/-- The items the consumer gets from `count` successive calls of
`xQueueReceive`, stopping at the first call that finds the queue empty. -/
def dequeue_many : Nat → QueueHandle_t → List sensor_data_t
  | 0, _ => []
  | count + 1, queue =>
    match xQueueReceive queue with
    | (none, _) => []
    | (some item, queue1) => item :: dequeue_many count queue1

/-- A valid snapshot with temperature `k`, used to tell queue items apart. -/
def numbered_snapshot (k : Nat) : sensor_data_t :=
  { temperature := k, humidity := 50, smoke_detected := false, smoke_voltage := 0,
    light_intensity := 0, light_sufficient := false, timestamp_ms := 5000 * k, valid := true }

/-- The queue of `main.c` holding ten snapshots, numbered 0 to 9. -/
def full_queue : QueueHandle_t :=
  { uxQueueLength := 10, items := (List.range 10).map numbered_snapshot }

/-- The variables of `sensor_service.c` with the full queue. -/
def sensor_service_full : SensorService :=
  { sensor_service_started with s_data_queue := some full_queue }

/-- The statistics after `count` valid snapshots that are all equal to `data`. -/
def feed_same : Nat → sensor_data_t → DisplayStats → Option DisplayStats
  | 0, _, st => some st
  | count + 1, data, st => (update_statistics data st).bind (feed_same count data)

/-- The servo configuration `main.c` passes to `servo_init`, with the given pin. -/
def servo_main_config (gpio_pin : Int) : servo_config_t :=
  { gpio_pin := gpio_pin, pwm_freq := 50, min_pulse := 500, max_pulse := 2500 }

/-- The specification's acceptance condition at offset `i` of a buffer: six
bytes are available, the first is `0x2C`, and the sum of the first five modulo
256 is the sixth. -/
def valid_frame_at (buffer : List Nat) (i : Nat) : Prop :=
  i + 6 ≤ buffer.length ∧ buffer.getD i 0 = 0x2C ∧
  (buffer.getD i 0 + buffer.getD (i + 1) 0 + buffer.getD (i + 2) 0 + buffer.getD (i + 3) 0 +
    buffer.getD (i + 4) 0) % 256 = buffer.getD (i + 5) 0

/-- The acceptance condition can be evaluated. -/
instance valid_frame_at_decidable (buffer : List Nat) (i : Nat) :
    Decidable (valid_frame_at buffer i) := by
  unfold valid_frame_at
  infer_instance

/-- The example frame of the comment in `co2_driver.c` (line 22). -/
def example_frame : List Nat := [0x2c, 0x02, 0xac, 0x03, 0xff, 0xdc]

/-- A received buffer in which the example frame starts at offset 1. -/
def example_buffer : List Nat := [0xff, 0x2c, 0x02, 0xac, 0x03, 0xff, 0xdc, 0x2c]

/-- One call of the motor driver's interface, with its speed argument. -/
inductive tb6612_call where
  | forward (speed : Nat)
  | backward (speed : Nat)
  | stop
  | set_speed (speed : Nat)
  deriving DecidableEq, Repr

/-- The handle's motor after one driver call. -/
def tb6612_apply (hw : Hardware) : tb6612_call → Option tb6612_motor_t → Option tb6612_motor_t
  | .forward speed, handle => (tb6612_forward hw handle speed).1
  | .backward speed, handle => (tb6612_backward hw handle speed).1
  | .stop, handle => (tb6612_stop hw handle).1
  | .set_speed speed, handle => (tb6612_set_speed hw handle speed).1

/-- The handle's motor after a sequence of driver calls, first call first. -/
def tb6612_run (hw : Hardware) : List tb6612_call → Option tb6612_motor_t →
    Option tb6612_motor_t
  | [], handle => handle
  | c :: cs, handle => tb6612_run hw cs (tb6612_apply hw c handle)

/-- Hardware on which every call succeeds. -/
def good_hardware : Hardware :=
  { malloc_ok := true, gpio_config := .ESP_OK, ledc_timer_config := .ESP_OK,
    ledc_channel_config := .ESP_OK, ledc_timer_resume := .ESP_OK, ledc_set_duty := .ESP_OK,
    ledc_update_duty := .ESP_OK }

/-- The configuration of the first motor in `motor_app.c` (lines 17-24). -/
def motor_1_config : tb6612_config_t :=
  { gpio_in1 := 14, gpio_in2 := 15, gpio_pwm := 16, pwm_freq := 5000, ledc_timer := 2,
    ledc_channel := 4 }

/-- The calls the acceleration phase of `motor_app_test_speed_ramp` starts with
(lines 84-87): `forward 0`, then `set_speed` 0 and 10. -/
def ramp_start : List tb6612_call := [.forward 0, .set_speed 0, .set_speed 10]

/-- The calls of the whole acceleration phase of `motor_app_test_speed_ramp`
(lines 84-90). -/
def ramp_acceleration : List tb6612_call :=
  .forward 0 :: (List.range 11).map (fun k => .set_speed (10 * k))

/-! ## Frame lemmas

The animation helpers touch only the animation fields and the RGB output. -/

theorem core_eq_iff (s t : State) :
    s.core = t.core ↔ s.s_config = t.s_config ∧ s.s_status = t.s_status ∧
      s.s_initialized = t.s_initialized ∧ s.s_current_temp = t.s_current_temp ∧
      s.s_led_enabled = t.s_led_enabled := by
  simp [State.core]

theorem rgb_pwm_set_color_core (c : rgb_color_t) (s : State) :
    (rgb_pwm_set_color c s).core = s.core := by
  unfold rgb_pwm_set_color
  split_ifs <;> rfl

theorem calculate_breathing_params_core (d : ℚ) (s : State) :
    (calculate_breathing_params d s).core = s.core := by
  unfold calculate_breathing_params
  split_ifs <;> rfl

theorem stop_breathing_animation_core (p : Platform) (s : State) :
    (stop_breathing_animation p s).core = s.core := by
  unfold stop_breathing_animation
  split_ifs <;> rfl

theorem start_breathing_animation_core (p : Platform) (s : State) :
    (start_breathing_animation p s).core = s.core := by
  unfold start_breathing_animation
  simp only
  split_ifs
  · exact calculate_breathing_params_core _ s
  · exact calculate_breathing_params_core _ s
  · exact calculate_breathing_params_core _ s

theorem update_rgb_led_core (p : Platform) (s : State) :
    (update_rgb_led p s).1.core = s.core := by
  have hstop : ∀ c, (rgb_pwm_set_color c (stop_breathing_animation p s)).core = s.core :=
    fun c => (rgb_pwm_set_color_core c _).trans (stop_breathing_animation_core p s)
  unfold update_rgb_led
  split_ifs
  · exact hstop _
  · split
    · exact hstop _
    · exact hstop _
    · exact start_breathing_animation_core p s
    · exact start_breathing_animation_core p s

theorem update_rgb_led_result (p : Platform) (s : State) :
    (update_rgb_led p s).2 = .ESP_OK := by
  unfold update_rgb_led
  split_ifs
  · rfl
  · split <;> rfl

theorem update_rgb_led_status (p : Platform) (s : State) :
    (update_rgb_led p s).1.s_status = s.s_status :=
  ((core_eq_iff _ _).1 (update_rgb_led_core p s)).2.1

theorem update_rgb_led_config (p : Platform) (s : State) :
    (update_rgb_led p s).1.s_config = s.s_config :=
  ((core_eq_iff _ _).1 (update_rgb_led_core p s)).1

theorem update_rgb_led_current_temp (p : Platform) (s : State) :
    (update_rgb_led p s).1.s_current_temp = s.s_current_temp :=
  ((core_eq_iff _ _).1 (update_rgb_led_core p s)).2.2.2.1

theorem calculate_breathing_params_status (d : ℚ) (s : State) :
    (calculate_breathing_params d s).s_status = s.s_status :=
  ((core_eq_iff _ _).1 (calculate_breathing_params_core d s)).2.1

theorem calculate_breathing_params_config (d : ℚ) (s : State) :
    (calculate_breathing_params d s).s_config = s.s_config :=
  ((core_eq_iff _ _).1 (calculate_breathing_params_core d s)).1

theorem update_stored_core (d : sensor_data_t) (s : State) :
    (update_stored d s).core = ({ s with s_current_temp := d.temperature } : State).core := by
  unfold update_stored
  simp only
  split_ifs
  · exact calculate_breathing_params_core _ _
  · rfl

theorem update_stored_status (d : sensor_data_t) (s : State) :
    (update_stored d s).s_status = s.s_status :=
  ((core_eq_iff _ _).1 (update_stored_core d s)).2.1

theorem update_stored_config (d : sensor_data_t) (s : State) :
    (update_stored d s).s_config = s.s_config :=
  ((core_eq_iff _ _).1 (update_stored_core d s)).1

theorem update_stored_current_temp (d : sensor_data_t) (s : State) :
    (update_stored d s).s_current_temp = d.temperature :=
  ((core_eq_iff _ _).1 (update_stored_core d s)).2.2.2.1

/-- Unfolding of `ac_service_update` on an initialised controller and a valid
reading, in terms of `update_stored`. -/
theorem ac_service_update_valid (p : Platform) (s : State) (d : sensor_data_t)
    (hinit : s.s_initialized = true) (hvalid : d.valid = true) :
    ac_service_update p (some d) s =
      if !s.s_status.auto_mode then (update_stored d s, .ESP_OK)
      else if d.smoke_voltage > s.s_config.smoke_threshold then
        update_rgb_led p
          { update_stored d s with
            s_status := { s.s_status with mode := .AC_MODE_OFF, intensity := 0 } }
      else if d.temperature ≥ s.s_config.temp_min ∧ d.temperature ≤ s.s_config.temp_max ∧
          (d.humidity : Int) ≥ s.s_config.humidity_min ∧
          (d.humidity : Int) ≤ s.s_config.humidity_max then
        update_rgb_led p
          { update_stored d s with
            s_status := { s.s_status with mode := .AC_MODE_COMFORT, intensity := 0 } }
      else if d.temperature < s.s_config.temp_min then
        update_rgb_led p
          { update_stored d s with
            s_status := { s.s_status with
              mode := .AC_MODE_HEATING
              intensity := calculate_temp_deviation s.s_config d.temperature } }
      else if d.temperature > s.s_config.temp_max then
        update_rgb_led p
          { update_stored d s with
            s_status := { s.s_status with
              mode := .AC_MODE_COOLING
              intensity := calculate_temp_deviation s.s_config d.temperature } }
      else
        update_rgb_led p
          { update_stored d s with
            s_status := { s.s_status with mode := .AC_MODE_COMFORT, intensity := 0 } } := by
  have hi : ¬ ((!s.s_initialized) = true) := by simp [hinit]
  have hv : ¬ ((!d.valid) = true) := by simp [hvalid]
  have hs := update_stored_status d s
  have hc := update_stored_config d s
  unfold update_stored at hs hc ⊢
  unfold ac_service_update
  rw [if_neg hi]
  simp only
  rw [if_neg hv]
  simp only at hs hc ⊢
  simp only [hs, hc]
  split_ifs <;> rfl

/-! ## Claims about `ac_service_update` -/

/-- C1. Smoke override: on an initialised controller in automatic mode, a valid
reading whose smoke voltage is strictly above the configured threshold leaves
`mode = Off` and `intensity = 0`, whatever temperature and humidity it carries. -/
theorem smoke_override (p : Platform) (s : State) (d : sensor_data_t)
    (hinit : s.s_initialized = true) (hauto : s.s_status.auto_mode = true)
    (hvalid : d.valid = true) (hsmoke : d.smoke_voltage > s.s_config.smoke_threshold) :
    (ac_service_update p (some d) s).1.s_status.mode = .AC_MODE_OFF ∧
    (ac_service_update p (some d) s).1.s_status.intensity = 0 := by
  rw [ac_service_update_valid p s d hinit hvalid]
  simp [hauto, hsmoke, update_rgb_led_status]

/-- Scenario B: threshold 1.0, smoke 1.5, temperature 23 (in band) gives
`(Off, 0)`. -/
theorem smoke_override_witness :
    auto_state.s_initialized = true ∧ auto_state.s_status.auto_mode = true ∧
    auto_state.s_config.smoke_threshold = 1 ∧
    (ac_service_update good_platform (some (reading 23 50 (3/2))) auto_state).1.s_status.mode
      = .AC_MODE_OFF ∧
    (ac_service_update good_platform (some (reading 23 50 (3/2))) auto_state).1.s_status.intensity
      = 0 :=
  ⟨rfl, rfl, rfl,
   smoke_override good_platform auto_state (reading 23 50 (3/2)) rfl rfl rfl
     (by norm_num [auto_state, ready_state, ac_service_init, main_config, initial_state,
                   rgb_pwm_set_color, reading])⟩

/-- The automatic branch of `ac_service_update` as a table on the reading. -/
theorem ac_service_update_decision (p : Platform) (s : State) (d : sensor_data_t)
    (hinit : s.s_initialized = true) (hauto : s.s_status.auto_mode = true)
    (hvalid : d.valid = true) (hsmoke : d.smoke_voltage ≤ s.s_config.smoke_threshold) :
    ((ac_service_update p (some d) s).1.s_status.mode,
     (ac_service_update p (some d) s).1.s_status.intensity) =
      if s.s_config.temp_min ≤ d.temperature ∧ d.temperature ≤ s.s_config.temp_max ∧
          s.s_config.humidity_min ≤ (d.humidity : Int) ∧
          (d.humidity : Int) ≤ s.s_config.humidity_max then
        (.AC_MODE_COMFORT, 0)
      else if d.temperature < s.s_config.temp_min then
        (.AC_MODE_HEATING, deviation_to_intensity (s.s_config.temp_min - d.temperature))
      else if d.temperature > s.s_config.temp_max then
        (.AC_MODE_COOLING, deviation_to_intensity (d.temperature - s.s_config.temp_max))
      else
        (.AC_MODE_COMFORT, 0) := by
  rw [ac_service_update_valid p s d hinit hvalid]
  have hns : ¬ d.smoke_voltage > s.s_config.smoke_threshold := not_lt.mpr hsmoke
  simp only [hauto, Bool.not_true, Bool.false_eq_true, if_false, hns, ge_iff_le]
  split_ifs with h1 h2 h3
  · simp [update_rgb_led_status]
  · simp [update_rgb_led_status, calculate_temp_deviation, h2]
  · simp [update_rgb_led_status, calculate_temp_deviation, h2, h3]
  · simp [update_rgb_led_status]

/-- C2. Automatic decision table: on an initialised controller in automatic mode
and a valid reading with smoke at or below the threshold, the resulting
`(mode, intensity)` is `(Comfort, 0)` when temperature and humidity are both in
band; otherwise `(Heating, deviation_to_intensity (temp_min - temp))` when
`temp < temp_min`; otherwise `(Cooling, deviation_to_intensity (temp - temp_max))`
when `temp > temp_max`; otherwise `(Comfort, 0)`. -/
theorem auto_decision_table (p : Platform) (s : State) (d : sensor_data_t)
    (hinit : s.s_initialized = true) (hauto : s.s_status.auto_mode = true)
    (hvalid : d.valid = true) (hsmoke : d.smoke_voltage ≤ s.s_config.smoke_threshold) :
    ((ac_service_update p (some d) s).1.s_status.mode,
     (ac_service_update p (some d) s).1.s_status.intensity) =
      if s.s_config.temp_min ≤ d.temperature ∧ d.temperature ≤ s.s_config.temp_max ∧
          s.s_config.humidity_min ≤ (d.humidity : Int) ∧
          (d.humidity : Int) ≤ s.s_config.humidity_max then
        (.AC_MODE_COMFORT, 0)
      else if d.temperature < s.s_config.temp_min then
        (.AC_MODE_HEATING, deviation_to_intensity (s.s_config.temp_min - d.temperature))
      else if d.temperature > s.s_config.temp_max then
        (.AC_MODE_COOLING, deviation_to_intensity (d.temperature - s.s_config.temp_max))
      else
        (.AC_MODE_COMFORT, 0) :=
  ac_service_update_decision p s d hinit hauto hvalid hsmoke

/-- Scenario A: band 20..26, reading `temp = 28, humidity = 50, smoke = 0.2`
gives `(Cooling, 20)`. -/
theorem auto_decision_table_witness :
    auto_state.s_config.temp_min = 20 ∧ auto_state.s_config.temp_max = 26 ∧
    ((ac_service_update good_platform (some (reading 28 50 (1/5))) auto_state).1.s_status.mode,
     (ac_service_update good_platform (some (reading 28 50 (1/5))) auto_state).1.s_status.intensity)
      = (.AC_MODE_COOLING, 20) := by
  refine ⟨rfl, rfl, ?_⟩
  rw [auto_decision_table good_platform auto_state (reading 28 50 (1/5)) rfl rfl rfl
    (by norm_num [auto_state, ready_state, ac_service_init, main_config, initial_state,
                  rgb_pwm_set_color, reading])]
  norm_num [auto_state, ready_state, ac_service_init, main_config, initial_state,
            rgb_pwm_set_color, reading, deviation_to_intensity, float_to_uint8]
  rfl

/-! ## The intensity conversion -/

/-- Truncation toward zero of a non-negative value below 256 survives the
narrowing to `uint8_t` unchanged. -/
theorem float_to_uint8_of_lt (x : ℚ) (h0 : 0 ≤ x) (h : x < 256) :
    float_to_uint8 x = ⌊x⌋.toNat := by
  unfold float_to_uint8
  rw [if_pos h0]
  have h1 : 0 ≤ ⌊x⌋ := Int.floor_nonneg.mpr h0
  have h2 : ⌊x⌋ < 256 := Int.floor_lt.mpr (by exact_mod_cast h)
  rw [Int.emod_eq_of_lt h1 h2]

/-- C3 (evaluation of the code where the claim fails). A deviation of 30 degrees
does not give 100: `30 * 10 = 300` is narrowed to `uint8_t` before the limit is
applied, which leaves `300 mod 256 = 44`. The same happens through
`calculate_temp_deviation` and `ac_service_update` with the band 20..26 and a
temperature of 56, and the conversion is not monotonic: a deviation of 25 gives
100 while 26 gives 4. -/
theorem deviation_to_intensity_wraps :
    deviation_to_intensity 30 = 44 ∧
    calculate_temp_deviation main_config 56 = 44 ∧
    (ac_service_update good_platform (some (reading 56 50 (1/5))) auto_state).1.s_status.mode
      = .AC_MODE_COOLING ∧
    (ac_service_update good_platform (some (reading 56 50 (1/5))) auto_state).1.s_status.intensity
      = 44 ∧
    deviation_to_intensity 25 = 100 ∧ deviation_to_intensity 26 = 4 := by
  have h30 : deviation_to_intensity 30 = 44 := by
    norm_num [deviation_to_intensity, float_to_uint8]
    rfl
  have hdev : calculate_temp_deviation main_config 56 = 44 := by
    norm_num [calculate_temp_deviation, main_config, deviation_to_intensity, float_to_uint8]
    rfl
  have hupd := ac_service_update_decision good_platform auto_state (reading 56 50 (1/5))
    rfl rfl rfl (by norm_num [auto_state, ready_state, ac_service_init, main_config,
                              initial_state, rgb_pwm_set_color, reading])
  have hcfg : auto_state.s_config = main_config := rfl
  have ht : (reading 56 50 (1/5)).temperature = 56 := rfl
  rw [hcfg, ht] at hupd
  norm_num [main_config] at hupd
  obtain ⟨hmode, hint⟩ := hupd
  refine ⟨h30, hdev, hmode, hint.trans h30, ?_, ?_⟩
  · norm_num [deviation_to_intensity, float_to_uint8]
  · norm_num [deviation_to_intensity, float_to_uint8]
    rfl

/-- C4 (counterexample). At `d = 0.875` the code gives 8 (8.75 truncated) while
`clamp(round(d * 10), 0, 100)` is 9. -/
theorem deviation_to_intensity_not_rounded :
    (0 : ℚ) ≤ 7/8 ∧ deviation_to_intensity (7/8) = 8 ∧
    spec_deviation_to_intensity (7/8) = 9 ∧
    deviation_to_intensity (7/8) ≠ spec_deviation_to_intensity (7/8) := by
  have h1 : deviation_to_intensity (7/8) = 8 := by
    norm_num [deviation_to_intensity, float_to_uint8]
    rfl
  have h2 : spec_deviation_to_intensity (7/8) = 9 := by
    norm_num [spec_deviation_to_intensity, round_eq]
    rfl
  refine ⟨by norm_num, h1, h2, ?_⟩
  rw [h1, h2]
  decide

/-- Below the `uint8_t` limit the conversion is truncation followed by the
limit of 100. -/
theorem deviation_to_intensity_of_lt (d : ℚ) (h0 : 0 ≤ d) (h : d * 10 < 256) :
    deviation_to_intensity d = min ⌊d * 10⌋.toNat 100 := by
  unfold deviation_to_intensity
  simp only
  rw [float_to_uint8_of_lt (d * 10) (by positivity) h]
  split_ifs with hgt
  · omega
  · omega

/-- Where `d * 10` still fits in a `uint8_t`, the conversion is monotonic and
gives 100 from `d = 10` on. -/
theorem deviation_to_intensity_in_range (d1 d2 : ℚ) (h0 : 0 ≤ d1) (h12 : d1 ≤ d2)
    (h : d2 * 10 < 256) :
    deviation_to_intensity d1 ≤ deviation_to_intensity d2 ∧
    (10 ≤ d2 → deviation_to_intensity d2 = 100) := by
  have h1 : d1 * 10 < 256 := lt_of_le_of_lt (by linarith) h
  rw [deviation_to_intensity_of_lt d1 h0 h1, deviation_to_intensity_of_lt d2 (h0.trans h12) h]
  have hfl : ⌊d1 * 10⌋ ≤ ⌊d2 * 10⌋ := Int.floor_mono (by linarith)
  refine ⟨?_, ?_⟩
  · omega
  · intro h10
    have : (100 : ℤ) ≤ ⌊d2 * 10⌋ := Int.le_floor.mpr (by push_cast; linarith)
    omega

/-- C4 (amended). For every deviation `d ≥ 0` with `d * 10 < 256`, the intensity
is `d * 10` truncated to an integer and then limited to 100. -/
theorem deviation_to_intensity_truncates (d : ℚ) (h0 : 0 ≤ d) (h : d * 10 < 256) :
    deviation_to_intensity d = min ⌊d * 10⌋.toNat 100 :=
  deviation_to_intensity_of_lt d h0 h

/-- Witness for the amended C4: a deviation of 12.5 degrees gives 125, limited to 100. -/
theorem deviation_to_intensity_truncates_witness :
    (0 : ℚ) ≤ 25/2 ∧ (25/2 : ℚ) * 10 < 256 ∧
    deviation_to_intensity (25/2) = min ⌊(25/2 : ℚ) * 10⌋.toNat 100 :=
  ⟨by norm_num, by norm_num,
   deviation_to_intensity_truncates (25/2) (by norm_num) (by norm_num)⟩

/-! ## Invalid readings and manual mode -/

/-- C5. On an initialised controller, a reading with `valid = false` leaves
`mode` and `intensity` unchanged, whatever `auto_mode` and the other fields of
the reading are. -/
theorem invalid_reading_keeps_mode (p : Platform) (s : State) (d : sensor_data_t)
    (hinit : s.s_initialized = true) (hvalid : d.valid = false) :
    (ac_service_update p (some d) s).1.s_status.mode = s.s_status.mode ∧
    (ac_service_update p (some d) s).1.s_status.intensity = s.s_status.intensity := by
  unfold ac_service_update
  simp [hinit, hvalid]

/-- Witness for C5: an invalid reading with smoke above the threshold, sent to
the controller in automatic mode. -/
theorem invalid_reading_keeps_mode_witness :
    auto_state.s_initialized = true ∧ (invalid_reading 35 90 3).valid = false ∧
    (ac_service_update good_platform (some (invalid_reading 35 90 3)) auto_state).1.s_status.mode
      = auto_state.s_status.mode ∧
    (ac_service_update good_platform (some (invalid_reading 35 90 3))
      auto_state).1.s_status.intensity = auto_state.s_status.intensity :=
  ⟨rfl, rfl, invalid_reading_keeps_mode good_platform auto_state (invalid_reading 35 90 3) rfl rfl⟩

/-- C6 (counterexample). On the initialised controller an invalid reading is
answered with `ESP_ERR_INVALID_ARG`, not with `ESP_OK`. -/
theorem invalid_reading_not_ok :
    ready_state.s_initialized = true ∧ (invalid_reading 23 50 0).valid = false ∧
    (ac_service_update good_platform (some (invalid_reading 23 50 0)) ready_state).2
      = .ESP_ERR_INVALID_ARG ∧
    (ac_service_update good_platform (some (invalid_reading 23 50 0)) ready_state).2
      ≠ .ESP_OK := by
  refine ⟨rfl, rfl, ?_, ?_⟩ <;>
    simp [ac_service_update, ready_state, ac_service_init, invalid_reading, reading]

/-- C6 (amended). On an initialised controller, a reading with `valid = false`
changes nothing in the state and the call returns `ESP_ERR_INVALID_ARG`. -/
theorem invalid_reading_rejected (p : Platform) (s : State) (d : sensor_data_t)
    (hinit : s.s_initialized = true) (hvalid : d.valid = false) :
    (ac_service_update p (some d) s).1 = s ∧
    (ac_service_update p (some d) s).2 = .ESP_ERR_INVALID_ARG := by
  unfold ac_service_update
  simp [hinit, hvalid]

/-- Witness for the amended C6. -/
theorem invalid_reading_rejected_witness :
    ready_state.s_initialized = true ∧ (invalid_reading 10 50 2).valid = false ∧
    (ac_service_update good_platform (some (invalid_reading 10 50 2)) ready_state).1
      = ready_state ∧
    (ac_service_update good_platform (some (invalid_reading 10 50 2)) ready_state).2
      = .ESP_ERR_INVALID_ARG :=
  ⟨rfl, rfl, invalid_reading_rejected good_platform ready_state (invalid_reading 10 50 2) rfl rfl⟩

/-- C7. Manual mode is sticky: on an initialised controller with
`auto_mode = false`, every valid reading leaves `mode`, `intensity`,
`target_temp` and `auto_mode` unchanged, the call returns `ESP_OK`, and the
stored temperature becomes the reading's temperature. -/
theorem manual_mode_sticky (p : Platform) (s : State) (d : sensor_data_t)
    (hinit : s.s_initialized = true) (hauto : s.s_status.auto_mode = false)
    (hvalid : d.valid = true) :
    (ac_service_update p (some d) s).1.s_status.mode = s.s_status.mode ∧
    (ac_service_update p (some d) s).1.s_status.intensity = s.s_status.intensity ∧
    (ac_service_update p (some d) s).1.s_status.target_temp = s.s_status.target_temp ∧
    (ac_service_update p (some d) s).1.s_status.auto_mode = s.s_status.auto_mode ∧
    (ac_service_update p (some d) s).2 = .ESP_OK ∧
    (ac_service_update p (some d) s).1.s_current_temp = d.temperature := by
  rw [ac_service_update_valid p s d hinit hvalid]
  simp [hauto, update_stored_status, update_stored_current_temp]

/-- Witness for C7: a hot, smoky reading sent to the controller in manual mode. -/
theorem manual_mode_sticky_witness :
    ready_state.s_initialized = true ∧ ready_state.s_status.auto_mode = false ∧
    (ac_service_update good_platform (some (reading 35 90 3)) ready_state).1.s_status.mode
      = ready_state.s_status.mode ∧
    (ac_service_update good_platform (some (reading 35 90 3)) ready_state).1.s_current_temp
      = 35 :=
  have h := manual_mode_sticky good_platform ready_state (reading 35 90 3) rfl rfl rfl
  ⟨rfl, rfl, h.1, h.2.2.2.2.2⟩

/-! ## Idempotence on an in-band reading -/

/-- Writing the same colour twice is the same as writing it once. -/
theorem rgb_pwm_set_color_idem (c : rgb_color_t) (s : State) :
    rgb_pwm_set_color c (rgb_pwm_set_color c s) = rgb_pwm_set_color c s := by
  unfold rgb_pwm_set_color
  cases h : s.rgb_initialized <;> simp [h]

theorem rgb_pwm_set_color_running (c : rgb_color_t) (s : State) :
    (rgb_pwm_set_color c s).s_animation_running = s.s_animation_running := by
  unfold rgb_pwm_set_color
  split_ifs <;> rfl

theorem stop_breathing_animation_running (p : Platform) (s : State) :
    (stop_breathing_animation p s).s_animation_running = false := by
  unfold stop_breathing_animation
  cases h : s.s_animation_running <;> simp [h]

/-- Rendering in `Comfort` mode: stop the animator, then write black when the
light is disabled and solid green otherwise. -/
theorem update_rgb_led_of_comfort (p : Platform) (s : State)
    (hmode : s.s_status.mode = .AC_MODE_COMFORT) :
    (update_rgb_led p s).1 =
      rgb_pwm_set_color (if s.s_led_enabled then { r := 0, g := 100, b := 0 }
                         else { r := 0, g := 0, b := 0 }) (stop_breathing_animation p s) := by
  unfold update_rgb_led
  cases hl : s.s_led_enabled <;> simp [hmode]

/-- Once the mode is `Comfort`, rendering leaves the animator stopped, and
rendering again changes nothing. -/
theorem update_rgb_led_comfort (p : Platform) (s : State)
    (hmode : s.s_status.mode = .AC_MODE_COMFORT) :
    (update_rgb_led p s).1.s_animation_running = false ∧
    update_rgb_led p (update_rgb_led p s).1 = update_rgb_led p s := by
  have hst := update_rgb_led_status p s
  have hled := ((core_eq_iff _ _).1 (update_rgb_led_core p s)).2.2.2.2
  have key := update_rgb_led_of_comfort p s hmode
  have hrun : (update_rgb_led p s).1.s_animation_running = false := by
    rw [key, rgb_pwm_set_color_running, stop_breathing_animation_running]
  refine ⟨hrun, ?_⟩
  have hstop : stop_breathing_animation p (update_rgb_led p s).1 = (update_rgb_led p s).1 := by
    unfold stop_breathing_animation
    simp [hrun]
  have hmode2 : (update_rgb_led p s).1.s_status.mode = .AC_MODE_COMFORT := by
    rw [hst]; exact hmode
  have key2 := update_rgb_led_of_comfort p (update_rgb_led p s).1 hmode2
  rw [hled, hstop] at key2
  apply Prod.ext
  · rw [key2]
    conv_lhs => rw [key]
    rw [rgb_pwm_set_color_idem, ← key]
  · rw [update_rgb_led_result, update_rgb_led_result]

/-- Storing a temperature that is already stored, while the animator is stopped,
and re-asserting `Comfort`/0 on a state that already has them, changes nothing. -/
theorem update_stored_fixed (d : sensor_data_t) (t : State)
    (hrun : t.s_animation_running = false) (htemp : t.s_current_temp = d.temperature)
    (hmode : t.s_status.mode = .AC_MODE_COMFORT) (hint : t.s_status.intensity = 0) :
    ({ update_stored d t with
        s_status := { t.s_status with mode := .AC_MODE_COMFORT, intensity := 0 } } : State) = t := by
  unfold update_stored
  obtain ⟨cfg, ⟨m, i, tt, a⟩, ini, ct, led, task, run, b, inc, mn, mx, st, dl, ri, ro⟩ := t
  simp only at hrun htemp hmode hint
  subst hrun htemp hmode hint
  simp

/-- C8. Idempotence of update: on an initialised controller in automatic mode, a
valid reading that is in band for temperature and humidity with smoke at or
below the threshold gives `mode = Comfort`, `intensity = 0` after the first call
and again after the second, and the second call leaves the state reached by the
first unchanged. -/
theorem update_idempotent_in_band (p : Platform) (s : State) (d : sensor_data_t)
    (hinit : s.s_initialized = true) (hauto : s.s_status.auto_mode = true)
    (hvalid : d.valid = true) (hsmoke : d.smoke_voltage ≤ s.s_config.smoke_threshold)
    (htmin : s.s_config.temp_min ≤ d.temperature) (htmax : d.temperature ≤ s.s_config.temp_max)
    (hhmin : s.s_config.humidity_min ≤ (d.humidity : Int))
    (hhmax : (d.humidity : Int) ≤ s.s_config.humidity_max) :
    (ac_service_update p (some d) s).1.s_status.mode = .AC_MODE_COMFORT ∧
    (ac_service_update p (some d) s).1.s_status.intensity = 0 ∧
    (ac_service_update p (some d) (ac_service_update p (some d) s).1).1.s_status.mode
      = .AC_MODE_COMFORT ∧
    (ac_service_update p (some d) (ac_service_update p (some d) s).1).1.s_status.intensity = 0 ∧
    (ac_service_update p (some d) (ac_service_update p (some d) s).1).1
      = (ac_service_update p (some d) s).1 := by
  have hns : ¬ d.smoke_voltage > s.s_config.smoke_threshold := not_lt.mpr hsmoke
  have hband : d.temperature ≥ s.s_config.temp_min ∧ d.temperature ≤ s.s_config.temp_max ∧
      (d.humidity : Int) ≥ s.s_config.humidity_min ∧
      (d.humidity : Int) ≤ s.s_config.humidity_max := ⟨htmin, htmax, hhmin, hhmax⟩
  have h1 : ac_service_update p (some d) s = update_rgb_led p
      { update_stored d s with
        s_status := { s.s_status with mode := .AC_MODE_COMFORT, intensity := 0 } } := by
    rw [ac_service_update_valid p s d hinit hvalid]
    simp only [hauto, Bool.not_true, Bool.false_eq_true, if_false, hns, hband, and_self, if_true]
  set s0 : State := { update_stored d s with
        s_status := { s.s_status with mode := .AC_MODE_COMFORT, intensity := 0 } } with hs0
  have hm0 : s0.s_status.mode = .AC_MODE_COMFORT := rfl
  obtain ⟨hrun, hidem⟩ := update_rgb_led_comfort p s0 hm0
  obtain ⟨hcfg, hst, hini, htemp, -⟩ := (core_eq_iff _ _).1 (update_rgb_led_core p s0)
  have hcfg0 : s0.s_config = s.s_config := update_stored_config d s
  have hini0 : s0.s_initialized = true := by
    have := ((core_eq_iff _ _).1 (update_stored_core d s)).2.2.1
    exact this.trans hinit
  have htemp0 : s0.s_current_temp = d.temperature := update_stored_current_temp d s
  rw [h1]
  have hst1 : (update_rgb_led p s0).1.s_status.mode = .AC_MODE_COMFORT := by rw [hst]
  have hst2 : (update_rgb_led p s0).1.s_status.intensity = 0 := by rw [hst]
  have hst3 : (update_rgb_led p s0).1.s_status.auto_mode = true := by rw [hst]; exact hauto
  have h2 : ac_service_update p (some d) (update_rgb_led p s0).1 = update_rgb_led p s0 := by
    rw [ac_service_update_valid p _ d (hini.trans hini0) hvalid]
    rw [if_neg (by simp [hst3]), hcfg, hcfg0, if_neg hns, if_pos hband]
    refine Eq.trans (congrArg (update_rgb_led p) ?_) hidem
    exact update_stored_fixed d _ hrun (htemp.trans htemp0) hst1 hst2
  rw [h2]
  exact ⟨hst1, hst2, hst1, hst2, rfl⟩

/-- Witness for C8: the reading `temp = 23, humidity = 50, smoke = 0.2` on the
controller in automatic mode. -/
theorem update_idempotent_in_band_witness :
    (ac_service_update good_platform (some (reading 23 50 (1/5))) auto_state).1.s_status.mode
      = .AC_MODE_COMFORT ∧
    (ac_service_update good_platform (some (reading 23 50 (1/5)))
      (ac_service_update good_platform (some (reading 23 50 (1/5))) auto_state).1).1
      = (ac_service_update good_platform (some (reading 23 50 (1/5))) auto_state).1 :=
  have h := update_idempotent_in_band good_platform auto_state (reading 23 50 (1/5)) rfl rfl rfl
    (by norm_num [auto_state, ready_state, ac_service_init, main_config, initial_state,
                  rgb_pwm_set_color, reading])
    (by norm_num [auto_state, ready_state, ac_service_init, main_config, initial_state,
                  rgb_pwm_set_color, reading])
    (by norm_num [auto_state, ready_state, ac_service_init, main_config, initial_state,
                  rgb_pwm_set_color, reading])
    (by norm_num [auto_state, ready_state, ac_service_init, main_config, initial_state,
                  rgb_pwm_set_color, reading])
    (by norm_num [auto_state, ready_state, ac_service_init, main_config, initial_state,
                  rgb_pwm_set_color, reading])
  ⟨h.1, h.2.2.2.2⟩

/-! ## Breathing tiers -/

/-- C9. Breathing tier selection: for every deviation `d ≥ 0`,
`calculate_breathing_params d` yields the row of the tier table that contains
`d`, whatever the state it starts from; and `start_breathing_animation` yields
the row of `d = |current_temp - target_temp|`. -/
theorem breathing_tier_selection (p : Platform) (s : State) (d : ℚ) :
    (0 ≤ d → some (calculate_breathing_params d s).breathing = spec_breathing_tier d) ∧
    (|s.s_current_temp - s.s_status.target_temp| = d →
      some (start_breathing_animation p s).breathing = spec_breathing_tier d) := by
  have h1 : 0 ≤ d → some (calculate_breathing_params d s).breathing = spec_breathing_tier d := by
    intro h0
    unfold calculate_breathing_params spec_breathing_tier State.breathing
    by_cases h4 : d < 4
    · simp [h0, h4]
    · by_cases h8 : d < 8
      · simp [h4, h8, not_lt.mp h4]
      · by_cases h12 : d < 12
        · simp [h4, h8, h12, not_lt.mp h8]
        · simp [h4, h8, h12, not_lt.mp h12]
  refine ⟨h1, ?_⟩
  intro hd
  have h0 : 0 ≤ d := hd ▸ abs_nonneg _
  have hb : (start_breathing_animation p s).breathing
      = (calculate_breathing_params d s).breathing := by
    unfold start_breathing_animation
    simp only [hd]
    split_ifs <;> rfl
  rw [hb]
  exact h1 h0

/-- Witness for C9: the boundary deviations 3.9, 4.0, 7.9, 8.0, 11.9 and 12.0,
and Scenario C (target 24, current 24.5, deviation 0.5, tier 1). -/
theorem breathing_tier_selection_witness :
    (calculate_breathing_params (39/10) ready_state).breathing
      = { min_brightness := 10, max_brightness := 70, step := 2, delay_ms := 40 } ∧
    (calculate_breathing_params 4 ready_state).breathing
      = { min_brightness := 10, max_brightness := 85, step := 3, delay_ms := 25 } ∧
    (calculate_breathing_params (79/10) ready_state).breathing
      = { min_brightness := 10, max_brightness := 85, step := 3, delay_ms := 25 } ∧
    (calculate_breathing_params 8 ready_state).breathing
      = { min_brightness := 10, max_brightness := 100, step := 4, delay_ms := 15 } ∧
    (calculate_breathing_params (119/10) ready_state).breathing
      = { min_brightness := 10, max_brightness := 100, step := 4, delay_ms := 15 } ∧
    (calculate_breathing_params 12 ready_state).breathing
      = { min_brightness := 5, max_brightness := 100, step := 5, delay_ms := 10 } ∧
    (start_breathing_animation good_platform scenario_c_state).breathing
      = { min_brightness := 10, max_brightness := 70, step := 2, delay_ms := 40 } :=
  ⟨Option.some.inj (((breathing_tier_selection good_platform ready_state (39/10)).1
      (by norm_num)).trans (by norm_num [spec_breathing_tier])),
   Option.some.inj (((breathing_tier_selection good_platform ready_state 4).1
      (by norm_num)).trans (by norm_num [spec_breathing_tier])),
   Option.some.inj (((breathing_tier_selection good_platform ready_state (79/10)).1
      (by norm_num)).trans (by norm_num [spec_breathing_tier])),
   Option.some.inj (((breathing_tier_selection good_platform ready_state 8).1
      (by norm_num)).trans (by norm_num [spec_breathing_tier])),
   Option.some.inj (((breathing_tier_selection good_platform ready_state (119/10)).1
      (by norm_num)).trans (by norm_num [spec_breathing_tier])),
   Option.some.inj (((breathing_tier_selection good_platform ready_state 12).1
      (by norm_num)).trans (by norm_num [spec_breathing_tier])),
   Option.some.inj (((breathing_tier_selection good_platform scenario_c_state (1/2)).2
      (by norm_num [scenario_c_state, ready_state, ac_service_init, main_config, initial_state,
                    rgb_pwm_set_color, abs_of_pos])).trans
      (by norm_num [spec_breathing_tier]))⟩

/-! ## The triangle wave -/

theorem calculate_breathing_params_tierState (d : ℚ) (s : State)
    (hrun : s.s_animation_running = true)
    (hmode : s.s_status.mode = .AC_MODE_HEATING ∨ s.s_status.mode = .AC_MODE_COOLING) :
    TierState (calculate_breathing_params d s) := by
  unfold TierState calculate_breathing_params
  split_ifs <;> simp [hrun, hmode]

theorem next_brightness_frame (t : State) :
    (next_brightness t).s_animation_running = t.s_animation_running ∧
    (next_brightness t).s_status = t.s_status ∧
    (next_brightness t).s_breathing_min = t.s_breathing_min ∧
    (next_brightness t).s_breathing_max = t.s_breathing_max ∧
    (next_brightness t).s_breathing_step = t.s_breathing_step ∧
    (next_brightness t).s_breathing_delay_ms = t.s_breathing_delay_ms := by
  unfold next_brightness
  simp only []
  split_ifs <;> exact ⟨rfl, rfl, rfl, rfl, rfl, rfl⟩

theorem next_brightness_increasing (t : State) (h : t.s_brightness_increasing = true) :
    (next_brightness t).s_current_brightness =
      (if (t.s_current_brightness + t.s_breathing_step) % 256 ≥ t.s_breathing_max
       then t.s_breathing_max else (t.s_current_brightness + t.s_breathing_step) % 256) ∧
    (next_brightness t).s_brightness_increasing =
      (if (t.s_current_brightness + t.s_breathing_step) % 256 ≥ t.s_breathing_max
       then false else true) := by
  unfold next_brightness
  rw [if_pos h]
  simp only []
  split_ifs <;> simp [h]

theorem next_brightness_decreasing (t : State) (h : t.s_brightness_increasing = false) :
    (next_brightness t).s_current_brightness =
      (if (if t.s_current_brightness ≥ t.s_breathing_step
           then t.s_current_brightness - t.s_breathing_step else t.s_breathing_min)
          ≤ t.s_breathing_min
       then t.s_breathing_min
       else (if t.s_current_brightness ≥ t.s_breathing_step
             then t.s_current_brightness - t.s_breathing_step else t.s_breathing_min)) ∧
    (next_brightness t).s_brightness_increasing =
      (if (if t.s_current_brightness ≥ t.s_breathing_step
           then t.s_current_brightness - t.s_breathing_step else t.s_breathing_min)
          ≤ t.s_breathing_min
       then true else false) := by
  unfold next_brightness
  rw [if_neg (by simp [h])]
  simp only []
  split_ifs <;> simp [h]

theorem rgb_pwm_set_color_anim (c : rgb_color_t) (t : State) :
    (rgb_pwm_set_color c t).s_animation_running = t.s_animation_running ∧
    (rgb_pwm_set_color c t).s_status = t.s_status ∧
    (rgb_pwm_set_color c t).s_current_brightness = t.s_current_brightness ∧
    (rgb_pwm_set_color c t).s_brightness_increasing = t.s_brightness_increasing ∧
    (rgb_pwm_set_color c t).s_breathing_min = t.s_breathing_min ∧
    (rgb_pwm_set_color c t).s_breathing_max = t.s_breathing_max ∧
    (rgb_pwm_set_color c t).s_breathing_step = t.s_breathing_step ∧
    (rgb_pwm_set_color c t).s_breathing_delay_ms = t.s_breathing_delay_ms := by
  unfold rgb_pwm_set_color
  split_ifs <;> exact ⟨rfl, rfl, rfl, rfl, rfl, rfl, rfl, rfl⟩

/-- While the loop is live, a tick writes one colour and advances the brightness. -/
theorem breathing_animation_tick_live (t : State) (hrun : t.s_animation_running = true)
    (hmode : t.s_status.mode = .AC_MODE_HEATING ∨ t.s_status.mode = .AC_MODE_COOLING) :
    ∃ c, breathing_animation_tick t = next_brightness (rgb_pwm_set_color c t) := by
  have hm : ¬ (t.s_status.mode ≠ .AC_MODE_COOLING ∧ t.s_status.mode ≠ .AC_MODE_HEATING) := by
    rcases hmode with h | h <;> simp [h]
  unfold breathing_animation_tick
  rw [if_neg (by simp [hrun]), if_neg hm]
  exact ⟨_, rfl⟩

/-- One tick from a `TierState`: the parameters stay, the state is again a
`TierState`, the direction flips exactly when a bound is reached, and neither
the addition nor the subtraction leaves the `uint8_t` range. -/
theorem breathing_animation_tick_tierState (t : State) (h : TierState t) :
    TierState (breathing_animation_tick t) ∧
    (breathing_animation_tick t).s_breathing_min = t.s_breathing_min ∧
    (breathing_animation_tick t).s_breathing_max = t.s_breathing_max ∧
    (breathing_animation_tick t).s_breathing_step = t.s_breathing_step ∧
    (breathing_animation_tick t).s_breathing_delay_ms = t.s_breathing_delay_ms ∧
    ((t.s_brightness_increasing = true ∧
        (breathing_animation_tick t).s_brightness_increasing = false) ↔
      (breathing_animation_tick t).s_current_brightness = t.s_breathing_max) ∧
    ((t.s_brightness_increasing = false ∧
        (breathing_animation_tick t).s_brightness_increasing = true) ↔
      (breathing_animation_tick t).s_current_brightness = t.s_breathing_min) ∧
    (t.s_brightness_increasing = true → t.s_current_brightness + t.s_breathing_step < 256) ∧
    (t.s_brightness_increasing = false → t.s_breathing_step ≤ t.s_current_brightness) := by
  obtain ⟨hrun, hmode, htier, h1, h2, h3, h4⟩ := h
  obtain ⟨c, hc⟩ := breathing_animation_tick_live t hrun hmode
  obtain ⟨r1, r2, r3, r4, r5, r6, r7, r8⟩ := rgb_pwm_set_color_anim c t
  obtain ⟨f1, f2, f3, f4, f5, f6⟩ := next_brightness_frame (rgb_pwm_set_color c t)
  rw [r1] at f1; rw [r2] at f2; rw [r5] at f3; rw [r6] at f4; rw [r7] at f5; rw [r8] at f6
  rw [← hc] at f1 f2 f3 f4 f5 f6
  unfold TierState
  rw [f1, f2, f3, f4, f5, f6]
  have hmod : ∀ x : Nat, x < 256 → x % 256 = x := fun x hx => Nat.mod_eq_of_lt hx
  cases hinc : t.s_brightness_increasing
  · obtain ⟨g1, g2⟩ := next_brightness_decreasing (rgb_pwm_set_color c t) (r4.trans hinc)
    rw [r3, r5, r7, ← hc] at g1 g2
    have h4' := h4 hinc
    generalize (breathing_animation_tick t).s_current_brightness = b' at g1 ⊢
    generalize (breathing_animation_tick t).s_brightness_increasing = inc' at g2 ⊢
    generalize t.s_current_brightness = b at h1 h2 h4' g1 g2 ⊢
    generalize t.s_breathing_min = mn at htier h1 h4' g1 g2 ⊢
    generalize t.s_breathing_max = mx at htier h2 ⊢
    generalize t.s_breathing_step = st at htier g1 g2 ⊢
    rcases htier with ⟨rfl, rfl, rfl⟩ | ⟨rfl, rfl, rfl⟩ | ⟨rfl, rfl, rfl⟩ | ⟨rfl, rfl, rfl⟩ <;>
      simp only [ge_iff_le] at g1 g2 <;>
      split_ifs at g1 g2 <;> subst g1 g2 <;>
      refine ⟨⟨hrun, hmode, by simp, ?_, ?_, ?_, ?_⟩, rfl, rfl, rfl, rfl, ?_, ?_, by simp, ?_⟩ <;>
      first | omega | (simp; done) | (simp; omega)
  · obtain ⟨g1, g2⟩ := next_brightness_increasing (rgb_pwm_set_color c t) (r4.trans hinc)
    rw [r3, r6, r7, ← hc] at g1 g2
    have h3' := h3 hinc
    generalize (breathing_animation_tick t).s_current_brightness = b' at g1 ⊢
    generalize (breathing_animation_tick t).s_brightness_increasing = inc' at g2 ⊢
    generalize t.s_current_brightness = b at h1 h2 h3' g1 g2 ⊢
    generalize t.s_breathing_min = mn at htier h1 ⊢
    generalize t.s_breathing_max = mx at htier h2 h3' g1 g2 ⊢
    generalize t.s_breathing_step = st at htier g1 g2 ⊢
    rcases htier with ⟨rfl, rfl, rfl⟩ | ⟨rfl, rfl, rfl⟩ | ⟨rfl, rfl, rfl⟩ | ⟨rfl, rfl, rfl⟩ <;>
      rw [hmod _ (by omega)] at g1 g2 <;>
      simp only [ge_iff_le] at g1 g2 <;>
      split_ifs at g1 g2 <;> subst g1 g2 <;>
      refine ⟨⟨hrun, hmode, by simp, ?_, ?_, ?_, ?_⟩, rfl, rfl, rfl, rfl, ?_, ?_, ?_, by simp⟩ <;>
      first | omega | (simp; done) | (simp; omega)

/-- Every state the loop reaches from a `TierState` is a `TierState` with the
same parameters. -/
theorem breathing_animation_run_tierState (s0 : State) (h : TierState s0) (n : Nat) :
    TierState (breathing_animation_run n s0) ∧
    (breathing_animation_run n s0).s_breathing_min = s0.s_breathing_min ∧
    (breathing_animation_run n s0).s_breathing_max = s0.s_breathing_max ∧
    (breathing_animation_run n s0).s_breathing_step = s0.s_breathing_step ∧
    (breathing_animation_run n s0).s_breathing_delay_ms = s0.s_breathing_delay_ms := by
  induction n with
  | zero => exact ⟨h, rfl, rfl, rfl, rfl⟩
  | succ k ih =>
    obtain ⟨ht, e1, e2, e3, e4⟩ := ih
    obtain ⟨ht', t1, t2, t3, t4, -⟩ := breathing_animation_tick_tierState _ ht
    exact ⟨ht', t1.trans e1, t2.trans e2, t3.trans e3, t4.trans e4⟩

/-- C10. Triangle-wave bound: start the animation loop (running flag set, mode
Heating or Cooling) from the state `calculate_breathing_params d` leaves, for any
deviation `d`, and let it tick `n` times. The parameters are still those of the
tier, the brightness lies between the tier's `min` and `max`, the next tick turns
the direction to decreasing exactly when it makes the brightness `max` and to
increasing exactly when it makes the brightness `min`, and the `uint8_t`
arithmetic of that tick does not wrap: the sum stays below 256 when increasing,
and the step is not larger than the brightness when decreasing. -/
theorem breathing_triangle_wave (d : ℚ) (s : State) (n : Nat)
    (hrun : s.s_animation_running = true)
    (hmode : s.s_status.mode = .AC_MODE_HEATING ∨ s.s_status.mode = .AC_MODE_COOLING) :
    (calculate_breathing_params d s).s_current_brightness
      = (calculate_breathing_params d s).s_breathing_min ∧
    (calculate_breathing_params d s).s_brightness_increasing = true ∧
    (breathing_animation_run n (calculate_breathing_params d s)).breathing
      = (calculate_breathing_params d s).breathing ∧
    (calculate_breathing_params d s).s_breathing_min
      ≤ (breathing_animation_run n (calculate_breathing_params d s)).s_current_brightness ∧
    (breathing_animation_run n (calculate_breathing_params d s)).s_current_brightness
      ≤ (calculate_breathing_params d s).s_breathing_max ∧
    (((breathing_animation_run n (calculate_breathing_params d s)).s_brightness_increasing = true ∧
      (breathing_animation_run (n + 1)
        (calculate_breathing_params d s)).s_brightness_increasing = false) ↔
      (breathing_animation_run (n + 1) (calculate_breathing_params d s)).s_current_brightness
        = (calculate_breathing_params d s).s_breathing_max) ∧
    (((breathing_animation_run n (calculate_breathing_params d s)).s_brightness_increasing = false ∧
      (breathing_animation_run (n + 1)
        (calculate_breathing_params d s)).s_brightness_increasing = true) ↔
      (breathing_animation_run (n + 1) (calculate_breathing_params d s)).s_current_brightness
        = (calculate_breathing_params d s).s_breathing_min) ∧
    ((breathing_animation_run n (calculate_breathing_params d s)).s_brightness_increasing = true →
      (breathing_animation_run n (calculate_breathing_params d s)).s_current_brightness
        + (breathing_animation_run n (calculate_breathing_params d s)).s_breathing_step < 256) ∧
    ((breathing_animation_run n (calculate_breathing_params d s)).s_brightness_increasing = false →
      (breathing_animation_run n (calculate_breathing_params d s)).s_breathing_step
        ≤ (breathing_animation_run n (calculate_breathing_params d s)).s_current_brightness) := by
  have h0 := calculate_breathing_params_tierState d s hrun hmode
  obtain ⟨ht, e1, e2, e3, e4⟩ :=
    breathing_animation_run_tierState (calculate_breathing_params d s) h0 n
  obtain ⟨-, -, -, -, -, k1, k2, k3, k4⟩ := breathing_animation_tick_tierState _ ht
  have hstart : (calculate_breathing_params d s).s_current_brightness
      = (calculate_breathing_params d s).s_breathing_min ∧
      (calculate_breathing_params d s).s_brightness_increasing = true := by
    unfold calculate_breathing_params
    split_ifs <;> exact ⟨rfl, rfl⟩
  obtain ⟨-, -, -, b1, b2, -, -⟩ := ht
  rw [e1] at b1 k2
  rw [e2] at b2 k1
  refine ⟨hstart.1, hstart.2, ?_, b1, b2, k1, k2, k3, k4⟩
  simp only [State.breathing, e1, e2, e3, e4]

/-- Witness for C10: the heating controller of Scenario C with the animator
running, deviation 9 (tier 3, range 10..100, step 4): after 22 ticks the
brightness is 98, the 23rd tick limits `98 + 4` to 100 and turns the direction. -/
theorem breathing_triangle_wave_witness :
    (breathing_animation_run 22
      (calculate_breathing_params 9 animating_state)).s_current_brightness = 98 ∧
    (breathing_animation_run 22
      (calculate_breathing_params 9 animating_state)).s_brightness_increasing = true ∧
    (breathing_animation_run 23
      (calculate_breathing_params 9 animating_state)).s_current_brightness = 100 ∧
    (breathing_animation_run 23
      (calculate_breathing_params 9 animating_state)).s_brightness_increasing = false ∧
    (calculate_breathing_params 9 animating_state).s_breathing_max = 100 ∧
    (breathing_animation_run 23 (calculate_breathing_params 9 animating_state)).s_current_brightness
      ≤ (calculate_breathing_params 9 animating_state).s_breathing_max :=
  ⟨rfl, rfl, rfl, rfl, rfl,
   (breathing_triangle_wave 9 animating_state 23 rfl (Or.inl rfl)).2.2.2.2.1⟩

/-! ## Manual calls: `set_mode`, `init`, the not-initialised guard, `set_target_temp` -/

/-- C11. Manual override: on an initialised controller, `ac_service_set_mode(m, i)`
leaves `mode = m`, `intensity = min(i, 100)` and `auto_mode = false`, and leaves
`target_temp` and the LED switch unchanged. -/
theorem set_mode_overrides (p : Platform) (s : State) (m : ac_mode_t) (i : Nat)
    (hinit : s.s_initialized = true) :
    (ac_service_set_mode p m i s).1.s_status.mode = m ∧
    (ac_service_set_mode p m i s).1.s_status.intensity = min i 100 ∧
    (ac_service_set_mode p m i s).1.s_status.auto_mode = false ∧
    (ac_service_set_mode p m i s).1.s_status.target_temp = s.s_status.target_temp ∧
    (ac_service_set_mode p m i s).1.s_led_enabled = s.s_led_enabled := by
  unfold ac_service_set_mode
  rw [if_neg (by simp [hinit])]
  simp only []
  obtain ⟨-, hst, -, -, hled⟩ := (core_eq_iff _ _).1 (update_rgb_led_core p
    { s with s_status := { s.s_status with mode := m, intensity := if i > 100 then 100 else i,
                                           auto_mode := false } })
  rw [hst, hled]
  refine ⟨rfl, ?_, rfl, rfl, rfl⟩
  show (if i > 100 then 100 else i) = min i 100
  split_ifs <;> omega

/-- Witness for C11: `LED_RED` style override with an intensity above 100. -/
theorem set_mode_overrides_witness :
    (ac_service_set_mode good_platform .AC_MODE_HEATING 250 auto_state).1.s_status.mode
      = .AC_MODE_HEATING ∧
    (ac_service_set_mode good_platform .AC_MODE_HEATING 250 auto_state).1.s_status.intensity
      = 100 ∧
    (ac_service_set_mode good_platform .AC_MODE_HEATING 250 auto_state).1.s_status.auto_mode
      = false :=
  have h := set_mode_overrides good_platform auto_state .AC_MODE_HEATING 250 rfl
  ⟨h.1, h.2.1, h.2.2.1⟩

/-- What `ac_service_init` establishes from any prior state. -/
theorem ac_service_init_some (cfg : ac_service_config_t) (s : State) :
    (ac_service_init (some cfg) s).2 = .ESP_OK ∧
    (ac_service_init (some cfg) s).1.s_initialized = true ∧
    (ac_service_init (some cfg) s).1.rgb_initialized = true ∧
    (ac_service_init (some cfg) s).1.s_status.mode = .AC_MODE_COMFORT ∧
    (ac_service_init (some cfg) s).1.s_status.intensity = 0 ∧
    (ac_service_init (some cfg) s).1.s_status.auto_mode = false ∧
    (ac_service_init (some cfg) s).1.s_config = cfg ∧
    (ac_service_init (some cfg) s).1.rgb_output = { r := 0, g := 100, b := 0 } ∧
    (ac_service_init (some cfg) s).1.s_led_enabled = s.s_led_enabled ∧
    (ac_service_init (some cfg) s).1.s_animation_running = s.s_animation_running := by
  simp [ac_service_init, rgb_pwm_set_color]

/-- C12 (evaluation of the code where the claim fails). `ac_service_init` stores
the configuration, sets `mode = Comfort`, `intensity = 0`, `auto_mode = false` and
writes solid green from every prior state, but it leaves the LED switch as it
finds it: after `ac_service_set_led_enabled(false)` and `ac_service_deinit`, a
successful `ac_service_init` ends with `led_enabled = false` while the output
shows green. -/
theorem init_keeps_led_switch :
    (∀ (cfg : ac_service_config_t) (s : State),
      (ac_service_init (some cfg) s).2 = .ESP_OK ∧
      (ac_service_init (some cfg) s).1.s_status.mode = .AC_MODE_COMFORT ∧
      (ac_service_init (some cfg) s).1.s_status.intensity = 0 ∧
      (ac_service_init (some cfg) s).1.s_status.auto_mode = false ∧
      (ac_service_init (some cfg) s).1.s_config = cfg ∧
      (ac_service_init (some cfg) s).1.rgb_output = { r := 0, g := 100, b := 0 } ∧
      (ac_service_init (some cfg) s).1.s_led_enabled = s.s_led_enabled) ∧
    led_off_deinit_state.s_initialized = false ∧
    led_off_deinit_state.s_led_enabled = false ∧
    (ac_service_init (some main_config) led_off_deinit_state).2 = .ESP_OK ∧
    ac_service_is_led_enabled (ac_service_init (some main_config) led_off_deinit_state).1
      = false ∧
    (ac_service_init (some main_config) led_off_deinit_state).1.rgb_output
      = { r := 0, g := 100, b := 0 } := by
  refine ⟨fun cfg s => ?_, rfl, rfl, rfl, rfl, rfl⟩
  obtain ⟨h1, -, -, h2, h3, h4, h5, h6, h7, -⟩ := ac_service_init_some cfg s
  exact ⟨h1, h2, h3, h4, h5, h6, h7⟩

/-- C13. Not-initialised guard: while `s_initialized` is false, each of
`ac_service_update`, `ac_service_get_status`, `ac_service_set_mode`,
`ac_service_set_auto`, `ac_service_set_target_temp` and
`ac_service_set_led_enabled` returns `ESP_ERR_INVALID_STATE` for every argument
and leaves the whole state (and the caller's status buffer) as it was;
`ac_service_init` with a null configuration returns `ESP_ERR_INVALID_ARG` and
leaves the state, hence the controller uninitialised; and `ac_service_deinit`
always ends with `s_initialized` false. -/
theorem not_initialized_guard (p : Platform) (s : State) (hinit : s.s_initialized = false)
    (d : Option sensor_data_t) (st : Option ac_status_t) (m : ac_mode_t) (i : Nat)
    (e : Bool) (t : ℚ) (b : Bool) (s0 : State) :
    ac_service_update p d s = (s, .ESP_ERR_INVALID_STATE) ∧
    ac_service_get_status st s = (st, .ESP_ERR_INVALID_STATE) ∧
    ac_service_set_mode p m i s = (s, .ESP_ERR_INVALID_STATE) ∧
    ac_service_set_auto e s = (s, .ESP_ERR_INVALID_STATE) ∧
    ac_service_set_target_temp t s = (s, .ESP_ERR_INVALID_STATE) ∧
    ac_service_set_led_enabled p b s = (s, .ESP_ERR_INVALID_STATE) ∧
    ac_service_init none s = (s, .ESP_ERR_INVALID_ARG) ∧
    (ac_service_init none s).1.s_initialized = false ∧
    (ac_service_deinit p s0).1.s_initialized = false := by
  refine ⟨?_, ?_, ?_, ?_, ?_, ?_, rfl, hinit, ?_⟩
  · unfold ac_service_update; rw [if_pos (by simp [hinit])]
  · unfold ac_service_get_status; rw [if_pos (by simp [hinit])]
  · unfold ac_service_set_mode; rw [if_pos (by simp [hinit])]
  · unfold ac_service_set_auto; rw [if_pos (by simp [hinit])]
  · unfold ac_service_set_target_temp; rw [if_pos (by simp [hinit])]
  · unfold ac_service_set_led_enabled; rw [if_pos (by simp [hinit])]
  · unfold ac_service_deinit
    cases h : s0.s_initialized <;> simp [h]

/-- Witness for C13: the load-time state and the state after `ac_service_deinit`,
with a valid smoky reading and a heating override as arguments. -/
theorem not_initialized_guard_witness :
    initial_state.s_initialized = false ∧
    ac_service_update good_platform (some (reading 35 90 3)) initial_state
      = (initial_state, .ESP_ERR_INVALID_STATE) ∧
    ac_service_set_mode good_platform .AC_MODE_HEATING 50
        (ac_service_deinit good_platform ready_state).1
      = ((ac_service_deinit good_platform ready_state).1, .ESP_ERR_INVALID_STATE) :=
  ⟨rfl,
   (not_initialized_guard good_platform initial_state rfl (some (reading 35 90 3)) none
      .AC_MODE_OFF 0 true 0 true initial_state).1,
   (not_initialized_guard good_platform (ac_service_deinit good_platform ready_state).1 rfl
      none none .AC_MODE_HEATING 50 true 0 true initial_state).2.2.1⟩

/-- After `calculate_breathing_params` the brightness is the new minimum and the
direction is increasing; for `d ≥ 0` the parameters are the spec's row of `d`. -/
theorem calculate_breathing_params_reset (d : ℚ) (s : State) :
    (calculate_breathing_params d s).s_current_brightness
      = (calculate_breathing_params d s).s_breathing_min ∧
    (calculate_breathing_params d s).s_brightness_increasing = true ∧
    (calculate_breathing_params d s).s_animation_running = s.s_animation_running ∧
    (calculate_breathing_params d s).s_animation_task = s.s_animation_task ∧
    (calculate_breathing_params d s).rgb_output = s.rgb_output ∧
    (calculate_breathing_params d s).rgb_initialized = s.rgb_initialized := by
  unfold calculate_breathing_params
  split_ifs <;> exact ⟨rfl, rfl, rfl, rfl, rfl, rfl⟩

/-- The spec's row for a deviation given as an absolute value. -/
theorem calculate_breathing_params_tier (d : ℚ) (h0 : 0 ≤ d) (s : State) :
    some (calculate_breathing_params d s).breathing = spec_breathing_tier d := by
  unfold calculate_breathing_params spec_breathing_tier State.breathing
  by_cases h4 : d < 4
  · simp [h0, h4]
  · by_cases h8 : d < 8
    · simp [h4, h8, not_lt.mp h4]
    · by_cases h12 : d < 12
      · simp [h4, h8, h12, not_lt.mp h8]
      · simp [h4, h8, h12, not_lt.mp h12]

/-- C16. Target-temperature change: on an initialised controller,
`ac_service_set_target_temp(t)` returns `ESP_OK`, sets `target_temp = t` and
leaves `mode`, `intensity` and `auto_mode` unchanged. If the animator is running,
the breathing parameters afterwards are the tier of `|last_known_temp - t|`, the
brightness is the new minimum, the direction is increasing, and the running flag
and the task handle are untouched; if it is not running, the parameters, the
brightness and the direction are unchanged. -/
theorem set_target_temp_effect (s : State) (t : ℚ) (hinit : s.s_initialized = true) :
    (ac_service_set_target_temp t s).2 = .ESP_OK ∧
    (ac_service_set_target_temp t s).1.s_status.target_temp = t ∧
    (ac_service_set_target_temp t s).1.s_status.mode = s.s_status.mode ∧
    (ac_service_set_target_temp t s).1.s_status.intensity = s.s_status.intensity ∧
    (ac_service_set_target_temp t s).1.s_status.auto_mode = s.s_status.auto_mode ∧
    (ac_service_set_target_temp t s).1.s_animation_running = s.s_animation_running ∧
    (ac_service_set_target_temp t s).1.s_animation_task = s.s_animation_task ∧
    (s.s_animation_running = true →
      some (ac_service_set_target_temp t s).1.breathing
        = spec_breathing_tier |s.s_current_temp - t| ∧
      (ac_service_set_target_temp t s).1.s_current_brightness
        = (ac_service_set_target_temp t s).1.s_breathing_min ∧
      (ac_service_set_target_temp t s).1.s_brightness_increasing = true) ∧
    (s.s_animation_running = false →
      (ac_service_set_target_temp t s).1.breathing = s.breathing ∧
      (ac_service_set_target_temp t s).1.s_current_brightness = s.s_current_brightness ∧
      (ac_service_set_target_temp t s).1.s_brightness_increasing
        = s.s_brightness_increasing) := by
  have hdef : ac_service_set_target_temp t s =
      (if s.s_animation_running = true then
         calculate_breathing_params |s.s_current_temp - t|
           { s with s_status := { s.s_status with target_temp := t } }
       else { s with s_status := { s.s_status with target_temp := t } }, .ESP_OK) := by
    unfold ac_service_set_target_temp
    rw [if_neg (by simp [hinit])]
    simp only []
    split_ifs <;> rfl
  rw [hdef]
  by_cases hrun : s.s_animation_running = true
  · rw [if_pos hrun]
    obtain ⟨r1, r2, r3, r4, -, -⟩ := calculate_breathing_params_reset |s.s_current_temp - t|
      { s with s_status := { s.s_status with target_temp := t } }
    have hst := calculate_breathing_params_status |s.s_current_temp - t|
      { s with s_status := { s.s_status with target_temp := t } }
    have htier := calculate_breathing_params_tier |s.s_current_temp - t| (abs_nonneg _)
      { s with s_status := { s.s_status with target_temp := t } }
    exact ⟨rfl, by rw [hst], by rw [hst], by rw [hst], by rw [hst], r3, r4,
      fun _ => ⟨htier, r1, r2⟩,
      fun h => absurd (hrun.symm.trans h) (by simp)⟩
  · rw [if_neg hrun]
    exact ⟨rfl, rfl, rfl, rfl, rfl, rfl, rfl, fun h => absurd h hrun,
      fun _ => ⟨rfl, rfl, rfl⟩⟩

/-- Witness for C16: the running animator of Scenario C (current 24.5) is given
the target 16; the deviation 8.5 selects tier 3. -/
theorem set_target_temp_effect_witness :
    (ac_service_set_target_temp 16 animating_state).1.s_status.target_temp = 16 ∧
    (ac_service_set_target_temp 16 animating_state).1.s_animation_running = true ∧
    (ac_service_set_target_temp 16 animating_state).1.breathing
      = { min_brightness := 10, max_brightness := 100, step := 4, delay_ms := 15 } :=
  have h := set_target_temp_effect animating_state 16 rfl
  ⟨h.2.1, h.2.2.2.2.2.1,
   Option.some.inj (((h.2.2.2.2.2.2.2.1 rfl).1).trans
     (by norm_num [spec_breathing_tier, animating_state, scenario_c_state, ready_state,
                   ac_service_init, initial_state, main_config, rgb_pwm_set_color,
                   abs_of_pos]))⟩

/-! ## The LED switch -/

theorem rgb_pwm_set_color_output (c : rgb_color_t) (s : State) (hrgb : s.rgb_initialized = true)
    (hr : c.r ≤ 100) (hg : c.g ≤ 100) (hb : c.b ≤ 100) :
    (rgb_pwm_set_color c s).rgb_output = c ∧
    (rgb_pwm_set_color c s).rgb_initialized = true := by
  unfold rgb_pwm_set_color
  rw [if_neg (by simp [hrgb])]
  obtain ⟨r, g, b⟩ := c
  simp only at hr hg hb
  simp [Nat.not_lt.mpr hr, Nat.not_lt.mpr hg, Nat.not_lt.mpr hb, hrgb]

theorem stop_breathing_animation_rgb (p : Platform) (s : State) :
    (stop_breathing_animation p s).rgb_initialized = s.rgb_initialized ∧
    (stop_breathing_animation p s).rgb_output = s.rgb_output := by
  unfold stop_breathing_animation
  split_ifs <;> exact ⟨rfl, rfl⟩

theorem start_breathing_animation_running (p : Platform) (s : State) :
    (start_breathing_animation p s).s_animation_running
      = (s.s_animation_running || p.task_create_ok) ∧
    (start_breathing_animation p s).rgb_initialized = s.rgb_initialized ∧
    (start_breathing_animation p s).rgb_output = s.rgb_output := by
  obtain ⟨-, -, r3, -, r5, r6⟩ :=
    calculate_breathing_params_reset |s.s_current_temp - s.s_status.target_temp| s
  unfold start_breathing_animation
  simp only []
  rw [r3]
  cases hrun : s.s_animation_running <;> cases hp : p.task_create_ok <;>
    simp [r3, r5, r6, hrun]

/-- How `update_rgb_led` renders each case when the RGB driver is initialised:
black and stopped when the light is disabled or the mode is `Off`, solid green
and stopped for `Comfort`, the animator started for `Heating` and `Cooling`. -/
theorem update_rgb_led_render (p : Platform) (s : State) (hrgb : s.rgb_initialized = true) :
    (update_rgb_led p s).1.rgb_initialized = true ∧
    (s.s_led_enabled = false →
      (update_rgb_led p s).1.s_animation_running = false ∧
      (update_rgb_led p s).1.rgb_output = { r := 0, g := 0, b := 0 }) ∧
    (s.s_led_enabled = true → s.s_status.mode = .AC_MODE_OFF →
      (update_rgb_led p s).1.s_animation_running = false ∧
      (update_rgb_led p s).1.rgb_output = { r := 0, g := 0, b := 0 }) ∧
    (s.s_led_enabled = true → s.s_status.mode = .AC_MODE_COMFORT →
      (update_rgb_led p s).1.s_animation_running = false ∧
      (update_rgb_led p s).1.rgb_output = { r := 0, g := 100, b := 0 }) ∧
    (s.s_led_enabled = true →
      s.s_status.mode = .AC_MODE_HEATING ∨ s.s_status.mode = .AC_MODE_COOLING →
      (update_rgb_led p s).1.s_animation_running = (s.s_animation_running || p.task_create_ok) ∧
      (update_rgb_led p s).1.rgb_output = s.rgb_output) := by
  have hstop : ∀ c : rgb_color_t, c.r ≤ 100 → c.g ≤ 100 → c.b ≤ 100 →
      (rgb_pwm_set_color c (stop_breathing_animation p s)).rgb_initialized = true ∧
      (rgb_pwm_set_color c (stop_breathing_animation p s)).s_animation_running = false ∧
      (rgb_pwm_set_color c (stop_breathing_animation p s)).rgb_output = c := by
    intro c hr hg hb
    have h1 := rgb_pwm_set_color_output c (stop_breathing_animation p s)
      ((stop_breathing_animation_rgb p s).1.trans hrgb) hr hg hb
    exact ⟨h1.2, (rgb_pwm_set_color_running _ _).trans (stop_breathing_animation_running p s),
      h1.1⟩
  have hb := hstop { r := 0, g := 0, b := 0 } (by simp) (by simp) (by simp)
  have hg := hstop { r := 0, g := 100, b := 0 } (by simp) (by simp) (by simp)
  obtain ⟨a1, a2, a3⟩ := start_breathing_animation_running p s
  unfold update_rgb_led
  cases hled : s.s_led_enabled
  · simp only [Bool.not_false, if_true]
    exact ⟨hb.1, fun _ => ⟨hb.2.1, hb.2.2⟩, fun h => absurd h (by simp),
      fun h => absurd h (by simp), fun h => absurd h (by simp)⟩
  · simp only [Bool.not_true, Bool.false_eq_true, if_false]
    cases hm : s.s_status.mode
    · exact ⟨hb.1, fun h => absurd h (by simp), fun _ _ => ⟨hb.2.1, hb.2.2⟩,
        fun _ h => absurd h (by simp), fun _ h => absurd h (by simp)⟩
    · exact ⟨hg.1, fun h => absurd h (by simp), fun _ h => absurd h (by simp),
        fun _ _ => ⟨hg.2.1, hg.2.2⟩, fun _ h => absurd h (by simp)⟩
    · exact ⟨a2.trans hrgb, fun h => absurd h (by simp), fun _ h => absurd h (by simp),
        fun _ h => absurd h (by simp), fun _ _ => ⟨a1, a3⟩⟩
    · exact ⟨a2.trans hrgb, fun h => absurd h (by simp), fun _ h => absurd h (by simp),
        fun _ h => absurd h (by simp), fun _ _ => ⟨a1, a3⟩⟩

/-- `ac_service_set_led_enabled` on an initialised controller: assign the switch,
then render. -/
theorem ac_service_set_led_enabled_eq (p : Platform) (b : Bool) (s : State)
    (hinit : s.s_initialized = true) :
    ac_service_set_led_enabled p b s = update_rgb_led p { s with s_led_enabled := b } := by
  unfold ac_service_set_led_enabled
  rw [if_neg (by simp [hinit])]

/-- The switch, the status and the initialised flags after
`ac_service_set_led_enabled`, and the rendering of each case. -/
theorem ac_service_set_led_enabled_render (p : Platform) (b : Bool) (s : State)
    (hinit : s.s_initialized = true) (hrgb : s.rgb_initialized = true) :
    (ac_service_set_led_enabled p b s).2 = .ESP_OK ∧
    (ac_service_set_led_enabled p b s).1.s_initialized = true ∧
    (ac_service_set_led_enabled p b s).1.rgb_initialized = true ∧
    (ac_service_set_led_enabled p b s).1.s_led_enabled = b ∧
    (ac_service_set_led_enabled p b s).1.s_status = s.s_status ∧
    (b = false →
      (ac_service_set_led_enabled p b s).1.s_animation_running = false ∧
      (ac_service_set_led_enabled p b s).1.rgb_output = { r := 0, g := 0, b := 0 }) ∧
    (b = true → s.s_status.mode = .AC_MODE_OFF →
      (ac_service_set_led_enabled p b s).1.s_animation_running = false ∧
      (ac_service_set_led_enabled p b s).1.rgb_output = { r := 0, g := 0, b := 0 }) ∧
    (b = true → s.s_status.mode = .AC_MODE_COMFORT →
      (ac_service_set_led_enabled p b s).1.s_animation_running = false ∧
      (ac_service_set_led_enabled p b s).1.rgb_output = { r := 0, g := 100, b := 0 }) ∧
    (b = true → s.s_status.mode = .AC_MODE_HEATING ∨ s.s_status.mode = .AC_MODE_COOLING →
      (ac_service_set_led_enabled p b s).1.s_animation_running
        = (s.s_animation_running || p.task_create_ok)) := by
  rw [ac_service_set_led_enabled_eq p b s hinit]
  obtain ⟨-, hst, hini, -, hled⟩ :=
    (core_eq_iff _ _).1 (update_rgb_led_core p { s with s_led_enabled := b })
  obtain ⟨k0, k1, k2, k3, k4⟩ := update_rgb_led_render p { s with s_led_enabled := b } hrgb
  exact ⟨update_rgb_led_result _ _, hini.trans hinit, k0, hled, hst, k1, k2, k3,
    fun hb hm => (k4 hb hm).1⟩

/-- C15. LED switch: on an initialised controller (RGB driver initialised with
it), `ac_service_set_led_enabled(false)` stops the animator and leaves black as
the last colour written; `ac_service_set_led_enabled(true)` renders the current
mode: black and stopped for `Off`, solid green and stopped for `Comfort`, the
animator running for `Heating` and `Cooling` once task creation succeeds. Both
leave `mode`, `intensity`, `target_temp` and `auto_mode` unchanged, and disabling
followed by enabling ends in the rendering of the unchanged mode. -/
theorem led_switch (p : Platform) (s : State)
    (hinit : s.s_initialized = true) (hrgb : s.rgb_initialized = true) :
    ((ac_service_set_led_enabled p false s).1.s_led_enabled = false ∧
     (ac_service_set_led_enabled p false s).1.s_animation_running = false ∧
     (ac_service_set_led_enabled p false s).1.rgb_output = { r := 0, g := 0, b := 0 } ∧
     (ac_service_set_led_enabled p false s).1.s_status = s.s_status) ∧
    ((ac_service_set_led_enabled p true s).1.s_led_enabled = true ∧
     (ac_service_set_led_enabled p true s).1.s_status = s.s_status ∧
     (s.s_status.mode = .AC_MODE_OFF →
       (ac_service_set_led_enabled p true s).1.s_animation_running = false ∧
       (ac_service_set_led_enabled p true s).1.rgb_output = { r := 0, g := 0, b := 0 }) ∧
     (s.s_status.mode = .AC_MODE_COMFORT →
       (ac_service_set_led_enabled p true s).1.s_animation_running = false ∧
       (ac_service_set_led_enabled p true s).1.rgb_output = { r := 0, g := 100, b := 0 }) ∧
     (s.s_status.mode = .AC_MODE_HEATING ∨ s.s_status.mode = .AC_MODE_COOLING →
       p.task_create_ok = true →
       (ac_service_set_led_enabled p true s).1.s_animation_running = true)) ∧
    ((ac_service_set_led_enabled p true
        (ac_service_set_led_enabled p false s).1).1.s_led_enabled = true ∧
     (ac_service_set_led_enabled p true
        (ac_service_set_led_enabled p false s).1).1.s_status = s.s_status ∧
     (s.s_status.mode = .AC_MODE_OFF →
       (ac_service_set_led_enabled p true
          (ac_service_set_led_enabled p false s).1).1.s_animation_running = false ∧
       (ac_service_set_led_enabled p true
          (ac_service_set_led_enabled p false s).1).1.rgb_output = { r := 0, g := 0, b := 0 }) ∧
     (s.s_status.mode = .AC_MODE_COMFORT →
       (ac_service_set_led_enabled p true
          (ac_service_set_led_enabled p false s).1).1.s_animation_running = false ∧
       (ac_service_set_led_enabled p true
          (ac_service_set_led_enabled p false s).1).1.rgb_output
         = { r := 0, g := 100, b := 0 }) ∧
     (s.s_status.mode = .AC_MODE_HEATING ∨ s.s_status.mode = .AC_MODE_COOLING →
       p.task_create_ok = true →
       (ac_service_set_led_enabled p true
          (ac_service_set_led_enabled p false s).1).1.s_animation_running = true)) := by
  obtain ⟨-, f1, f2, f3, f4, f5, -, -, -⟩ :=
    ac_service_set_led_enabled_render p false s hinit hrgb
  obtain ⟨-, -, -, t3, t4, -, t6, t7, t8⟩ :=
    ac_service_set_led_enabled_render p true s hinit hrgb
  obtain ⟨-, -, -, u3, u4, -, u6, u7, u8⟩ :=
    ac_service_set_led_enabled_render p true (ac_service_set_led_enabled p false s).1 f1 f2
  rw [f4] at u4 u6 u7 u8
  refine ⟨⟨f3, (f5 rfl).1, (f5 rfl).2, f4⟩,
    ⟨t3, t4, t6 rfl, t7 rfl, fun hm hp => ?_⟩,
    ⟨u3, u4, u6 rfl, u7 rfl, fun hm hp => ?_⟩⟩
  · rw [t8 rfl hm, hp, Bool.or_true]
  · rw [u8 rfl hm, hp, Bool.or_true]

/-- Witness for C15: the heating controller of Scenario C with the animator
running is switched off and on again. -/
theorem led_switch_witness :
    (ac_service_set_led_enabled good_platform false animating_state).1.s_animation_running
      = false ∧
    (ac_service_set_led_enabled good_platform false animating_state).1.rgb_output
      = { r := 0, g := 0, b := 0 } ∧
    (ac_service_set_led_enabled good_platform true
      (ac_service_set_led_enabled good_platform false animating_state).1).1.s_animation_running
      = true ∧
    (ac_service_set_led_enabled good_platform true ready_state).1.rgb_output
      = { r := 0, g := 100, b := 0 } :=
  have h := led_switch good_platform animating_state rfl rfl
  have h2 := led_switch good_platform ready_state rfl rfl
  ⟨h.1.2.1, h.1.2.2.1, h.2.2.2.2.2.2 (Or.inl rfl) rfl, (h2.2.1.2.2.2.1 rfl).2⟩

/-! ## Breathing parameters and the deviation -/

theorem rgb_pwm_set_color_breathing (c : rgb_color_t) (s : State) :
    (rgb_pwm_set_color c s).breathing = s.breathing := by
  unfold rgb_pwm_set_color
  split_ifs <;> rfl

theorem stop_breathing_animation_breathing (p : Platform) (s : State) :
    (stop_breathing_animation p s).breathing = s.breathing := by
  unfold stop_breathing_animation
  split_ifs <;> rfl

theorem start_breathing_animation_breathing (p : Platform) (s : State) :
    some (start_breathing_animation p s).breathing
      = spec_breathing_tier |s.s_current_temp - s.s_status.target_temp| := by
  have hb : (start_breathing_animation p s).breathing
      = (calculate_breathing_params |s.s_current_temp - s.s_status.target_temp| s).breathing := by
    unfold start_breathing_animation
    simp only []
    split_ifs <;> rfl
  rw [hb]
  exact calculate_breathing_params_tier _ (abs_nonneg _) s

/-- Rendering either leaves the parameters alone and the animator stopped, or
recomputes them from `|current_temp - target_temp|`. -/
theorem update_rgb_led_breathing (p : Platform) (s : State) :
    ((update_rgb_led p s).1.breathing = s.breathing ∧
      (update_rgb_led p s).1.s_animation_running = false) ∨
    some (update_rgb_led p s).1.breathing
      = spec_breathing_tier |s.s_current_temp - s.s_status.target_temp| := by
  have hstop : ∀ c : rgb_color_t,
      (rgb_pwm_set_color c (stop_breathing_animation p s)).breathing = s.breathing ∧
      (rgb_pwm_set_color c (stop_breathing_animation p s)).s_animation_running = false :=
    fun c => ⟨(rgb_pwm_set_color_breathing c _).trans (stop_breathing_animation_breathing p s),
      (rgb_pwm_set_color_running c _).trans (stop_breathing_animation_running p s)⟩
  unfold update_rgb_led
  split_ifs
  · exact Or.inl (hstop _)
  · split
    · exact Or.inl (hstop _)
    · exact Or.inl (hstop _)
    · exact Or.inr (start_breathing_animation_breathing p s)
    · exact Or.inr (start_breathing_animation_breathing p s)

/-- The parameters and the running flag held when `ac_service_update` reaches the
`auto_mode` test. -/
theorem update_stored_breathing (d : sensor_data_t) (s : State) :
    (update_stored d s).s_animation_running = s.s_animation_running ∧
    (s.s_animation_running = true → |d.temperature - s.s_current_temp| > 1 →
      some (update_stored d s).breathing
        = spec_breathing_tier |d.temperature - s.s_status.target_temp|) ∧
    (¬ (s.s_animation_running = true ∧ |d.temperature - s.s_current_temp| > 1) →
      (update_stored d s).breathing = s.breathing) := by
  unfold update_stored
  simp only []
  by_cases h : s.s_animation_running = true ∧ |d.temperature - s.s_current_temp| > 1
  · rw [if_pos h]
    refine ⟨((calculate_breathing_params_reset _ _).2.2.1), fun _ _ => ?_, fun hn => absurd h hn⟩
    exact calculate_breathing_params_tier _ (abs_nonneg _) _
  · rw [if_neg h]
    exact ⟨rfl, fun h1 h2 => absurd ⟨h1, h2⟩ h, fun _ => rfl⟩

/-- C17 (counterexample). Manual mode, target 24, animator running. At 20.5
degrees the deviation is 3.5 and the parameters are those of tier 1. A valid
update to 19.8 degrees moves the temperature by 0.7 and the deviation to 4.2,
across the boundary at 4; the animator keeps running with the tier 1 parameters,
while the tier selected by `|last_known_temp - target_temp|` is tier 2. -/
theorem breathing_params_stale :
    (manual_heating_state (41/2)).s_initialized = true ∧
    (manual_heating_state (41/2)).s_animation_running = true ∧
    some (manual_heating_state (41/2)).breathing
      = spec_breathing_tier |(manual_heating_state (41/2)).s_current_temp
          - (manual_heating_state (41/2)).s_status.target_temp| ∧
    (ac_service_update good_platform (some (reading (99/5) 50 (1/5)))
      (manual_heating_state (41/2))).1.s_animation_running = true ∧
    (ac_service_update good_platform (some (reading (99/5) 50 (1/5)))
      (manual_heating_state (41/2))).1.s_current_temp = 99/5 ∧
    (ac_service_update good_platform (some (reading (99/5) 50 (1/5)))
      (manual_heating_state (41/2))).1.s_status.target_temp = 24 ∧
    (ac_service_update good_platform (some (reading (99/5) 50 (1/5)))
      (manual_heating_state (41/2))).1.breathing
      = { min_brightness := 10, max_brightness := 70, step := 2, delay_ms := 40 } ∧
    spec_breathing_tier |(99/5 : ℚ) - 24|
      = some { min_brightness := 10, max_brightness := 85, step := 3, delay_ms := 25 } := by
  refine ⟨?_, ?_, ?_, ?_, ?_, ?_, ?_, ?_⟩ <;>
    norm_num [manual_heating_state, ac_service_set_mode, ac_service_set_target_temp,
      ac_service_update, ready_state, ac_service_init, initial_state, main_config, reading,
      good_platform, rgb_pwm_set_color, update_rgb_led, start_breathing_animation,
      stop_breathing_animation, calculate_breathing_params, State.breathing,
      spec_breathing_tier, abs_of_neg]

/-- In manual mode a valid update only stores the temperature (and refreshes the
parameters after a move of more than 1). -/
theorem ac_service_update_manual (p : Platform) (s : State) (d : sensor_data_t)
    (hinit : s.s_initialized = true) (hvalid : d.valid = true)
    (hauto : s.s_status.auto_mode = false) :
    ac_service_update p (some d) s = (update_stored d s, .ESP_OK) := by
  rw [ac_service_update_valid p s d hinit hvalid]
  rw [if_pos (by simp [hauto])]

/-- In automatic mode a valid update decides a mode and an intensity and then
renders. -/
theorem ac_service_update_auto (p : Platform) (s : State) (d : sensor_data_t)
    (hinit : s.s_initialized = true) (hvalid : d.valid = true)
    (hauto : s.s_status.auto_mode = true) :
    ∃ (m : ac_mode_t) (i : Nat), ac_service_update p (some d) s =
      update_rgb_led p
        { update_stored d s with s_status := { s.s_status with mode := m, intensity := i } } := by
  rw [ac_service_update_valid p s d hinit hvalid]
  rw [if_neg (by simp [hauto])]
  split_ifs
  · exact ⟨_, _, rfl⟩
  · exact ⟨_, _, rfl⟩
  · exact ⟨_, _, rfl⟩
  · exact ⟨_, _, rfl⟩
  · exact ⟨_, _, rfl⟩

/-- C17 (amended). On an initialised controller: after
`ac_service_set_target_temp` while the animator is running, after a valid
`ac_service_update` while the animator is running whose temperature differs from
the stored one by more than 1, and after a valid `ac_service_update` in automatic
mode that leaves the animator running, the breathing parameters are the tier
selected by `|last_known_temp - target_temp|`. A valid update in manual mode
whose temperature moves by at most 1 leaves the parameters (and the running
flag) as they were. -/
theorem breathing_params_tracking (p : Platform) (s : State) (d : sensor_data_t) (t : ℚ)
    (hinit : s.s_initialized = true) (hvalid : d.valid = true) :
    (s.s_animation_running = true →
      some (ac_service_set_target_temp t s).1.breathing
        = spec_breathing_tier |s.s_current_temp - t|) ∧
    (ac_service_update p (some d) s).1.s_current_temp = d.temperature ∧
    (ac_service_update p (some d) s).1.s_status.target_temp = s.s_status.target_temp ∧
    (s.s_animation_running = true → |d.temperature - s.s_current_temp| > 1 →
      some (ac_service_update p (some d) s).1.breathing
        = spec_breathing_tier |d.temperature - s.s_status.target_temp|) ∧
    (s.s_status.auto_mode = true →
      (ac_service_update p (some d) s).1.s_animation_running = true →
      some (ac_service_update p (some d) s).1.breathing
        = spec_breathing_tier |d.temperature - s.s_status.target_temp|) ∧
    (s.s_status.auto_mode = false → |d.temperature - s.s_current_temp| ≤ 1 →
      (ac_service_update p (some d) s).1.breathing = s.breathing ∧
      (ac_service_update p (some d) s).1.s_animation_running = s.s_animation_running) := by
  obtain ⟨b1, b2, b3⟩ := update_stored_breathing d s
  have hcur := update_stored_current_temp d s
  have hst := update_stored_status d s
  have htt : s.s_animation_running = true →
      some (ac_service_set_target_temp t s).1.breathing
        = spec_breathing_tier |s.s_current_temp - t| := by
    intro hrun
    have hdef : (ac_service_set_target_temp t s).1 =
        calculate_breathing_params |s.s_current_temp - t|
          { s with s_status := { s.s_status with target_temp := t } } := by
      unfold ac_service_set_target_temp
      rw [if_neg (by simp [hinit])]
      simp only []
      rw [if_pos hrun]
    rw [hdef]
    exact calculate_breathing_params_tier _ (abs_nonneg _) _
  cases hauto : s.s_status.auto_mode
  · rw [ac_service_update_manual p s d hinit hvalid hauto]
    refine ⟨htt, hcur, by rw [hst], fun h1 h2 => b2 h1 h2, fun h => absurd h (by simp),
      fun _ hle => ⟨b3 (fun h => absurd h.2 (not_lt.mpr hle)), b1⟩⟩
  · obtain ⟨m, i, hupd⟩ := ac_service_update_auto p s d hinit hvalid hauto
    rw [hupd]
    obtain ⟨-, hst', -, hcur', -⟩ := (core_eq_iff _ _).1 (update_rgb_led_core p
      { update_stored d s with s_status := { s.s_status with mode := m, intensity := i } })
    have hbr := update_rgb_led_breathing p
      { update_stored d s with s_status := { s.s_status with mode := m, intensity := i } }
    refine ⟨htt, hcur'.trans hcur, by rw [hst'], fun h1 h2 => ?_, fun _ hr => ?_,
      fun h => absurd h (by simp)⟩
    · rcases hbr with ⟨e1, -⟩ | e2
      · rw [e1]; exact b2 h1 h2
      · rw [e2]
        show spec_breathing_tier |(update_stored d s).s_current_temp - s.s_status.target_temp| = _
        rw [hcur]
    · rcases hbr with ⟨-, e1⟩ | e2
      · rw [e1] at hr
        exact absurd hr (by simp)
      · rw [e2]
        show spec_breathing_tier |(update_stored d s).s_current_temp - s.s_status.target_temp| = _
        rw [hcur]

/-- The facts about `manual_heating_state 20.5` that the examples below start from. -/
theorem manual_heating_state_facts :
    (manual_heating_state (41/2)).s_initialized = true ∧
    (manual_heating_state (41/2)).s_animation_running = true ∧
    (manual_heating_state (41/2)).s_status.auto_mode = false ∧
    (manual_heating_state (41/2)).s_current_temp = 41/2 ∧
    (manual_heating_state (41/2)).s_status.target_temp = 24 := by
  refine ⟨?_, ?_, ?_, ?_, ?_⟩ <;>
    norm_num [manual_heating_state, ac_service_set_mode, ac_service_set_target_temp,
      ac_service_update, ready_state, ac_service_init, initial_state, main_config, reading,
      good_platform, rgb_pwm_set_color, update_rgb_led, start_breathing_animation,
      stop_breathing_animation, calculate_breathing_params, abs_of_pos, abs_of_neg]

/-- Witness for the amended C17: from 20.5 degrees (target 24, manual, animator
running) an update to 18 degrees moves the temperature by 2.5, and the
parameters become those of tier 2 (deviation 6); an update to 19.8 degrees moves
it by 0.7 and the parameters stay. -/
theorem breathing_params_tracking_witness :
    (ac_service_update good_platform (some (reading 18 50 (1/5)))
      (manual_heating_state (41/2))).1.breathing
      = { min_brightness := 10, max_brightness := 85, step := 3, delay_ms := 25 } ∧
    (ac_service_update good_platform (some (reading (99/5) 50 (1/5)))
      (manual_heating_state (41/2))).1.breathing = (manual_heating_state (41/2)).breathing := by
  obtain ⟨f1, f2, f3, f4, f5⟩ := manual_heating_state_facts
  have h18 := (breathing_params_tracking good_platform (manual_heating_state (41/2))
    (reading 18 50 (1/5)) 24 f1 rfl).2.2.2.1 f2 (by rw [f4]; norm_num [reading, abs_of_neg])
  have h198 := (breathing_params_tracking good_platform (manual_heating_state (41/2))
    (reading (99/5) 50 (1/5)) 24 f1 rfl).2.2.2.2.2 f3
      (by rw [f4]; norm_num [reading, abs_of_neg])
  refine ⟨Option.some.inj (h18.trans ?_), h198.1⟩
  rw [f5]
  norm_num [reading, spec_breathing_tier, abs_of_neg]

/-! ## The animator invariant over sequences of calls -/

/-- With task creation succeeding, rendering establishes the animator invariant
from any state. -/
theorem update_rgb_led_invariant (p : Platform) (hp : p.task_create_ok = true) (s : State) :
    animator_invariant (update_rgb_led p s).1 := by
  obtain ⟨-, hst, -, -, hled⟩ := (core_eq_iff _ _).1 (update_rgb_led_core p s)
  have hstop : ∀ c : rgb_color_t,
      (rgb_pwm_set_color c (stop_breathing_animation p s)).s_animation_running = false :=
    fun c => (rgb_pwm_set_color_running c _).trans (stop_breathing_animation_running p s)
  have hstart : (start_breathing_animation p s).s_animation_running = true := by
    rw [(start_breathing_animation_running p s).1, hp, Bool.or_true]
  unfold animator_invariant
  rw [hst, hled]
  unfold update_rgb_led
  cases hl : s.s_led_enabled
  · simp [hstop]
  · cases hm : s.s_status.mode <;> simp [hstop, hstart]

/-- `ac_service_set_mode` on an initialised controller: assign the status, then
render. -/
theorem ac_service_set_mode_eq (p : Platform) (m : ac_mode_t) (i : Nat) (s : State)
    (hinit : s.s_initialized = true) :
    ac_service_set_mode p m i s = update_rgb_led p
      { s with s_status := { s.s_status with mode := m,
                                             intensity := if i > 100 then 100 else i,
                                             auto_mode := false } } := by
  unfold ac_service_set_mode
  rw [if_neg (by simp [hinit])]

/-- Rendering keeps the controller initialised. -/
theorem update_rgb_led_initialized (p : Platform) (s : State) :
    (update_rgb_led p s).1.s_initialized = s.s_initialized :=
  ((core_eq_iff _ _).1 (update_rgb_led_core p s)).2.2.1

/-- An invalid reading changes nothing. -/
theorem invalid_update_noop (p : Platform) (s : State) (d : sensor_data_t)
    (hinit : s.s_initialized = true) (hvalid : d.valid = false) :
    ac_service_update p (some d) s = (s, .ESP_ERR_INVALID_ARG) := by
  unfold ac_service_update
  simp [hinit, hvalid]

/-- What `ac_service_set_target_temp` leaves alone. -/
theorem ac_service_set_target_temp_frame (t : ℚ) (s : State) :
    (ac_service_set_target_temp t s).1.s_initialized = s.s_initialized ∧
    (ac_service_set_target_temp t s).1.s_animation_running = s.s_animation_running ∧
    (ac_service_set_target_temp t s).1.s_led_enabled = s.s_led_enabled ∧
    (ac_service_set_target_temp t s).1.s_status.mode = s.s_status.mode ∧
    (ac_service_set_target_temp t s).1.s_current_temp = s.s_current_temp := by
  unfold ac_service_set_target_temp
  simp only []
  split_ifs
  · exact ⟨rfl, rfl, rfl, rfl, rfl⟩
  · obtain ⟨-, hst, hini, hct, hled⟩ := (core_eq_iff _ _).1
      (calculate_breathing_params_core |s.s_current_temp - t|
        { s with s_status := { s.s_status with target_temp := t } })
    exact ⟨hini, (calculate_breathing_params_reset _ _).2.2.1, hled, by rw [hst], hct⟩
  · exact ⟨rfl, rfl, rfl, rfl, rfl⟩

/-- A valid or invalid update keeps the controller initialised and the animator
invariant. -/
theorem ac_service_update_invariant (p : Platform) (hp : p.task_create_ok = true)
    (sensor_data : Option sensor_data_t) (s : State) (hinit : s.s_initialized = true)
    (hinv : animator_invariant s) :
    (ac_service_update p sensor_data s).1.s_initialized = true ∧
    animator_invariant (ac_service_update p sensor_data s).1 := by
  cases sensor_data with
  | none =>
    have h : ac_service_update p none s = (s, .ESP_ERR_INVALID_ARG) := by
      unfold ac_service_update
      rw [if_neg (by simp [hinit])]
    rw [h]
    exact ⟨hinit, hinv⟩
  | some d =>
    cases hvalid : d.valid
    · rw [(invalid_update_noop p s d hinit hvalid)]
      exact ⟨hinit, hinv⟩
    · obtain ⟨hcfg, hst, hini, -, hled⟩ := (core_eq_iff _ _).1 (update_stored_core d s)
      cases hauto : s.s_status.auto_mode
      · rw [ac_service_update_manual p s d hinit hvalid hauto]
        refine ⟨hini.trans hinit, ?_⟩
        unfold animator_invariant
        rw [(update_stored_breathing d s).1, hst, hled]
        exact hinv
      · obtain ⟨m, i, hupd⟩ := ac_service_update_auto p s d hinit hvalid hauto
        rw [hupd]
        exact ⟨(update_rgb_led_initialized p _).trans (hini.trans hinit),
          update_rgb_led_invariant p hp _⟩

/-- Each interface call keeps the controller initialised and the animator
invariant, provided `ac_service_init` is not called while the animator runs. -/
theorem apply_call_invariant (p : Platform) (hp : p.task_create_ok = true) (c : ac_call)
    (s : State) (hinit : s.s_initialized = true) (hinv : animator_invariant s)
    (hc : ∀ config, c = .init config → s.s_animation_running = false) :
    (apply_call p c s).s_initialized = true ∧ animator_invariant (apply_call p c s) := by
  cases c with
  | init config =>
    cases config with
    | none => exact ⟨hinit, hinv⟩
    | some cfg =>
      obtain ⟨-, h1, -, h2, -, -, -, -, h3, h4⟩ := ac_service_init_some cfg s
      refine ⟨h1, ?_⟩
      show animator_invariant (ac_service_init (some cfg) s).1
      unfold animator_invariant
      rw [h4, h2, hc _ rfl]
      simp
  | update sensor_data =>
    exact ac_service_update_invariant p hp sensor_data s hinit hinv
  | set_mode mode intensity =>
    show (ac_service_set_mode p mode intensity s).1.s_initialized = true ∧
      animator_invariant (ac_service_set_mode p mode intensity s).1
    rw [ac_service_set_mode_eq p mode intensity s hinit]
    exact ⟨(update_rgb_led_initialized p _).trans hinit, update_rgb_led_invariant p hp _⟩
  | set_auto enable =>
    show (ac_service_set_auto enable s).1.s_initialized = true ∧
      animator_invariant (ac_service_set_auto enable s).1
    unfold ac_service_set_auto
    rw [if_neg (by simp [hinit])]
    exact ⟨hinit, hinv⟩
  | set_target_temp target_temp =>
    show (ac_service_set_target_temp target_temp s).1.s_initialized = true ∧
      animator_invariant (ac_service_set_target_temp target_temp s).1
    obtain ⟨h1, h2, h3, h4, -⟩ := ac_service_set_target_temp_frame target_temp s
    refine ⟨h1.trans hinit, ?_⟩
    unfold animator_invariant
    rw [h2, h3, h4]
    exact hinv
  | set_led_enabled enabled =>
    show (ac_service_set_led_enabled p enabled s).1.s_initialized = true ∧
      animator_invariant (ac_service_set_led_enabled p enabled s).1
    rw [ac_service_set_led_enabled_eq p enabled s hinit]
    exact ⟨(update_rgb_led_initialized p _).trans hinit, update_rgb_led_invariant p hp _⟩

/-- The invariant along a sequence of calls from an initialised state that has it. -/
theorem run_calls_invariant (p : Platform) (hp : p.task_create_ok = true) (cs : List ac_call) :
    ∀ s : State, s.s_initialized = true → animator_invariant s →
      init_only_when_stopped p cs s = true →
      (run_calls p cs s).s_initialized = true ∧ animator_invariant (run_calls p cs s) := by
  induction cs with
  | nil => exact fun s hinit hinv _ => ⟨hinit, hinv⟩
  | cons c cs ih =>
    intro s hinit hinv hcs
    unfold init_only_when_stopped at hcs
    rw [Bool.and_eq_true] at hcs
    have hc : ∀ config, c = .init config → s.s_animation_running = false := by
      intro config hcfg
      have h1 := hcs.1
      rw [hcfg] at h1
      simpa using h1
    obtain ⟨h1, h2⟩ := apply_call_invariant p hp c s hinit hinv hc
    exact ih _ h1 h2 hcs.2

/-- C14 (counterexample). After a successful init, `ac_service_set_mode(Heating, 0)`
starts the animator; a second `ac_service_init` then sets `mode = Comfort` without
stopping it, so the running flag is set while the mode is `Comfort`. The next
animation tick finds the mode changed and clears the flag. -/
theorem animator_invariant_broken_by_init :
    ready_state = (ac_service_init (some main_config) initial_state).1 ∧
    (run_calls good_platform [.set_mode .AC_MODE_HEATING 0, .init (some main_config)]
      ready_state).s_animation_running = true ∧
    (run_calls good_platform [.set_mode .AC_MODE_HEATING 0, .init (some main_config)]
      ready_state).s_status.mode = .AC_MODE_COMFORT ∧
    ¬ animator_invariant
      (run_calls good_platform [.set_mode .AC_MODE_HEATING 0, .init (some main_config)]
        ready_state) ∧
    (breathing_animation_tick
      (run_calls good_platform [.set_mode .AC_MODE_HEATING 0, .init (some main_config)]
        ready_state)).s_animation_running = false := by
  have h1 : (run_calls good_platform [.set_mode .AC_MODE_HEATING 0, .init (some main_config)]
      ready_state).s_animation_running = true := by
    norm_num [run_calls, apply_call, ac_service_set_mode, ac_service_init, ready_state,
      initial_state, main_config, good_platform, rgb_pwm_set_color, update_rgb_led,
      start_breathing_animation, calculate_breathing_params]
  have h2 : (run_calls good_platform [.set_mode .AC_MODE_HEATING 0, .init (some main_config)]
      ready_state).s_status.mode = .AC_MODE_COMFORT := by
    norm_num [run_calls, apply_call, ac_service_set_mode, ac_service_init, ready_state,
      initial_state, main_config, good_platform, rgb_pwm_set_color, update_rgb_led,
      start_breathing_animation, calculate_breathing_params]
  refine ⟨rfl, h1, h2, ?_, ?_⟩
  · unfold animator_invariant
    rw [h1, h2]
    simp
  · unfold breathing_animation_tick
    rw [if_neg (by simp [h1]), if_pos (by simp [h2])]
    rfl

/-- C14 (amended). Start from a successful `ac_service_init` made while the
animator is stopped (the load-time state, or the state after `ac_service_deinit`)
and apply any sequence of `ac_service_init`, `ac_service_update`,
`ac_service_set_mode`, `ac_service_set_auto`, `ac_service_set_target_temp` and
`ac_service_set_led_enabled` calls in which `ac_service_init` is only called while
the animator is stopped. With task creation succeeding, the running flag is set
exactly when the light is enabled and the mode is `Heating` or `Cooling`; in
particular the animator is stopped in the modes `Off` and `Comfort`. -/
theorem animator_invariant_reachable (p : Platform) (hp : p.task_create_ok = true)
    (cfg : ac_service_config_t) (s_prev : State) (cs : List ac_call)
    (hprev : s_prev.s_animation_running = false)
    (hcs : init_only_when_stopped p cs (ac_service_init (some cfg) s_prev).1 = true) :
    animator_invariant (run_calls p cs (ac_service_init (some cfg) s_prev).1) ∧
    ((run_calls p cs (ac_service_init (some cfg) s_prev).1).s_status.mode = .AC_MODE_OFF ∨
      (run_calls p cs (ac_service_init (some cfg) s_prev).1).s_status.mode = .AC_MODE_COMFORT →
      (run_calls p cs (ac_service_init (some cfg) s_prev).1).s_animation_running = false) := by
  obtain ⟨-, h1, -, h2, -, -, -, -, -, h4⟩ := ac_service_init_some cfg s_prev
  have h0 : animator_invariant (ac_service_init (some cfg) s_prev).1 := by
    unfold animator_invariant
    rw [h4, h2, hprev]
    simp
  obtain ⟨-, hinv⟩ := run_calls_invariant p hp cs _ h1 h0 hcs
  refine ⟨hinv, fun hm => ?_⟩
  unfold animator_invariant at hinv
  by_contra hrun
  rw [Bool.not_eq_false] at hrun
  have := (hinv.mp hrun).2
  rcases hm with hm | hm <;> rw [hm] at this <;> simp at this

/-- Witness for the amended C14: from the load-time state, init, then heating is
switched on, the light is switched off, the controller is initialised again (the
animator is stopped at that moment) and the light is switched back on. -/
theorem animator_invariant_reachable_witness :
    init_only_when_stopped good_platform
      [.set_mode .AC_MODE_HEATING 0, .set_led_enabled false, .init (some main_config),
       .set_led_enabled true]
      (ac_service_init (some main_config) initial_state).1 = true ∧
    animator_invariant
      (run_calls good_platform
        [.set_mode .AC_MODE_HEATING 0, .set_led_enabled false, .init (some main_config),
         .set_led_enabled true]
        (ac_service_init (some main_config) initial_state).1) :=
  have hcs : init_only_when_stopped good_platform
      [.set_mode .AC_MODE_HEATING 0, .set_led_enabled false, .init (some main_config),
       .set_led_enabled true]
      (ac_service_init (some main_config) initial_state).1 = true := by
    norm_num [init_only_when_stopped, apply_call, ac_service_set_mode,
      ac_service_set_led_enabled, ac_service_init, initial_state, main_config, good_platform,
      rgb_pwm_set_color, update_rgb_led, start_breathing_animation, stop_breathing_animation,
      calculate_breathing_params]
  ⟨hcs, (animator_invariant_reachable good_platform rfl main_config initial_state
    [.set_mode .AC_MODE_HEATING 0, .set_led_enabled false, .init (some main_config),
     .set_led_enabled true] rfl hcs).1⟩

/-! ## Commands: `atoi` and `handle_command` -/

theorem decimal_value_cons (c : Char) (cs : List Char) :
    decimal_value (c :: cs) = (c.toNat - 48) * 10 ^ cs.length + decimal_value cs := by
  unfold decimal_value
  rw [List.reverse_cons, List.map_append, Nat.ofDigits_append]
  simp [Nat.ofDigits_singleton, mul_comm, add_comm]

/-- On a string of decimal digits the digit loop computes the denoted number. -/
theorem atoi_digits_eq (ds : List Char) :
    (∀ c ∈ ds, c.isDigit = true) →
    ∀ acc : Nat, atoi_digits acc ds = acc * 10 ^ ds.length + decimal_value ds := by
  induction ds with
  | nil => intro _ acc; simp [atoi_digits, decimal_value]
  | cons c cs ih =>
    intro h acc
    have hc : c.isDigit = true := h c (List.mem_cons_self _ _)
    have hcs : ∀ x ∈ cs, x.isDigit = true := fun x hx => h x (List.mem_cons_of_mem _ hx)
    unfold atoi_digits
    rw [if_pos hc, ih hcs, decimal_value_cons, List.length_cons]
    ring

theorem isDigit_facts (c : Char) (h : c.isDigit = true) :
    isspace c = false ∧ c ≠ '-' ∧ c ≠ '+' := by
  have h1 : 48 ≤ c.toNat ∧ c.toNat ≤ 57 := by
    simpa [Char.isDigit, Char.toNat, UInt32.le_def, Fin.le_def] using h
  refine ⟨?_, ?_, ?_⟩
  · unfold isspace
    simp
    omega
  · rintro rfl
    simp at h1
  · rintro rfl
    simp at h1

/-- `atoi` on a string of decimal digits: the denoted number, clamped at
`INT_MAX`. -/
theorem atoi_of_digits (ds : List Char) (h : ∀ c ∈ ds, c.isDigit = true) :
    atoi ds = min INT_MAX (decimal_value ds : Int) := by
  have hval : atoi_digits 0 ds = decimal_value ds := by
    rw [atoi_digits_eq ds h 0]; simp
  cases ds with
  | nil => simp [atoi, atoi_digits, decimal_value]
  | cons c cs =>
    obtain ⟨h1, h2, h3⟩ := isDigit_facts c (h c (List.mem_cons_self _ _))
    unfold atoi
    simp only [List.dropWhile_cons, h1, Bool.false_eq_true, if_false, List.head?_cons,
      Option.some.injEq, h2, h3]
    rw [hval]

/-- `atoi` on a minus sign followed by decimal digits: the negated number,
clamped at `INT_MIN`. -/
theorem atoi_of_minus_digits (ds : List Char) (h : ∀ c ∈ ds, c.isDigit = true) :
    atoi ('-' :: ds) = max INT_MIN (-(decimal_value ds : Int)) := by
  have hval : atoi_digits 0 ds = decimal_value ds := by
    rw [atoi_digits_eq ds h 0]; simp
  have hsp : isspace '-' = false := by decide
  unfold atoi
  simp only [List.dropWhile_cons, hsp, Bool.false_eq_true, if_false, List.head?_cons,
    if_true, List.tail_cons]
  rw [hval]

/-- Rendering `Heating` or `Cooling` with the light enabled starts the animator. -/
theorem update_rgb_led_of_animated (p : Platform) (s : State) (hled : s.s_led_enabled = true)
    (hm : s.s_status.mode = .AC_MODE_HEATING ∨ s.s_status.mode = .AC_MODE_COOLING) :
    (update_rgb_led p s).1 = start_breathing_animation p s := by
  unfold update_rgb_led
  rw [if_neg (by simp [hled])]
  rcases hm with hm | hm <;> rw [hm]

/-- `ac_service_set_target_temp(t)` followed by `ac_service_set_mode(m, 0)` on an
initialised controller. -/
theorem set_target_then_mode (p : Platform) (s : State) (t : ℚ) (m : ac_mode_t)
    (hinit : s.s_initialized = true) :
    (ac_service_set_mode p m 0 (ac_service_set_target_temp t s).1).1.s_status.target_temp = t ∧
    (ac_service_set_mode p m 0 (ac_service_set_target_temp t s).1).1.s_status.mode = m ∧
    (ac_service_set_mode p m 0 (ac_service_set_target_temp t s).1).1.s_status.intensity = 0 ∧
    (ac_service_set_mode p m 0 (ac_service_set_target_temp t s).1).1.s_status.auto_mode = false ∧
    (s.s_led_enabled = true → m = .AC_MODE_HEATING ∨ m = .AC_MODE_COOLING →
      some (ac_service_set_mode p m 0 (ac_service_set_target_temp t s).1).1.breathing
        = spec_breathing_tier |s.s_current_temp - t|) := by
  obtain ⟨f1, -, f3, -, f5⟩ := ac_service_set_target_temp_frame t s
  have ftt : (ac_service_set_target_temp t s).1.s_status.target_temp = t := by
    unfold ac_service_set_target_temp
    rw [if_neg (by simp [hinit])]
    simp only []
    split_ifs
    · rw [calculate_breathing_params_status]
    · rfl
  have hx : ∃ x : State,
      x.s_status = { (ac_service_set_target_temp t s).1.s_status with
        mode := m, intensity := 0, auto_mode := false } ∧
      x.s_led_enabled = (ac_service_set_target_temp t s).1.s_led_enabled ∧
      x.s_current_temp = (ac_service_set_target_temp t s).1.s_current_temp ∧
      (ac_service_set_mode p m 0 (ac_service_set_target_temp t s).1).1
        = (update_rgb_led p x).1 :=
    ⟨{ (ac_service_set_target_temp t s).1 with
        s_status := { (ac_service_set_target_temp t s).1.s_status with
          mode := m, intensity := if 0 > 100 then 100 else 0, auto_mode := false } },
      rfl, rfl, rfl, by rw [ac_service_set_mode_eq p m 0 _ (f1.trans hinit)]⟩
  obtain ⟨x, x1, x2, x3, x4⟩ := hx
  rw [x4]
  obtain ⟨-, hst, -, -, -⟩ := (core_eq_iff _ _).1 (update_rgb_led_core p x)
  have xm : x.s_status.mode = m := by rw [x1]
  have xt : x.s_status.target_temp = t := by rw [x1]; exact ftt
  refine ⟨by rw [hst]; exact xt, by rw [hst]; exact xm, by rw [hst, x1], by rw [hst, x1],
    fun hled hm => ?_⟩
  rw [update_rgb_led_of_animated p x (x2.trans (f3.trans hled)) (by rw [xm]; exact hm),
    start_breathing_animation_breathing, x3, f5, xt]

/-- The `AC_HEATING_` branch of `handle_command`. -/
theorem handle_command_heating (p : Platform) (ds : List Char) (s : State) :
    handle_command p ("AC_HEATING_".toList ++ ds) s =
      ((ac_service_set_mode p .AC_MODE_HEATING 0
        (ac_service_set_target_temp ((atoi ds : Int) : ℚ) s).1).1, []) := by
  unfold handle_command
  have e1 : strncmp_eq ("AC_HEATING_".toList ++ ds) "AC_".toList 3 = true := rfl
  have e2 : strcmp_eq ("AC_HEATING_".toList ++ ds) "AC_AUTO_ON".toList = false := by
    simp [strcmp_eq]
  have e3 : strcmp_eq ("AC_HEATING_".toList ++ ds) "AC_AUTO_OFF".toList = false := by
    simp [strcmp_eq]
  have e4 : strcmp_eq ("AC_HEATING_".toList ++ ds) "AC_OFF".toList = false := by
    simp [strcmp_eq]
  have e5 : strncmp_eq ("AC_HEATING_".toList ++ ds) "AC_COOLING_".toList 11 = false := rfl
  have e6 : strncmp_eq ("AC_HEATING_".toList ++ ds) "AC_HEATING_".toList 11 = true := rfl
  have e7 : ("AC_HEATING_".toList ++ ds).drop 11 = ds := rfl
  simp only [e1, e2, e3, e4, e5, e6, e7, if_true, Bool.false_eq_true, if_false]

/-- The `AC_COOLING_` branch of `handle_command`. -/
theorem handle_command_cooling (p : Platform) (ds : List Char) (s : State) :
    handle_command p ("AC_COOLING_".toList ++ ds) s =
      ((ac_service_set_mode p .AC_MODE_COOLING 0
        (ac_service_set_target_temp ((atoi ds : Int) : ℚ) s).1).1, []) := by
  unfold handle_command
  have e1 : strncmp_eq ("AC_COOLING_".toList ++ ds) "AC_".toList 3 = true := rfl
  have e2 : strcmp_eq ("AC_COOLING_".toList ++ ds) "AC_AUTO_ON".toList = false := by
    simp [strcmp_eq]
  have e3 : strcmp_eq ("AC_COOLING_".toList ++ ds) "AC_AUTO_OFF".toList = false := by
    simp [strcmp_eq]
  have e4 : strcmp_eq ("AC_COOLING_".toList ++ ds) "AC_OFF".toList = false := by
    simp [strcmp_eq]
  have e5 : strncmp_eq ("AC_COOLING_".toList ++ ds) "AC_COOLING_".toList 11 = true := rfl
  have e7 : ("AC_COOLING_".toList ++ ds).drop 11 = ds := rfl
  simp only [e1, e2, e3, e4, e5, e7, if_true, Bool.false_eq_true, if_false]

/-- C18 (counterexample). The argument is read with `atoi` into an `int`:
`"AC_HEATING_3000000000"` leaves `target_temp` at the conversion of
`INT_MAX = 2147483647`, not at 3000000000. -/
theorem heating_command_clamps :
    ready_state.s_initialized = true ∧
    decimal_value "3000000000".toList = 3000000000 ∧
    (handle_command good_platform "AC_HEATING_3000000000".toList ready_state).1.s_status.target_temp
      = 2147483647 ∧
    (handle_command good_platform "AC_HEATING_3000000000".toList ready_state).1.s_status.target_temp
      ≠ 3000000000 := by
  have h : (handle_command good_platform "AC_HEATING_3000000000".toList
      ready_state).1.s_status.target_temp = 2147483647 := by
    have e : "AC_HEATING_3000000000".toList = "AC_HEATING_".toList ++ "3000000000".toList := rfl
    have ha : atoi "3000000000".toList = 2147483647 := by decide
    rw [e, handle_command_heating, ha]
    exact_mod_cast (set_target_then_mode good_platform ready_state _ .AC_MODE_HEATING rfl).1
  refine ⟨rfl, by rfl, h, ?_⟩
  rw [h]
  norm_num

/-- C18 (amended). Heating and cooling commands: for every string `ds` of decimal
digits denoting a number `N ≤ INT_MAX` and every initialised controller state,
`handle_command("AC_HEATING_" ++ ds)` leaves `target_temp` at `N` converted to
`float`, `mode = Heating`, `intensity = 0` and `auto_mode = false`, and
`handle_command("AC_COOLING_" ++ ds)` leaves the same with `mode = Cooling`;
neither issues a motor or servo call, and with the light enabled the breathing
parameters afterwards are the tier of `|last_known_temp - target_temp|`. -/
theorem heating_cooling_command (p : Platform) (s : State) (ds : List Char)
    (hinit : s.s_initialized = true) (hdig : ∀ c ∈ ds, c.isDigit = true)
    (hmax : (decimal_value ds : Int) ≤ INT_MAX) :
    ((handle_command p ("AC_HEATING_".toList ++ ds) s).1.s_status.target_temp
        = (decimal_value ds : ℚ) ∧
     (handle_command p ("AC_HEATING_".toList ++ ds) s).1.s_status.mode = .AC_MODE_HEATING ∧
     (handle_command p ("AC_HEATING_".toList ++ ds) s).1.s_status.intensity = 0 ∧
     (handle_command p ("AC_HEATING_".toList ++ ds) s).1.s_status.auto_mode = false ∧
     (handle_command p ("AC_HEATING_".toList ++ ds) s).2 = [] ∧
     (s.s_led_enabled = true →
       some (handle_command p ("AC_HEATING_".toList ++ ds) s).1.breathing
         = spec_breathing_tier |s.s_current_temp - (decimal_value ds : ℚ)|)) ∧
    ((handle_command p ("AC_COOLING_".toList ++ ds) s).1.s_status.target_temp
        = (decimal_value ds : ℚ) ∧
     (handle_command p ("AC_COOLING_".toList ++ ds) s).1.s_status.mode = .AC_MODE_COOLING ∧
     (handle_command p ("AC_COOLING_".toList ++ ds) s).1.s_status.intensity = 0 ∧
     (handle_command p ("AC_COOLING_".toList ++ ds) s).1.s_status.auto_mode = false ∧
     (handle_command p ("AC_COOLING_".toList ++ ds) s).2 = [] ∧
     (s.s_led_enabled = true →
       some (handle_command p ("AC_COOLING_".toList ++ ds) s).1.breathing
         = spec_breathing_tier |s.s_current_temp - (decimal_value ds : ℚ)|)) := by
  have hat : atoi ds = (decimal_value ds : Int) := by
    rw [atoi_of_digits ds hdig]
    exact min_eq_right hmax
  have hH := handle_command_heating p ds s
  have hC := handle_command_cooling p ds s
  have hq : ((atoi ds : Int) : ℚ) = (decimal_value ds : ℚ) := by rw [hat]; norm_cast
  rw [hH, hC, hq]
  obtain ⟨a1, a2, a3, a4, a5⟩ :=
    set_target_then_mode p s (decimal_value ds : ℚ) .AC_MODE_HEATING hinit
  obtain ⟨b1, b2, b3, b4, b5⟩ :=
    set_target_then_mode p s (decimal_value ds : ℚ) .AC_MODE_COOLING hinit
  exact ⟨⟨a1, a2, a3, a4, rfl, fun h => a5 h (Or.inl rfl)⟩,
    ⟨b1, b2, b3, b4, rfl, fun h => b5 h (Or.inr rfl)⟩⟩

/-- Witness for the amended C18 (Scenario E): `"AC_HEATING_22"` gives target
22.0, mode `Heating`, `auto_mode` false. -/
theorem heating_cooling_command_witness :
    (handle_command good_platform "AC_HEATING_22".toList auto_state).1.s_status.target_temp
      = 22 ∧
    (handle_command good_platform "AC_HEATING_22".toList auto_state).1.s_status.mode
      = .AC_MODE_HEATING ∧
    (handle_command good_platform "AC_HEATING_22".toList auto_state).1.s_status.auto_mode
      = false := by
  have hdig : ∀ c ∈ "22".toList, c.isDigit = true := by decide
  have hval : decimal_value "22".toList = 22 := by rfl
  have h := (heating_cooling_command good_platform auto_state "22".toList rfl hdig
    (by rw [hval]; decide)).1
  rw [hval] at h
  exact ⟨by exact_mod_cast h.1, h.2.1, h.2.2.2.1⟩

theorem digitChar_facts (d : Nat) (hd : d < 10) :
    (Nat.digitChar d).isDigit = true ∧ (Nat.digitChar d).toNat - 48 = d := by
  interval_cases d <;> exact ⟨rfl, rfl⟩

/-- Every natural number is denoted by a non-empty string of decimal digits. -/
theorem decimal_value_surjective (N : Nat) :
    ∃ ds : List Char, ds ≠ [] ∧ (∀ c ∈ ds, c.isDigit = true) ∧ decimal_value ds = N := by
  by_cases h0 : N = 0
  · subst h0
    exact ⟨['0'], by simp, by decide, rfl⟩
  · refine ⟨((Nat.digits 10 N).map Nat.digitChar).reverse, ?_, ?_, ?_⟩
    · simp [Nat.digits_eq_nil_iff_eq_zero, h0]
    · intro c hc
      rw [List.mem_reverse, List.mem_map] at hc
      obtain ⟨d, hd, rfl⟩ := hc
      exact (digitChar_facts d (Nat.digits_lt_base (by norm_num) hd)).1
    · unfold decimal_value
      rw [List.reverse_reverse, List.map_map]
      have : (Nat.digits 10 N).map ((fun c => c.toNat - 48) ∘ Nat.digitChar) = Nat.digits 10 N := by
        conv_rhs => rw [← List.map_id (Nat.digits 10 N)]
        apply List.map_congr_left
        intro d hd
        exact (digitChar_facts d (Nat.digits_lt_base (by norm_num) hd)).2
      rw [this, Nat.ofDigits_digits]

/-- The `MOTOR_` branch of `handle_command`. -/
theorem handle_command_motor (p : Platform) (arg : List Char) (s : State) :
    handle_command p ("MOTOR_".toList ++ arg) s =
      (s, if atoi arg ≥ 0 ∧ atoi arg ≤ 100 then
            (if atoi arg = 0 then [.motor_service_stop MOTOR_ID_1]
             else [.motor_service_forward MOTOR_ID_1 ((atoi arg).toNat % 256)])
          else []) := by
  unfold handle_command
  have e1 : strncmp_eq ("MOTOR_".toList ++ arg) "AC_".toList 3 = false := rfl
  have e2 : strncmp_eq ("MOTOR_".toList ++ arg) "MOTOR_".toList 6 = true := rfl
  have e3 : ("MOTOR_".toList ++ arg).drop 6 = arg := rfl
  simp only [e1, e2, e3, if_true, Bool.false_eq_true, if_false]
  split_ifs <;> rfl

/-- The `SERVO_` branch of `handle_command`. -/
theorem handle_command_servo (p : Platform) (arg : List Char) (s : State) :
    handle_command p ("SERVO_".toList ++ arg) s =
      (s, if atoi arg ≥ 0 ∧ atoi arg ≤ 180 then [.servo_set_angle ((atoi arg).toNat % 256)]
          else []) := by
  unfold handle_command
  have e1 : strncmp_eq ("SERVO_".toList ++ arg) "AC_".toList 3 = false := rfl
  have e2 : strncmp_eq ("SERVO_".toList ++ arg) "MOTOR_".toList 6 = false := rfl
  have e3 : strncmp_eq ("SERVO_".toList ++ arg) "SERVO_".toList 6 = true := rfl
  have e4 : ("SERVO_".toList ++ arg).drop 6 = arg := rfl
  simp only [e1, e2, e3, e4, if_true, Bool.false_eq_true, if_false]
  split_ifs <;> rfl

/-- C20. Range-checked actuator commands. Let `ds` be a string of decimal digits
denoting `N`. `handle_command("MOTOR_" ++ ds)` stops motor 1 when `N = 0`, drives
motor 1 forward at speed `N` when `1 ≤ N ≤ 100`, and issues no call when
`N > 100`; `handle_command("MOTOR_-" ++ ds)`, the command for `-N`, issues no
call when `N > 0`. `handle_command("SERVO_" ++ ds)` sets the servo angle to `N`
when `N ≤ 180` and issues no call when `N > 180`; `handle_command("SERVO_-" ++ ds)`
issues no call when `N > 0`. None of them changes the controller state. -/
theorem actuator_commands (p : Platform) (s : State) (ds : List Char)
    (hdig : ∀ c ∈ ds, c.isDigit = true) :
    ((decimal_value ds = 0 →
        handle_command p ("MOTOR_".toList ++ ds) s = (s, [.motor_service_stop MOTOR_ID_1])) ∧
     (1 ≤ decimal_value ds ∧ decimal_value ds ≤ 100 →
        handle_command p ("MOTOR_".toList ++ ds) s
          = (s, [.motor_service_forward MOTOR_ID_1 (decimal_value ds)])) ∧
     (100 < decimal_value ds → handle_command p ("MOTOR_".toList ++ ds) s = (s, [])) ∧
     (0 < decimal_value ds → handle_command p ("MOTOR_-".toList ++ ds) s = (s, []))) ∧
    ((decimal_value ds ≤ 180 →
        handle_command p ("SERVO_".toList ++ ds) s = (s, [.servo_set_angle (decimal_value ds)])) ∧
     (180 < decimal_value ds → handle_command p ("SERVO_".toList ++ ds) s = (s, [])) ∧
     (0 < decimal_value ds → handle_command p ("SERVO_-".toList ++ ds) s = (s, []))) := by
  have hpos := atoi_of_digits ds hdig
  have hneg := atoi_of_minus_digits ds hdig
  have em : "MOTOR_-".toList ++ ds = "MOTOR_".toList ++ ('-' :: ds) := rfl
  have es : "SERVO_-".toList ++ ds = "SERVO_".toList ++ ('-' :: ds) := rfl
  rw [em, es]
  simp only [handle_command_motor, handle_command_servo, hpos, hneg, INT_MAX, INT_MIN]
  generalize decimal_value ds = N
  refine ⟨⟨?_, ?_, ?_, ?_⟩, ?_, ?_, ?_⟩
  · rintro rfl
    simp
  · rintro ⟨h1, h2⟩
    have e : min (2147483647 : Int) (N : Int) = N := by omega
    rw [e]
    have h3 : ¬ ((N : Int) = 0) := by omega
    have h4 : (N : Int) ≥ 0 ∧ (N : Int) ≤ 100 := by omega
    rw [if_pos h4, if_neg h3]
    have : (N : Int).toNat % 256 = N := by
      rw [Int.toNat_natCast]; omega
    rw [this]
  · intro h
    rw [if_neg (by omega)]
  · intro h
    rw [if_neg (by omega)]
  · intro h
    have e : min (2147483647 : Int) (N : Int) = N := by omega
    rw [e, if_pos (by omega)]
    have : (N : Int).toNat % 256 = N := by
      rw [Int.toNat_natCast]; omega
    rw [this]
  · intro h
    rw [if_neg (by omega)]
  · intro h
    rw [if_neg (by omega)]

/-- Witness for C20: `MOTOR_0`, `MOTOR_55`, `MOTOR_101`, `MOTOR_-5`, `SERVO_180`,
`SERVO_181` and an argument beyond the range of `int`. -/
theorem actuator_commands_witness :
    handle_command good_platform "MOTOR_0".toList auto_state
      = (auto_state, [.motor_service_stop MOTOR_ID_1]) ∧
    handle_command good_platform "MOTOR_55".toList auto_state
      = (auto_state, [.motor_service_forward MOTOR_ID_1 55]) ∧
    handle_command good_platform "MOTOR_101".toList auto_state = (auto_state, []) ∧
    handle_command good_platform "MOTOR_-5".toList auto_state = (auto_state, []) ∧
    handle_command good_platform "SERVO_180".toList auto_state
      = (auto_state, [.servo_set_angle 180]) ∧
    handle_command good_platform "SERVO_181".toList auto_state = (auto_state, []) ∧
    handle_command good_platform "MOTOR_4294967296".toList auto_state = (auto_state, []) :=
  ⟨(actuator_commands good_platform auto_state "0".toList (by decide)).1.1 (by rfl),
   (actuator_commands good_platform auto_state "55".toList (by decide)).1.2.1
     (by constructor <;> decide),
   (actuator_commands good_platform auto_state "101".toList (by decide)).1.2.2.1 (by decide),
   (actuator_commands good_platform auto_state "5".toList (by decide)).1.2.2.2 (by decide),
   (actuator_commands good_platform auto_state "180".toList (by decide)).2.1 (by decide),
   (actuator_commands good_platform auto_state "181".toList (by decide)).2.2.1 (by decide),
   (actuator_commands good_platform auto_state "4294967296".toList (by decide)).1.2.2.1
     (by decide)⟩

/-- A command that is none of the exact commands and has no argument prefix is
ignored. -/
theorem handle_command_ignored (p : Platform) (s : State) (command : List Char)
    (hexact : command ∉ exact_commands) (hpre : takes_argument command = false) :
    handle_command p command s = (s, []) := by
  unfold takes_argument at hpre
  simp only [Bool.or_eq_false_iff] at hpre
  obtain ⟨⟨⟨p1, p2⟩, p3⟩, p4⟩ := hpre
  unfold exact_commands at hexact
  simp only [List.mem_cons, List.mem_singleton, not_or, List.not_mem_nil, not_false_eq_true,
    and_true] at hexact
  obtain ⟨x1, x2, x3, x4, x5, x6, x7, x8, x9⟩ := hexact
  have c1 : strcmp_eq command "AC_AUTO_ON".toList = false := by simpa [strcmp_eq] using x1
  have c2 : strcmp_eq command "AC_AUTO_OFF".toList = false := by simpa [strcmp_eq] using x2
  have c3 : strcmp_eq command "AC_OFF".toList = false := by simpa [strcmp_eq] using x3
  have c4 : strcmp_eq command "LED_ON".toList = false := by simpa [strcmp_eq] using x4
  have c5 : strcmp_eq command "LED_OFF".toList = false := by simpa [strcmp_eq] using x5
  have c6 : strcmp_eq command "LED_GREEN".toList = false := by simpa [strcmp_eq] using x6
  have c7 : strcmp_eq command "LED_RED".toList = false := by simpa [strcmp_eq] using x7
  have c8 : strcmp_eq command "SMART_LIGHT_ON".toList = false := by simpa [strcmp_eq] using x8
  have c9 : strcmp_eq command "SMART_LIGHT_OFF".toList = false := by
    simpa [strcmp_eq] using x9
  unfold handle_command
  simp only [p1, p2, p3, p4, c1, c2, c3, c4, c5, c6, c7, c8, c9, Bool.false_eq_true, if_false]
  split_ifs <;> rfl

/-- C19 (counterexample). A known prefix with a missing or non-numeric argument
is not ignored: `atoi` reads the argument as 0. `"MOTOR_abc"` stops motor 1,
`"SERVO_"` sets the servo angle to 0, and `"AC_COOLING_x"` changes the controller
from target 24, `Comfort` to target 0, `Cooling`. -/
theorem malformed_argument_acts :
    (handle_command good_platform "MOTOR_abc".toList ready_state).2
      = [.motor_service_stop MOTOR_ID_1] ∧
    (handle_command good_platform "SERVO_".toList ready_state).2 = [.servo_set_angle 0] ∧
    ready_state.s_status.target_temp = 24 ∧
    ready_state.s_status.mode = .AC_MODE_COMFORT ∧
    (handle_command good_platform "AC_COOLING_x".toList ready_state).1.s_status.target_temp
      = 0 ∧
    (handle_command good_platform "AC_COOLING_x".toList ready_state).1.s_status.mode
      = .AC_MODE_COOLING := by
  have e : "AC_COOLING_x".toList = "AC_COOLING_".toList ++ "x".toList := rfl
  have ha : atoi "x".toList = 0 := by decide
  have h := set_target_then_mode good_platform ready_state ((0 : Int) : ℚ) .AC_MODE_COOLING rfl
  rw [e, handle_command_cooling, ha]
  exact ⟨by decide, by decide, rfl, rfl, by exact_mod_cast h.1, h.2.1⟩

/-- C19 (amended). Unrecognised commands have no effect: a command string that
is none of `AC_AUTO_ON`, `AC_AUTO_OFF`, `AC_OFF`, `LED_ON`, `LED_OFF`,
`LED_GREEN`, `LED_RED`, `SMART_LIGHT_ON`, `SMART_LIGHT_OFF` and does not start
with `AC_COOLING_`, `AC_HEATING_`, `MOTOR_` or `SERVO_` leaves the whole
controller state as it was and issues no motor or servo call. -/
theorem unrecognized_command_no_effect (p : Platform) (s : State) (command : List Char)
    (hexact : command ∉ exact_commands) (hpre : takes_argument command = false) :
    (handle_command p command s).1 = s ∧ (handle_command p command s).2 = [] := by
  rw [handle_command_ignored p s command hexact hpre]
  exact ⟨rfl, rfl⟩

/-- Witness for the amended C19: `"AC_FOO"`, `"LED_BLUE"` and `"FAN_ON"`. -/
theorem unrecognized_command_no_effect_witness :
    (handle_command good_platform "AC_FOO".toList auto_state).1 = auto_state ∧
    (handle_command good_platform "AC_FOO".toList auto_state).2 = [] ∧
    (handle_command good_platform "LED_BLUE".toList auto_state).1 = auto_state ∧
    (handle_command good_platform "FAN_ON".toList auto_state).2 = [] :=
  have h1 := unrecognized_command_no_effect good_platform auto_state "AC_FOO".toList
    (by decide) (by decide)
  have h2 := unrecognized_command_no_effect good_platform auto_state "LED_BLUE".toList
    (by decide) (by decide)
  have h3 := unrecognized_command_no_effect good_platform auto_state "FAN_ON".toList
    (by decide) (by decide)
  ⟨h1.1, h1.2, h2.1, h3.2⟩

theorem update_rgb_led_rgb_initialized (p : Platform) (s : State) :
    (update_rgb_led p s).1.rgb_initialized = s.rgb_initialized := by
  have hset : ∀ (c : rgb_color_t) (t : State),
      (rgb_pwm_set_color c t).rgb_initialized = t.rgb_initialized := by
    intro c t
    unfold rgb_pwm_set_color
    split_ifs <;> rfl
  have hstop : ∀ c : rgb_color_t,
      (rgb_pwm_set_color c (stop_breathing_animation p s)).rgb_initialized = s.rgb_initialized :=
    fun c => (hset c _).trans (stop_breathing_animation_rgb p s).1
  unfold update_rgb_led
  split_ifs
  · exact hstop _
  · split
    · exact hstop _
    · exact hstop _
    · exact (start_breathing_animation_running p s).2.1
    · exact (start_breathing_animation_running p s).2.1

/-- No interface call clears the driver's initialised flag or the controller's. -/
theorem apply_call_initialized (p : Platform) (c : ac_call) (s : State)
    (hinit : s.s_initialized = true) (hrgb : s.rgb_initialized = true) :
    (apply_call p c s).s_initialized = true ∧ (apply_call p c s).rgb_initialized = true := by
  have hrender : ∀ x : State, x.s_initialized = true → x.rgb_initialized = true →
      (update_rgb_led p x).1.s_initialized = true ∧
      (update_rgb_led p x).1.rgb_initialized = true :=
    fun x h1 h2 => ⟨(update_rgb_led_initialized p x).trans h1,
      (update_rgb_led_rgb_initialized p x).trans h2⟩
  cases c with
  | init config =>
    cases config with
    | none => exact ⟨hinit, hrgb⟩
    | some cfg =>
      obtain ⟨-, h1, h2, -⟩ := ac_service_init_some cfg s
      exact ⟨h1, h2⟩
  | update sensor_data =>
    show (ac_service_update p sensor_data s).1.s_initialized = true ∧
      (ac_service_update p sensor_data s).1.rgb_initialized = true
    cases sensor_data with
    | none =>
      have h : ac_service_update p none s = (s, .ESP_ERR_INVALID_ARG) := by
        unfold ac_service_update
        rw [if_neg (by simp [hinit])]
      rw [h]
      exact ⟨hinit, hrgb⟩
    | some d =>
      have hsto : (update_stored d s).s_initialized = true ∧
          (update_stored d s).rgb_initialized = true := by
        refine ⟨(((core_eq_iff _ _).1 (update_stored_core d s)).2.2.1).trans hinit, ?_⟩
        unfold update_stored
        simp only []
        split_ifs
        · exact ((calculate_breathing_params_reset _ _).2.2.2.2.2).trans hrgb
        · exact hrgb
      cases hvalid : d.valid
      · rw [invalid_update_noop p s d hinit hvalid]
        exact ⟨hinit, hrgb⟩
      · cases hauto : s.s_status.auto_mode
        · rw [ac_service_update_manual p s d hinit hvalid hauto]
          exact hsto
        · obtain ⟨m, i, hupd⟩ := ac_service_update_auto p s d hinit hvalid hauto
          rw [hupd]
          exact hrender _ hsto.1 hsto.2
  | set_mode mode intensity =>
    show (ac_service_set_mode p mode intensity s).1.s_initialized = true ∧
      (ac_service_set_mode p mode intensity s).1.rgb_initialized = true
    rw [ac_service_set_mode_eq p mode intensity s hinit]
    exact hrender _ hinit hrgb
  | set_auto enable =>
    show (ac_service_set_auto enable s).1.s_initialized = true ∧
      (ac_service_set_auto enable s).1.rgb_initialized = true
    unfold ac_service_set_auto
    rw [if_neg (by simp [hinit])]
    exact ⟨hinit, hrgb⟩
  | set_target_temp target_temp =>
    show (ac_service_set_target_temp target_temp s).1.s_initialized = true ∧
      (ac_service_set_target_temp target_temp s).1.rgb_initialized = true
    refine ⟨((ac_service_set_target_temp_frame target_temp s).1).trans hinit, ?_⟩
    unfold ac_service_set_target_temp
    simp only []
    split_ifs
    · exact hrgb
    · exact ((calculate_breathing_params_reset _ _).2.2.2.2.2).trans hrgb
    · exact hrgb
  | set_led_enabled enabled =>
    show (ac_service_set_led_enabled p enabled s).1.s_initialized = true ∧
      (ac_service_set_led_enabled p enabled s).1.rgb_initialized = true
    rw [ac_service_set_led_enabled_eq p enabled s hinit]
    exact hrender _ hinit hrgb

/-- In every state reached from a successful `ac_service_init` by interface
calls, the controller and the RGB driver are both initialised. -/
theorem run_calls_initialized (p : Platform) (cfg : ac_service_config_t) (s_prev : State)
    (cs : List ac_call) :
    (run_calls p cs (ac_service_init (some cfg) s_prev).1).s_initialized = true ∧
    (run_calls p cs (ac_service_init (some cfg) s_prev).1).rgb_initialized = true := by
  obtain ⟨-, h1, h2, -⟩ := ac_service_init_some cfg s_prev
  have hgen : ∀ (cs : List ac_call) (s : State), s.s_initialized = true →
      s.rgb_initialized = true →
      (run_calls p cs s).s_initialized = true ∧ (run_calls p cs s).rgb_initialized = true := by
    intro cs
    induction cs with
    | nil => exact fun s a b => ⟨a, b⟩
    | cons c cs ih =>
      intro s a b
      obtain ⟨a', b'⟩ := apply_call_initialized p c s a b
      exact ih _ a' b'
  exact hgen cs _ h1 h2

/-! ## Humidity in the automatic decision, and the intensity range -/

/-- The automatic branch of `ac_service_update` when smoke is above the
threshold: mode Off, intensity 0. -/
theorem ac_service_update_smoke (p : Platform) (s : State) (d : sensor_data_t)
    (hinit : s.s_initialized = true) (hauto : s.s_status.auto_mode = true)
    (hvalid : d.valid = true) (hsmoke : d.smoke_voltage > s.s_config.smoke_threshold) :
    ((ac_service_update p (some d) s).1.s_status.mode,
     (ac_service_update p (some d) s).1.s_status.intensity) = (.AC_MODE_OFF, 0) := by
  rw [ac_service_update_valid p s d hinit hvalid]
  rw [if_neg (by simp [hauto]), if_pos hsmoke]
  simp [update_rgb_led_status]

/-- The decision table of `ac_service_update` without its humidity test: with
the temperature in band the table gives Comfort whatever the humidity. -/
theorem ac_service_update_table (p : Platform) (s : State) (d : sensor_data_t)
    (hinit : s.s_initialized = true) (hauto : s.s_status.auto_mode = true)
    (hvalid : d.valid = true) :
    ((ac_service_update p (some d) s).1.s_status.mode,
     (ac_service_update p (some d) s).1.s_status.intensity) =
      if d.smoke_voltage > s.s_config.smoke_threshold then (.AC_MODE_OFF, 0)
      else if d.temperature < s.s_config.temp_min then
        (.AC_MODE_HEATING, deviation_to_intensity (s.s_config.temp_min - d.temperature))
      else if d.temperature > s.s_config.temp_max then
        (.AC_MODE_COOLING, deviation_to_intensity (d.temperature - s.s_config.temp_max))
      else (.AC_MODE_COMFORT, 0) := by
  by_cases hsmoke : d.smoke_voltage > s.s_config.smoke_threshold
  · rw [ac_service_update_smoke p s d hinit hauto hvalid hsmoke, if_pos hsmoke]
  · rw [ac_service_update_decision p s d hinit hauto hvalid (not_lt.mp hsmoke), if_neg hsmoke]
    split_ifs with h1 h2 h3 h4 h5
    · exact absurd h2 (not_lt.mpr h1.1)
    · exact absurd h3 (not_lt.mpr h1.2.1)
    · rfl
    · rfl
    · rfl
    · rfl

/-- C29. Humidity never influences the automatic decision: on an initialised
controller in automatic mode, two valid snapshots with the same temperature and
the same smoke voltage give the same mode and the same intensity after
`ac_service_update`, whatever their humidity values (and whatever their other
fields). -/
theorem humidity_never_influences (p : Platform) (s : State) (d1 d2 : sensor_data_t)
    (hinit : s.s_initialized = true) (hauto : s.s_status.auto_mode = true)
    (hv1 : d1.valid = true) (hv2 : d2.valid = true)
    (htemp : d1.temperature = d2.temperature)
    (hsmoke : d1.smoke_voltage = d2.smoke_voltage)
    (_hhum : d1.humidity ≠ d2.humidity) :
    (ac_service_update p (some d1) s).1.s_status.mode =
      (ac_service_update p (some d2) s).1.s_status.mode ∧
    (ac_service_update p (some d1) s).1.s_status.intensity =
      (ac_service_update p (some d2) s).1.s_status.intensity := by
  have h1 := ac_service_update_table p s d1 hinit hauto hv1
  have h2 := ac_service_update_table p s d2 hinit hauto hv2
  rw [htemp, hsmoke] at h1
  have h := h1.trans h2.symm
  exact ⟨congrArg Prod.fst h, congrArg Prod.snd h⟩

/-- Instance of C29: in automatic mode under the `main.c` configuration, the
readings (23 °C, 50 %) and (23 °C, 90 %) with the same smoke voltage give the
same mode and intensity. -/
theorem humidity_never_influences_witness :
    auto_state.s_initialized = true ∧ auto_state.s_status.auto_mode = true ∧
    (reading 23 50 (1/5)).humidity ≠ (reading 23 90 (1/5)).humidity ∧
    (ac_service_update good_platform (some (reading 23 50 (1/5))) auto_state).1.s_status.mode =
      (ac_service_update good_platform (some (reading 23 90 (1/5))) auto_state).1.s_status.mode ∧
    (ac_service_update good_platform (some (reading 23 50 (1/5))) auto_state).1.s_status.intensity =
      (ac_service_update good_platform (some (reading 23 90 (1/5))) auto_state).1.s_status.intensity :=
  ⟨rfl, rfl, by decide,
   humidity_never_influences good_platform auto_state (reading 23 50 (1/5)) (reading 23 90 (1/5))
     rfl rfl rfl rfl rfl rfl (by decide)⟩

/-- The intensity written by the temperature branches is at most 100. -/
theorem deviation_to_intensity_le (d : ℚ) : deviation_to_intensity d ≤ 100 := by
  unfold deviation_to_intensity
  simp only []
  split_ifs with h
  · exact le_refl _
  · exact not_lt.mp h

/-- The status after `ac_service_set_target_temp` differs at most in the target. -/
theorem ac_service_set_target_temp_status (t : ℚ) (s : State) :
    (ac_service_set_target_temp t s).1.s_status.mode = s.s_status.mode ∧
    (ac_service_set_target_temp t s).1.s_status.intensity = s.s_status.intensity ∧
    (ac_service_set_target_temp t s).1.s_status.auto_mode = s.s_status.auto_mode := by
  unfold ac_service_set_target_temp
  simp only []
  split_ifs
  · exact ⟨rfl, rfl, rfl⟩
  · rw [calculate_breathing_params_status]
    exact ⟨rfl, rfl, rfl⟩
  · exact ⟨rfl, rfl, rfl⟩

/-- One interface call on an initialised controller keeps the intensity
invariant, with the flag updated as in `mode_set_by_auto`. -/
theorem apply_call_intensity (p : Platform) (c : ac_call) (s : State) (b : Bool)
    (hinit : s.s_initialized = true) (hinv : intensity_invariant s b) :
    intensity_invariant (apply_call p c s)
      (match c with
       | .init (some _) => false
       | .update (some d) =>
         if s.s_initialized && d.valid && s.s_status.auto_mode then true else b
       | .set_mode _ _ => if s.s_initialized then false else b
       | _ => b) := by
  cases c with
  | init config =>
    cases config with
    | none => exact hinv
    | some cfg =>
      obtain ⟨-, -, -, -, hint, -⟩ := ac_service_init_some cfg s
      show intensity_invariant (ac_service_init (some cfg) s).1 false
      unfold intensity_invariant
      rw [hint]
      exact ⟨Nat.zero_le _, fun _ _ => rfl⟩
  | update sensor_data =>
    cases sensor_data with
    | none =>
      have h : ac_service_update p none s = (s, .ESP_ERR_INVALID_ARG) := by
        unfold ac_service_update
        rw [if_neg (by simp [hinit])]
      show intensity_invariant (ac_service_update p none s).1 b
      rw [h]
      exact hinv
    | some d =>
      show intensity_invariant (ac_service_update p (some d) s).1 _
      cases hvalid : d.valid
      · rw [invalid_update_noop p s d hinit hvalid]
        simp only [hvalid, Bool.and_false, Bool.false_and, Bool.false_eq_true, if_false]
        exact hinv
      · cases hauto : s.s_status.auto_mode
        · rw [ac_service_update_manual p s d hinit hvalid hauto]
          simp only [hinit, hauto, Bool.and_false, Bool.false_eq_true, if_false]
          unfold intensity_invariant
          rw [update_stored_status]
          exact hinv
        · have htab := ac_service_update_table p s d hinit hauto hvalid
          simp only [hinit, hvalid, hauto, Bool.and_self, if_true]
          unfold intensity_invariant
          generalize (ac_service_update p (some d) s).1.s_status.mode = m at htab ⊢
          generalize (ac_service_update p (some d) s).1.s_status.intensity = i at htab ⊢
          split_ifs at htab
          all_goals
            obtain ⟨rfl, rfl⟩ := Prod.mk.inj htab
            first
            | exact ⟨Nat.zero_le _, fun _ _ => rfl⟩
            | exact ⟨deviation_to_intensity_le _, fun _ h => by rcases h with h | h <;> cases h⟩
  | set_mode mode intensity =>
    show intensity_invariant (ac_service_set_mode p mode intensity s).1 _
    rw [ac_service_set_mode_eq p mode intensity s hinit]
    simp only [hinit, if_true]
    unfold intensity_invariant
    rw [update_rgb_led_status]
    refine ⟨?_, fun h => absurd h (by simp)⟩
    show (if intensity > 100 then 100 else intensity) ≤ 100
    split_ifs with h
    · exact le_refl _
    · exact not_lt.mp h
  | set_auto enable =>
    show intensity_invariant (ac_service_set_auto enable s).1 b
    unfold ac_service_set_auto
    rw [if_neg (by simp [hinit])]
    exact hinv
  | set_target_temp target_temp =>
    show intensity_invariant (ac_service_set_target_temp target_temp s).1 b
    obtain ⟨h1, h2, -⟩ := ac_service_set_target_temp_status target_temp s
    unfold intensity_invariant
    rw [h1, h2]
    exact hinv
  | set_led_enabled enabled =>
    show intensity_invariant (ac_service_set_led_enabled p enabled s).1 b
    rw [ac_service_set_led_enabled_eq p enabled s hinit]
    unfold intensity_invariant
    rw [update_rgb_led_status]
    exact hinv

/-- The intensity invariant along a sequence of calls from an initialised state. -/
theorem run_calls_intensity (p : Platform) (cs : List ac_call) :
    ∀ (s : State) (b : Bool), s.s_initialized = true → s.rgb_initialized = true →
      intensity_invariant s b →
      intensity_invariant (run_calls p cs s) (mode_set_by_auto p cs s b) := by
  induction cs with
  | nil => exact fun s b _ _ hinv => hinv
  | cons c cs ih =>
    intro s b hinit hrgb hinv
    obtain ⟨h1, h2⟩ := apply_call_initialized p c s hinit hrgb
    exact ih _ _ h1 h2 (apply_call_intensity p c s b hinit hinv)

/-- C28. Intensity range invariant: in every state reached from a successful
`ac_service_init` by any sequence of interface calls with arbitrary arguments,
`s_status.intensity` is at most 100; and when the last assignment to the mode
along the sequence was made by the automatic branch of `ac_service_update`
(`mode_set_by_auto`) and the mode is Off or Comfort, the intensity is 0. -/
theorem intensity_range_invariant (p : Platform) (cfg : ac_service_config_t) (s_prev : State)
    (cs : List ac_call) :
    (run_calls p cs (ac_service_init (some cfg) s_prev).1).s_status.intensity ≤ 100 ∧
    (mode_set_by_auto p cs (ac_service_init (some cfg) s_prev).1 false = true →
      ((run_calls p cs (ac_service_init (some cfg) s_prev).1).s_status.mode = .AC_MODE_OFF ∨
       (run_calls p cs (ac_service_init (some cfg) s_prev).1).s_status.mode = .AC_MODE_COMFORT) →
      (run_calls p cs (ac_service_init (some cfg) s_prev).1).s_status.intensity = 0) := by
  obtain ⟨-, h1, h2, -, hint, -⟩ := ac_service_init_some cfg s_prev
  have h0 : intensity_invariant (ac_service_init (some cfg) s_prev).1 false := by
    unfold intensity_invariant
    rw [hint]
    exact ⟨Nat.zero_le _, fun _ _ => rfl⟩
  exact run_calls_intensity p cs _ false h1 h2 h0

/-- Instance of C28: after init, a manual `set_mode (Cooling, 250)`, switching to
automatic and a valid in-band reading, the mode was last written by the
automatic path, it is Comfort, and the intensity is 0 (and at most 100). -/
theorem intensity_range_invariant_witness :
    mode_set_by_auto good_platform
      [.set_mode .AC_MODE_COOLING 250, .set_auto true, .update (some (reading 23 50 (1/5)))]
      (ac_service_init (some main_config) initial_state).1 false = true ∧
    (run_calls good_platform
      [.set_mode .AC_MODE_COOLING 250, .set_auto true, .update (some (reading 23 50 (1/5)))]
      (ac_service_init (some main_config) initial_state).1).s_status.mode = .AC_MODE_COMFORT ∧
    (run_calls good_platform
      [.set_mode .AC_MODE_COOLING 250, .set_auto true, .update (some (reading 23 50 (1/5)))]
      (ac_service_init (some main_config) initial_state).1).s_status.intensity ≤ 100 ∧
    (run_calls good_platform
      [.set_mode .AC_MODE_COOLING 250, .set_auto true, .update (some (reading 23 50 (1/5)))]
      (ac_service_init (some main_config) initial_state).1).s_status.intensity = 0 := by
  have hflag : mode_set_by_auto good_platform
      [.set_mode .AC_MODE_COOLING 250, .set_auto true, .update (some (reading 23 50 (1/5)))]
      (ac_service_init (some main_config) initial_state).1 false = true := by
    norm_num [mode_set_by_auto, apply_call, ac_service_set_mode, ac_service_set_auto,
      ac_service_init, main_config, initial_state, rgb_pwm_set_color, reading, update_rgb_led,
      start_breathing_animation, calculate_breathing_params, good_platform]
  have hmode : (run_calls good_platform
      [.set_mode .AC_MODE_COOLING 250, .set_auto true, .update (some (reading 23 50 (1/5)))]
      (ac_service_init (some main_config) initial_state).1).s_status.mode = .AC_MODE_COMFORT := by
    norm_num [run_calls, apply_call, ac_service_set_mode, ac_service_set_auto,
      ac_service_update, stop_breathing_animation,
      ac_service_init, main_config, initial_state, rgb_pwm_set_color, reading, update_rgb_led,
      start_breathing_animation, calculate_breathing_params, good_platform, abs_of_pos,
      abs_of_neg]
  have h := intensity_range_invariant good_platform main_config initial_state
    [.set_mode .AC_MODE_COOLING 250, .set_auto true, .update (some (reading 23 50 (1/5)))]
  exact ⟨hflag, hmode, h.1, h.2 hflag (Or.inr hmode)⟩

/-! ## Snapshot assembly and telemetry (`sensor_task`) -/

/-- The snapshot of a cycle is the one `sensor_task_read` assembles. -/
theorem sensor_task_cycle_data (dht11 : Option dht11_data_t) (mq2 : Option mq2_data_t)
    (ldr : Option ldr_data_t) (time_us : Nat) (ws_connected : Bool)
    (slot_free_after : Option Nat) (s : SensorService) :
    (sensor_task_cycle dht11 mq2 ldr time_us ws_connected slot_free_after s).data =
      sensor_task_read dht11 mq2 ldr time_us := by
  unfold sensor_task_cycle
  simp only []
  split <;> rfl

/-- The fields of the assembled snapshot, by the outcome of each read. -/
theorem sensor_task_read_fields (dht11 : Option dht11_data_t) (mq2 : Option mq2_data_t)
    (ldr : Option ldr_data_t) (time_us : Nat) :
    (sensor_task_read dht11 mq2 ldr time_us).valid = dht11.isSome ∧
    (sensor_task_read dht11 mq2 ldr time_us).temperature =
      (match dht11 with | some r => r.temperature | none => 0) ∧
    (sensor_task_read dht11 mq2 ldr time_us).humidity =
      (match dht11 with | some r => r.humidity | none => 0) ∧
    (sensor_task_read dht11 mq2 ldr time_us).smoke_detected =
      (match mq2 with | some r => r.smoke_detected | none => false) ∧
    (sensor_task_read dht11 mq2 ldr time_us).smoke_voltage =
      (match mq2 with | some r => r.voltage | none => 0) ∧
    (sensor_task_read dht11 mq2 ldr time_us).light_intensity =
      (match ldr with | some r => r.light_intensity | none => 0) ∧
    (sensor_task_read dht11 mq2 ldr time_us).light_sufficient =
      (match ldr with | some r => r.light_sufficient | none => false) := by
  cases dht11 <;> cases mq2 <;> cases ldr <;>
    exact ⟨rfl, rfl, rfl, rfl, rfl, rfl, rfl⟩

/-- C22. Snapshot assembly: for every combination of success and failure of the
three reads of a cycle, the snapshot has `valid = true` exactly when the DHT11
read succeeded; after a failed smoke read `smoke_detected = false` and
`smoke_voltage = 0`; after a failed light read `light_intensity = 0` and
`light_sufficient = false`; and `valid`, `temperature` and `humidity` are the
same whatever the outcomes of the smoke and light reads. -/
theorem snapshot_assembly (dht11 : Option dht11_data_t) (mq2 : Option mq2_data_t)
    (ldr : Option ldr_data_t) (time_us : Nat) (ws_connected : Bool)
    (slot_free_after : Option Nat) (s : SensorService) :
    ((sensor_task_cycle dht11 mq2 ldr time_us ws_connected slot_free_after s).data.valid = true ↔
      dht11.isSome = true) ∧
    (mq2 = none →
      (sensor_task_cycle dht11 mq2 ldr time_us ws_connected slot_free_after s).data.smoke_detected
        = false ∧
      (sensor_task_cycle dht11 mq2 ldr time_us ws_connected slot_free_after s).data.smoke_voltage
        = 0) ∧
    (ldr = none →
      (sensor_task_cycle dht11 mq2 ldr time_us ws_connected slot_free_after s).data.light_intensity
        = 0 ∧
      (sensor_task_cycle dht11 mq2 ldr time_us ws_connected slot_free_after s).data.light_sufficient
        = false) ∧
    (∀ (mq2' : Option mq2_data_t) (ldr' : Option ldr_data_t),
      (sensor_task_cycle dht11 mq2' ldr' time_us ws_connected slot_free_after s).data.valid =
        (sensor_task_cycle dht11 mq2 ldr time_us ws_connected slot_free_after s).data.valid ∧
      (sensor_task_cycle dht11 mq2' ldr' time_us ws_connected slot_free_after s).data.temperature =
        (sensor_task_cycle dht11 mq2 ldr time_us ws_connected slot_free_after s).data.temperature ∧
      (sensor_task_cycle dht11 mq2' ldr' time_us ws_connected slot_free_after s).data.humidity =
        (sensor_task_cycle dht11 mq2 ldr time_us ws_connected slot_free_after s).data.humidity) := by
  simp only [sensor_task_cycle_data]
  obtain ⟨hv, ht, hh, hsd, hsv, hli, hls⟩ := sensor_task_read_fields dht11 mq2 ldr time_us
  refine ⟨by rw [hv], ?_, ?_, ?_⟩
  · rintro rfl
    exact ⟨hsd, hsv⟩
  · rintro rfl
    exact ⟨hli, hls⟩
  · intro mq2' ldr'
    obtain ⟨hv', ht', hh', -⟩ := sensor_task_read_fields dht11 mq2' ldr' time_us
    exact ⟨hv'.trans hv.symm, ht'.trans ht.symm, hh'.trans hh.symm⟩

/-- Instance of C22: the DHT11 read succeeds, the smoke and light reads fail. The
snapshot is valid with the DHT11 values, and the smoke and light fields are at
their defaults. -/
theorem snapshot_assembly_witness :
    (sensor_task_cycle (some dht11_sample) none none 7000000 false none
      sensor_service_started).data =
      { temperature := 23, humidity := 50, smoke_detected := false, smoke_voltage := 0,
        light_intensity := 0, light_sufficient := false, timestamp_ms := 7000, valid := true } ∧
    (sensor_task_cycle (some dht11_sample) none none 7000000 false none
      sensor_service_started).data.smoke_detected = false ∧
    (sensor_task_cycle (some dht11_sample) none none 7000000 false none
      sensor_service_started).data.smoke_voltage = 0 ∧
    (sensor_task_cycle (some dht11_sample) none none 7000000 false none
      sensor_service_started).data.light_intensity = 0 ∧
    (sensor_task_cycle (some dht11_sample) none none 7000000 false none
      sensor_service_started).data.light_sufficient = false :=
  ⟨by rw [sensor_task_cycle_data]; rfl,
   ((snapshot_assembly (some dht11_sample) none none 7000000 false none
      sensor_service_started).2.1 rfl).1,
   ((snapshot_assembly (some dht11_sample) none none 7000000 false none
      sensor_service_started).2.1 rfl).2,
   ((snapshot_assembly (some dht11_sample) none none 7000000 false none
      sensor_service_started).2.2.1 rfl).1,
   ((snapshot_assembly (some dht11_sample) none none 7000000 false none
      sensor_service_started).2.2.1 rfl).2⟩

/-- The calls of `websocket_service_send_sensor_data` in a cycle: one, with the
snapshot, when the sink is enabled and the snapshot valid; none otherwise. -/
theorem sensor_task_cycle_ws_calls (dht11 : Option dht11_data_t) (mq2 : Option mq2_data_t)
    (ldr : Option ldr_data_t) (time_us : Nat) (ws_connected : Bool)
    (slot_free_after : Option Nat) (s : SensorService) :
    (sensor_task_cycle dht11 mq2 ldr time_us ws_connected slot_free_after s).ws_calls =
      if s.s_websocket_enabled = true ∧ dht11.isSome = true then
        [sensor_task_read dht11 mq2 ldr time_us]
      else [] := by
  have hv := (sensor_task_read_fields dht11 mq2 ldr time_us).1
  have hcalls : (sensor_task_cycle dht11 mq2 ldr time_us ws_connected slot_free_after s).ws_calls =
      if ((s.s_websocket_enabled && ws_connected) && !s.s_last_ws_connected) &&
          (sensor_task_read dht11 mq2 ldr time_us).valid then
        [sensor_task_read dht11 mq2 ldr time_us]
      else if s.s_websocket_enabled && (sensor_task_read dht11 mq2 ldr time_us).valid then
        [sensor_task_read dht11 mq2 ldr time_us]
      else [] := by
    unfold sensor_task_cycle
    simp only []
    split <;> rfl
  rw [hcalls, hv]
  cases s.s_websocket_enabled <;> cases ws_connected <;> cases s.s_last_ws_connected <;>
    cases dht11.isSome <;> simp

/-- C23. One telemetry message per cycle: a cycle of `sensor_task` calls
`websocket_service_send_sensor_data` at most once; exactly once, with the
snapshot of the cycle, when the sink is enabled and the snapshot is valid, which
includes the cycle in which the connection is first seen (enabled, connected,
not connected at the previous cycle); and never with an invalid snapshot, which
`websocket_service_send_sensor_data` would not transmit either. -/
theorem one_telemetry_call (dht11 : Option dht11_data_t) (mq2 : Option mq2_data_t)
    (ldr : Option ldr_data_t) (time_us : Nat) (ws_connected : Bool)
    (slot_free_after : Option Nat) (s : SensorService) :
    (sensor_task_cycle dht11 mq2 ldr time_us ws_connected slot_free_after s).ws_calls.length ≤ 1 ∧
    (s.s_websocket_enabled = true ∧
        (sensor_task_cycle dht11 mq2 ldr time_us ws_connected slot_free_after s).data.valid = true →
      (sensor_task_cycle dht11 mq2 ldr time_us ws_connected slot_free_after s).ws_calls =
        [(sensor_task_cycle dht11 mq2 ldr time_us ws_connected slot_free_after s).data]) ∧
    (s.s_websocket_enabled = true ∧ ws_connected = true ∧ s.s_last_ws_connected = false ∧
        (sensor_task_cycle dht11 mq2 ldr time_us ws_connected slot_free_after s).data.valid = true →
      (sensor_task_cycle dht11 mq2 ldr time_us ws_connected slot_free_after s).ws_calls =
        [(sensor_task_cycle dht11 mq2 ldr time_us ws_connected slot_free_after s).data]) ∧
    ((sensor_task_cycle dht11 mq2 ldr time_us ws_connected slot_free_after s).data.valid = false →
      (sensor_task_cycle dht11 mq2 ldr time_us ws_connected slot_free_after s).ws_calls = []) ∧
    (s.s_websocket_enabled = false →
      (sensor_task_cycle dht11 mq2 ldr time_us ws_connected slot_free_after s).ws_calls = []) ∧
    (∀ (s_connected s_client send_ok : Bool) (d : sensor_data_t), d.valid = false →
      (websocket_service_send_sensor_data s_connected s_client send_ok (some d)).2 = none) := by
  have hv := (sensor_task_read_fields dht11 mq2 ldr time_us).1
  rw [sensor_task_cycle_ws_calls, sensor_task_cycle_data, hv]
  refine ⟨?_, ?_, ?_, ?_, ?_, ?_⟩
  rotate_left 5
  · intro a b c d hd
    unfold websocket_service_send_sensor_data
    split_ifs <;> simp_all
  · split_ifs <;> simp
  · rintro ⟨h1, h2⟩
    rw [if_pos ⟨h1, h2⟩]
  · rintro ⟨h1, -, -, h2⟩
    rw [if_pos ⟨h1, h2⟩]
  · intro h
    rw [if_neg (by simp [h])]
  · intro h
    rw [if_neg (by simp [h])]

/-- Instance of C23: the cycle in which the connection is first seen, with a
valid snapshot, makes exactly one call, with that snapshot. -/
theorem one_telemetry_call_witness :
    sensor_service_started.s_websocket_enabled = true ∧
    sensor_service_started.s_last_ws_connected = false ∧
    (sensor_task_cycle (some dht11_sample) (some mq2_sample) (some ldr_sample) 7000000 true none
      sensor_service_started).data.valid = true ∧
    (sensor_task_cycle (some dht11_sample) (some mq2_sample) (some ldr_sample) 7000000 true none
      sensor_service_started).ws_calls =
      [(sensor_task_cycle (some dht11_sample) (some mq2_sample) (some ldr_sample) 7000000 true none
        sensor_service_started).data] :=
  ⟨rfl, rfl, by rw [sensor_task_cycle_data]; rfl,
   (one_telemetry_call (some dht11_sample) (some mq2_sample) (some ldr_sample) 7000000 true none
      sensor_service_started).2.2.1
     ⟨rfl, rfl, rfl, by rw [sensor_task_cycle_data]; rfl⟩⟩

/-! ## The snapshot queue -/

/-- Successive receives deliver the items in queue order. -/
theorem dequeue_many_eq (count : Nat) :
    ∀ queue : QueueHandle_t, dequeue_many count queue = queue.items.take count := by
  induction count with
  | zero => intro queue; simp [dequeue_many]
  | succ n ih =>
    intro queue
    rcases queue with ⟨len, items⟩
    cases items with
    | nil => simp [dequeue_many, xQueueReceive]
    | cons x xs => simp [dequeue_many, xQueueReceive, ih]

/-- The queue part of a cycle is the `xQueueSend` of its snapshot with a wait of
100 ms. -/
theorem sensor_task_cycle_queue (dht11 : Option dht11_data_t) (mq2 : Option mq2_data_t)
    (ldr : Option ldr_data_t) (time_us : Nat) (ws_connected : Bool)
    (slot_free_after : Option Nat) (s : SensorService) (queue : QueueHandle_t)
    (hq : s.s_data_queue = some queue) :
    (sensor_task_cycle dht11 mq2 ldr time_us ws_connected slot_free_after s).service.s_data_queue =
      some (xQueueSend queue (sensor_task_read dht11 mq2 ldr time_us) 100 slot_free_after).queue ∧
    (sensor_task_cycle dht11 mq2 ldr time_us ws_connected slot_free_after s).queue_sent =
      some (xQueueSend queue (sensor_task_read dht11 mq2 ldr time_us) 100 slot_free_after).sent ∧
    (sensor_task_cycle dht11 mq2 ldr time_us ws_connected slot_free_after s).queue_blocked_ms =
      (xQueueSend queue (sensor_task_read dht11 mq2 ldr time_us) 100 slot_free_after).blocked_ms := by
  unfold sensor_task_cycle
  simp only [hq]
  refine ⟨?_, ?_, ?_⟩ <;> first | rfl | trivial

/-- `xQueueSend` on a full queue, by what happens during the wait. -/
theorem xQueueSend_full (queue : QueueHandle_t) (item : sensor_data_t) (wait_ms : Nat)
    (slot_free_after : Option Nat) (hfull : queue.items.length = queue.uxQueueLength) :
    xQueueSend queue item wait_ms slot_free_after =
      match slot_free_after with
      | some t =>
        if t < wait_ms then
          { queue := { queue with items := queue.items.tail ++ [item] }, sent := true,
            blocked_ms := t }
        else { queue := queue, sent := false, blocked_ms := wait_ms }
      | none => { queue := queue, sent := false, blocked_ms := wait_ms } := by
  unfold xQueueSend
  rw [if_neg (by omega)]

/-- C21 (amended). Bounded queue, drop-newest after a bounded wait: when the
queue of capacity 10 holds 10 snapshots and `sensor_task` produces an 11th, the
task blocks in `xQueueSend` for at most 100 ms. If no slot becomes free within
the 100 ms, the 11th snapshot is dropped, the queue is unchanged, the task was
blocked for the whole 100 ms, and the consumer subsequently dequeues exactly the
first 10 snapshots in the order they were enqueued. If the consumer takes the
oldest snapshot `t < 100` ms into the wait, the 11th is enqueued behind the
remaining 9 and the task was blocked for `t` ms. -/
theorem queue_full_bounded_wait (dht11 : Option dht11_data_t) (mq2 : Option mq2_data_t)
    (ldr : Option ldr_data_t) (time_us : Nat) (ws_connected : Bool)
    (slot_free_after : Option Nat) (s : SensorService) (queue : QueueHandle_t)
    (hq : s.s_data_queue = some queue) (hcap : queue.uxQueueLength = 10)
    (hfull : queue.items.length = 10) :
    (sensor_task_cycle dht11 mq2 ldr time_us ws_connected slot_free_after s).queue_blocked_ms
      ≤ 100 ∧
    ((∀ t, slot_free_after = some t → 100 ≤ t) →
      (sensor_task_cycle dht11 mq2 ldr time_us ws_connected slot_free_after s).service.s_data_queue
        = some queue ∧
      (sensor_task_cycle dht11 mq2 ldr time_us ws_connected slot_free_after s).queue_sent
        = some false ∧
      (sensor_task_cycle dht11 mq2 ldr time_us ws_connected slot_free_after s).queue_blocked_ms
        = 100 ∧
      dequeue_many 10 queue = queue.items ∧
      ∀ count, 10 ≤ count → dequeue_many count queue = queue.items) ∧
    (∀ t, slot_free_after = some t → t < 100 →
      (sensor_task_cycle dht11 mq2 ldr time_us ws_connected slot_free_after s).service.s_data_queue
        = some { queue with
            items := queue.items.tail ++
              [(sensor_task_cycle dht11 mq2 ldr time_us ws_connected slot_free_after s).data] } ∧
      (sensor_task_cycle dht11 mq2 ldr time_us ws_connected slot_free_after s).queue_sent
        = some true ∧
      (sensor_task_cycle dht11 mq2 ldr time_us ws_connected slot_free_after s).queue_blocked_ms
        = t) := by
  obtain ⟨h1, h2, h3⟩ :=
    sensor_task_cycle_queue dht11 mq2 ldr time_us ws_connected slot_free_after s queue hq
  rw [h1, h2, h3, sensor_task_cycle_data,
    xQueueSend_full queue _ 100 slot_free_after (by rw [hfull, hcap])]
  have hdq : ∀ count, 10 ≤ count → dequeue_many count queue = queue.items := by
    intro count hc
    rw [dequeue_many_eq, List.take_of_length_le (by omega)]
  refine ⟨?_, ?_, ?_⟩
  · cases slot_free_after with
    | none => exact le_refl _
    | some t =>
      simp only []
      split_ifs with h
      · exact le_of_lt h
      · exact le_refl _
  · intro hslot
    cases slot_free_after with
    | none => exact ⟨rfl, rfl, rfl, hdq 10 (le_refl _), hdq⟩
    | some t =>
      simp only []
      rw [if_neg (not_lt.mpr (hslot t rfl))]
      exact ⟨rfl, rfl, rfl, hdq 10 (le_refl _), hdq⟩
  · intro t ht hlt
    subst ht
    simp only []
    rw [if_pos hlt]
    exact ⟨rfl, rfl, rfl⟩

/-- Instance of C21 (amended): the full queue of ten numbered snapshots, an 11th
snapshot, and no receive during the wait. The queue is unchanged, the send
fails after 100 ms, and the consumer then gets the ten snapshots in order. -/
theorem queue_full_bounded_wait_witness :
    sensor_service_full.s_data_queue = some full_queue ∧
    full_queue.uxQueueLength = 10 ∧ full_queue.items.length = 10 ∧
    (sensor_task_cycle (some dht11_sample) none none 50000000 false none
      sensor_service_full).service.s_data_queue = some full_queue ∧
    (sensor_task_cycle (some dht11_sample) none none 50000000 false none
      sensor_service_full).queue_sent = some false ∧
    (sensor_task_cycle (some dht11_sample) none none 50000000 false none
      sensor_service_full).queue_blocked_ms = 100 ∧
    dequeue_many 10 full_queue = (List.range 10).map numbered_snapshot :=
  have h := (queue_full_bounded_wait (some dht11_sample) none none 50000000 false none
    sensor_service_full full_queue rfl rfl rfl).2.1 (fun t ht => by cases ht)
  ⟨rfl, rfl, rfl, h.1, h.2.1, h.2.2.1, h.2.2.2.1⟩

/-- C21 (the claim as written fails). With the queue full, the sampling task does
wait for the consumer: with no receive it is blocked in `xQueueSend` for 100 ms
before it continues; and when the consumer takes the oldest snapshot 40 ms into
the wait, the 11th snapshot is not dropped but enqueued, and the queue contents
change. -/
theorem producer_waits_for_consumer :
    (sensor_task_cycle (some dht11_sample) none none 50000000 false none
      sensor_service_full).queue_blocked_ms = 100 ∧
    (sensor_task_cycle (some dht11_sample) none none 50000000 false none
      sensor_service_full).queue_blocked_ms ≠ 0 ∧
    (sensor_task_cycle (some dht11_sample) none none 50000000 false (some 40)
      sensor_service_full).queue_sent = some true ∧
    (sensor_task_cycle (some dht11_sample) none none 50000000 false (some 40)
      sensor_service_full).queue_blocked_ms = 40 ∧
    (sensor_task_cycle (some dht11_sample) none none 50000000 false (some 40)
      sensor_service_full).service.s_data_queue ≠ some full_queue ∧
    (sensor_task_cycle (some dht11_sample) none none 50000000 false (some 40)
      sensor_service_full).service.s_data_queue =
      some { uxQueueLength := 10,
             items := ((List.range 10).map numbered_snapshot).tail ++
               [sensor_task_read (some dht11_sample) none none 50000000] } := by
  refine ⟨rfl, by decide, rfl, rfl, ?_, rfl⟩
  decide

/-! ## The running mean of the display consumer -/

/-- The statistics update where the counter does not wrap and the `uint32_t`
numerator of the humidity mean does not overflow. -/
theorem update_statistics_of_fit (data : sensor_data_t) (st : DisplayStats)
    (hcount : st.s_total_samples + 1 < 2 ^ 32) (havg : st.s_avg_humidity ≤ 255)
    (hhum : data.humidity ≤ 255)
    (hfit : st.s_avg_humidity * st.s_total_samples + data.humidity < 2 ^ 32) :
    update_statistics data st = some
      { s_total_samples := st.s_total_samples + 1
        s_avg_temperature :=
          (st.s_avg_temperature * (st.s_total_samples : ℚ) + data.temperature) /
            ((st.s_total_samples : ℚ) + 1)
        s_avg_humidity :=
          (st.s_avg_humidity * st.s_total_samples + data.humidity) /
            (st.s_total_samples + 1) } := by
  have h1 : (st.s_total_samples + 1) % 2 ^ 32 = st.s_total_samples + 1 := Nat.mod_eq_of_lt hcount
  have h2 : (st.s_total_samples + 1 + 2 ^ 32 - 1) % 2 ^ 32 = st.s_total_samples := by omega
  have hmul : st.s_avg_humidity * st.s_total_samples < 2 ^ 32 := by omega
  have h3 : (st.s_avg_humidity * st.s_total_samples % 2 ^ 32 + data.humidity) % 2 ^ 32 =
      st.s_avg_humidity * st.s_total_samples + data.humidity := by
    rw [Nat.mod_eq_of_lt hmul, Nat.mod_eq_of_lt hfit]
  have h4 : (st.s_avg_humidity * st.s_total_samples + data.humidity) /
      (st.s_total_samples + 1) < 256 := by
    rw [Nat.div_lt_iff_lt_mul (Nat.succ_pos _)]
    have : st.s_avg_humidity * st.s_total_samples ≤ 255 * st.s_total_samples :=
      Nat.mul_le_mul_right _ havg
    omega
  unfold update_statistics
  simp only [h1, h2, h3, Nat.mod_eq_of_lt h4]
  rw [if_neg (Nat.succ_ne_zero _)]
  push_cast
  rfl

/-- The display iteration on a queue whose oldest item is a valid snapshot. -/
theorem temp_humidity_display_iteration_valid (p : Platform) (st : DisplayStats) (ac : State)
    (queue : QueueHandle_t) (data : sensor_data_t) (rest : List sensor_data_t)
    (hq : queue.items = data :: rest) (hvalid : data.valid = true) :
    temp_humidity_display_iteration p st ac queue =
      (update_statistics data st).map (fun st1 =>
        { stats := st1, controller := (ac_service_update p (some data) ac).1,
          queue := { queue with items := rest }, updates := [data] }) := by
  unfold temp_humidity_display_iteration xQueueReceive
  rw [hq]
  simp only [hvalid, if_true]
  cases update_statistics data st <;> rfl

/-- The display iteration on a queue whose oldest item is an invalid snapshot. -/
theorem temp_humidity_display_iteration_invalid (p : Platform) (st : DisplayStats) (ac : State)
    (queue : QueueHandle_t) (data : sensor_data_t) (rest : List sensor_data_t)
    (hq : queue.items = data :: rest) (hvalid : data.valid = false) :
    temp_humidity_display_iteration p st ac queue =
      some { stats := st, controller := ac, queue := { queue with items := rest },
             updates := [] } := by
  unfold temp_humidity_display_iteration xQueueReceive
  rw [hq]
  simp only [hvalid, Bool.false_eq_true, if_false]

/-- Feeding the same snapshot keeps both means at its values, as long as the
numerator of the humidity mean fits in 32 bits. -/
theorem feed_same_from (data : sensor_data_t) (hhum : data.humidity ≤ 255) (count : Nat) :
    ∀ j : Nat, data.humidity * (j + count) < 2 ^ 32 → j + count < 2 ^ 32 → 1 ≤ j →
      feed_same count data
        { s_total_samples := j, s_avg_temperature := data.temperature,
          s_avg_humidity := data.humidity } =
      some { s_total_samples := j + count, s_avg_temperature := data.temperature,
             s_avg_humidity := data.humidity } := by
  induction count with
  | zero => intro j _ _ _; rfl
  | succ n ih =>
    intro j hfit hlt hj
    have hfit1 : data.humidity * j + data.humidity < 2 ^ 32 := by
      have : data.humidity * (j + 1) ≤ data.humidity * (j + (n + 1)) :=
        Nat.mul_le_mul_left _ (by omega)
      rw [Nat.mul_add, Nat.mul_one] at this
      omega
    have hstep : update_statistics data
        { s_total_samples := j, s_avg_temperature := data.temperature,
          s_avg_humidity := data.humidity } =
        some { s_total_samples := j + 1
               s_avg_temperature :=
                 (data.temperature * (j : ℚ) + data.temperature) / ((j : ℚ) + 1)
               s_avg_humidity := (data.humidity * j + data.humidity) / (j + 1) } :=
      update_statistics_of_fit data
        { s_total_samples := j, s_avg_temperature := data.temperature,
          s_avg_humidity := data.humidity } (by show j + 1 < 2 ^ 32; omega) hhum hhum hfit1
    have hdiv : (data.humidity * j + data.humidity) / (j + 1) = data.humidity := by
      have : data.humidity * j + data.humidity = data.humidity * (j + 1) := by ring
      rw [this, Nat.mul_div_cancel _ (Nat.succ_pos _)]
    have htemp : (data.temperature * (j : ℚ) + data.temperature) / ((j : ℚ) + 1) =
        data.temperature := by
      have hpos : ((j : ℚ) + 1) ≠ 0 := by positivity
      field_simp
      ring
    simp only [hdiv, htemp] at hstep
    unfold feed_same
    rw [hstep]
    show feed_same n data _ = _
    rw [ih (j + 1) (by rw [show j + 1 + n = j + (n + 1) by omega]; exact hfit) (by omega)
      (by omega)]
    rw [show j + 1 + n = j + (n + 1) by omega]

/-- After `count ≥ 1` equal valid snapshots from start-up the count is `count` and
both means are the snapshot's values, as long as `humidity * count < 2 ^ 32`. -/
theorem feed_same_initial (data : sensor_data_t) (hhum : data.humidity ≤ 255) (count : Nat)
    (hcount : 1 ≤ count) (hfit : data.humidity * count < 2 ^ 32) (hlt : count < 2 ^ 32) :
    feed_same count data initial_stats =
      some { s_total_samples := count, s_avg_temperature := data.temperature,
             s_avg_humidity := data.humidity } := by
  obtain ⟨n, rfl⟩ : ∃ n, count = n + 1 := ⟨count - 1, by omega⟩
  have hfirst : update_statistics data initial_stats =
      some { s_total_samples := 1, s_avg_temperature := data.temperature,
             s_avg_humidity := data.humidity } := by
    rw [update_statistics_of_fit data initial_stats (by decide) (by decide) hhum
      (by show 0 * 0 + data.humidity < 2 ^ 32; omega)]
    simp [initial_stats]
  unfold feed_same
  rw [hfirst]
  show feed_same n data _ = _
  rw [feed_same_from data hhum n 1 (by rw [Nat.add_comm]; exact hfit) (by omega) (le_refl _)]
  rw [Nat.add_comm]

/-- Within the range of the `uint32_t` arithmetic the consumer computes the
running mean of the specification: on the `n`-th valid snapshot, with
`avg_prev * (n - 1) + humidity < 2 ^ 32` (true for every `n ≤ 16843009`), the
count becomes `n`, the temperature mean `(avg_prev * (n - 1) + temperature) / n`
and the humidity mean `⌊(avg_prev * (n - 1) + humidity) / n⌋`; for `n = 1` both
means are the snapshot's values. -/
theorem running_mean_in_range (data : sensor_data_t) (st : DisplayStats) (n : Nat)
    (hn : 1 ≤ n) (hcount : st.s_total_samples = n - 1) (hn32 : n < 2 ^ 32)
    (havg : st.s_avg_humidity ≤ 255) (hhum : data.humidity ≤ 255)
    (hfit : n ≤ 16843009 ∨ st.s_avg_humidity * (n - 1) + data.humidity < 2 ^ 32) :
    update_statistics data st = some
      { s_total_samples := n
        s_avg_temperature := (st.s_avg_temperature * ((n : ℚ) - 1) + data.temperature) / (n : ℚ)
        s_avg_humidity := (st.s_avg_humidity * (n - 1) + data.humidity) / n } ∧
    (n = 1 → update_statistics data st = some
      { s_total_samples := 1, s_avg_temperature := data.temperature,
        s_avg_humidity := data.humidity }) := by
  obtain ⟨m, rfl⟩ : ∃ m, n = m + 1 := ⟨n - 1, by omega⟩
  have hm : st.s_total_samples = m := by rw [hcount]; rfl
  have hfit1 : st.s_avg_humidity * st.s_total_samples + data.humidity < 2 ^ 32 := by
    rw [hm]
    rcases hfit with h | h
    · have : st.s_avg_humidity * m ≤ 255 * m := Nat.mul_le_mul_right _ havg
      omega
    · exact h
  have hstep := update_statistics_of_fit data st (by rw [hm]; exact hn32) havg hhum hfit1
  rw [hm] at hstep
  have hcast : (((m + 1 : Nat) : ℚ) - 1) = (m : ℚ) := by push_cast; ring
  have hcast1 : ((m + 1 : Nat) : ℚ) = (m : ℚ) + 1 := by push_cast; rfl
  refine ⟨?_, ?_⟩
  · rw [hstep, hcast, hcast1]
    rfl
  · intro h1
    have hm0 : m = 0 := by omega
    subst hm0
    rw [hstep]
    simp

/-- C24 (evaluation of the code where the claim fails). After 71 582 788 valid
snapshots of 23 °C and 60 % the count is 71 582 788 and the humidity mean is 60.
On the next valid snapshot of 60 % the claim's formula gives
`⌊(60 * 71582788 + 60) / 71582789⌋ = 60`, but the `uint32_t` numerator wraps
(`60 * 71582788 + 60 = 2 ^ 32 + 44`) and the code stores `⌊44 / 71582789⌋ = 0`.
The first snapshot does set both means to its values. -/
theorem running_mean_wraps :
    (feed_same 71582788 (reading 23 60 (1/5)) initial_stats).map
        (fun st => (st.s_total_samples, st.s_avg_humidity)) = some (71582788, 60) ∧
    ((feed_same 71582788 (reading 23 60 (1/5)) initial_stats).bind
        (update_statistics (reading 23 60 (1/5)))).map
        (fun st => (st.s_total_samples, st.s_avg_humidity)) = some (71582789, 0) ∧
    (60 * (71582789 - 1) + 60) / 71582789 = 60 ∧
    60 * (71582789 - 1) + 60 = 2 ^ 32 + 44 ∧
    update_statistics (reading 23 60 (1/5)) initial_stats =
      some { s_total_samples := 1, s_avg_temperature := 23, s_avg_humidity := 60 } := by
  have hreach := feed_same_initial (reading 23 60 (1/5)) (by decide) 71582788 (by decide)
    (by decide) (by decide)
  refine ⟨?_, ?_, by decide, by decide, ?_⟩
  · rw [hreach]
    rfl
  · rw [hreach]
    norm_num [update_statistics, reading]
  · norm_num [update_statistics, reading, initial_stats]

/-- C25. Invalid snapshots are inert downstream: when the display consumer
dequeues a snapshot with `valid = false`, the statistics (count, temperature
mean, humidity mean) and the controller state are unchanged and
`ac_service_update` is not called; when it dequeues a valid snapshot (with the
`uint32_t` sample counter not at its last value, so that the statistics update
has a non-zero divisor) `ac_service_update` is called exactly once, with that
snapshot. -/
theorem invalid_snapshot_inert (p : Platform) (st : DisplayStats) (ac : State)
    (queue : QueueHandle_t) (data : sensor_data_t) (rest : List sensor_data_t)
    (hq : queue.items = data :: rest) :
    (data.valid = false →
      temp_humidity_display_iteration p st ac queue =
        some { stats := st, controller := ac, queue := { queue with items := rest },
               updates := [] }) ∧
    (data.valid = true → st.s_total_samples + 1 < 2 ^ 32 →
      ∃ st1, update_statistics data st = some st1 ∧
        temp_humidity_display_iteration p st ac queue =
          some { stats := st1, controller := (ac_service_update p (some data) ac).1,
                 queue := { queue with items := rest }, updates := [data] }) := by
  refine ⟨fun hv => temp_humidity_display_iteration_invalid p st ac queue data rest hq hv, ?_⟩
  intro hv hcount
  rw [temp_humidity_display_iteration_valid p st ac queue data rest hq hv]
  have hsome : ∃ st1, update_statistics data st = some st1 := by
    unfold update_statistics
    simp only []
    rw [if_neg (by rw [Nat.mod_eq_of_lt hcount]; exact Nat.succ_ne_zero _)]
    exact ⟨_, rfl⟩
  obtain ⟨st1, h1⟩ := hsome
  exact ⟨st1, h1, by rw [h1]; rfl⟩

/-- Instance of C25: an invalid snapshot at the head of the queue leaves the
statistics and the controller as they were, with no call of `ac_service_update`;
a valid one at start-up is passed to `ac_service_update` once. -/
theorem invalid_snapshot_inert_witness :
    temp_humidity_display_iteration good_platform initial_stats auto_state
        { uxQueueLength := 10, items := [invalid_reading 35 50 (1/5)] } =
      some { stats := initial_stats, controller := auto_state,
             queue := { uxQueueLength := 10, items := [] }, updates := [] } ∧
    ∃ st1, update_statistics (reading 35 50 (1/5)) initial_stats = some st1 ∧
      temp_humidity_display_iteration good_platform initial_stats auto_state
          { uxQueueLength := 10, items := [reading 35 50 (1/5)] } =
        some { stats := st1,
               controller :=
                 (ac_service_update good_platform (some (reading 35 50 (1/5))) auto_state).1,
               queue := { uxQueueLength := 10, items := [] },
               updates := [reading 35 50 (1/5)] } :=
  ⟨(invalid_snapshot_inert good_platform initial_stats auto_state
      { uxQueueLength := 10, items := [invalid_reading 35 50 (1/5)] }
      (invalid_reading 35 50 (1/5)) [] rfl).1 rfl,
   (invalid_snapshot_inert good_platform initial_stats auto_state
      { uxQueueLength := 10, items := [reading 35 50 (1/5)] }
      (reading 35 50 (1/5)) [] rfl).2 rfl (by decide)⟩

/-! ## The servo pulse mapping -/

/-- Truncating division of non-negative integers is the division of naturals. -/
theorem tdiv_natCast (a b : Nat) : Int.tdiv (a : Int) (b : Int) = ((a / b : Nat) : Int) := by
  rw [Int.tdiv_eq_ediv (Int.natCast_nonneg a) (Int.natCast_nonneg b)]
  rfl

/-- The pulse width under the `main.c` configuration. -/
theorem pulse_us_main (gpio_pin : Int) (angle : Nat) :
    pulse_us (servo_main_config gpio_pin) angle = 500 + (min angle 180) * 2000 / 180 := by
  unfold pulse_us servo_main_config
  simp only []
  have hmin : (if angle > 180 then 180 else angle) = min angle 180 := by
    split_ifs with h
    · exact (min_eq_right (le_of_lt h)).symm
    · exact (min_eq_left (not_lt.mp h)).symm
  rw [hmin]
  have hle : min angle 180 ≤ 180 := min_le_right _ _
  generalize min angle 180 = a at hle ⊢
  have h1 : ((a : Int) * ((2500 : Nat) - (500 : Nat) : Int)) = ((a * 2000 : Nat) : Int) := by
    push_cast; ring
  rw [h1]
  have h2 : Int.tdiv ((a * 2000 : Nat) : Int) 180 = ((a * 2000 / 180 : Nat) : Int) :=
    tdiv_natCast (a * 2000) 180
  rw [h2]
  have h3 : ((500 : Nat) : Int) + ((a * 2000 / 180 : Nat) : Int) =
      ((500 + a * 2000 / 180 : Nat) : Int) := by push_cast; rfl
  rw [h3]
  have h4 : 500 + a * 2000 / 180 < 65536 := by omega
  have h5 : (((500 + a * 2000 / 180 : Nat) : Int) % 65536) = ((500 + a * 2000 / 180 : Nat) : Int) :=
    Int.emod_eq_of_lt (Int.natCast_nonneg _) (by exact_mod_cast h4)
  rw [h5]
  rfl

/-- The duty under the `main.c` configuration. -/
theorem angle_to_duty_main (gpio_pin : Int) (angle : Nat) :
    angle_to_duty (servo_main_config gpio_pin) angle =
      some ((500 + (min angle 180) * 2000 / 180) * 16383 / 20000) := by
  have hp := pulse_us_main gpio_pin angle
  unfold angle_to_duty
  rw [hp]
  have hmax : LEDC_MAX_DUTY = 16383 := by decide
  have hfreq : (servo_main_config gpio_pin).pwm_freq = 50 := rfl
  rw [hmax, hfreq]
  have hle : min angle 180 ≤ 180 := min_le_right _ _
  generalize min angle 180 = a at hle ⊢
  have hlt : (500 + a * 2000 / 180) * 16383 < 2 ^ 32 := by omega
  simp only [Nat.mod_eq_of_lt hlt]
  rfl

/-- C26. Servo pulse mapping: with `min_pulse = 500`, `max_pulse = 2500` and
`pwm_freq = 50`, `angle_to_duty` computes the pulse width
`500 + ⌊angle * 2000 / 180⌋` (angle limited to 180) and returns the duty
`⌊pulse * 16383 / 20000⌋`; the pulse is 500 us at 0, 1500 us at 90 and 2500 us at
180 degrees; the duty is monotonic non-decreasing in the angle; every angle
above 180 gives the duty of 180; and the two intermediate products stay below
`2 ^ 31`, so that neither overflows 32 bits. -/
theorem servo_pulse_mapping (gpio_pin : Int) (angle a b : Nat) :
    pulse_us (servo_main_config gpio_pin) angle = 500 + (min angle 180) * 2000 / 180 ∧
    angle_to_duty (servo_main_config gpio_pin) angle =
      some (pulse_us (servo_main_config gpio_pin) angle * 16383 / 20000) ∧
    pulse_us (servo_main_config gpio_pin) 0 = 500 ∧
    pulse_us (servo_main_config gpio_pin) 90 = 1500 ∧
    pulse_us (servo_main_config gpio_pin) 180 = 2500 ∧
    (a ≤ b →
      (angle_to_duty (servo_main_config gpio_pin) a).getD 0 ≤
        (angle_to_duty (servo_main_config gpio_pin) b).getD 0) ∧
    (180 < angle →
      angle_to_duty (servo_main_config gpio_pin) angle =
        angle_to_duty (servo_main_config gpio_pin) 180) ∧
    (min angle 180) * (2500 - 500) < 2 ^ 31 ∧
    pulse_us (servo_main_config gpio_pin) angle * LEDC_MAX_DUTY < 2 ^ 31 := by
  have hmax : LEDC_MAX_DUTY = 16383 := by decide
  refine ⟨pulse_us_main gpio_pin angle, ?_, ?_, ?_, ?_, ?_, ?_, ?_, ?_⟩
  · rw [angle_to_duty_main, pulse_us_main]
  · rw [pulse_us_main]; decide
  · rw [pulse_us_main]; decide
  · rw [pulse_us_main]; decide
  · intro hab
    rw [angle_to_duty_main, angle_to_duty_main]
    show (500 + min a 180 * 2000 / 180) * 16383 / 20000 ≤
      (500 + min b 180 * 2000 / 180) * 16383 / 20000
    have hmin : min a 180 ≤ min b 180 := min_le_min hab (le_refl _)
    apply Nat.div_le_div_right
    apply Nat.mul_le_mul_right
    apply Nat.add_le_add_left
    apply Nat.div_le_div_right
    exact Nat.mul_le_mul_right _ hmin
  · intro h
    rw [angle_to_duty_main, angle_to_duty_main, min_eq_right (le_of_lt h), min_self]
  · have hle : min angle 180 ≤ 180 := min_le_right _ _
    omega
  · rw [pulse_us_main, hmax]
    have hle : min angle 180 ≤ 180 := min_le_right _ _
    generalize min angle 180 = x at hle ⊢
    omega

/-- Instance of C26: the duties at 0, 90, 180 and 200 degrees are 409, 1228, 2047
and 2047; 90 ≤ 180 gives a duty that is not smaller, and 200 degrees gives the
duty of 180. -/
theorem servo_pulse_mapping_witness :
    angle_to_duty (servo_main_config 38) 0 = some 409 ∧
    angle_to_duty (servo_main_config 38) 90 = some 1228 ∧
    angle_to_duty (servo_main_config 38) 180 = some 2047 ∧
    (angle_to_duty (servo_main_config 38) 90).getD 0 ≤
      (angle_to_duty (servo_main_config 38) 180).getD 0 ∧
    angle_to_duty (servo_main_config 38) 200 = angle_to_duty (servo_main_config 38) 180 :=
  ⟨by decide, by decide, by decide,
   (servo_pulse_mapping 38 200 90 180).2.2.2.2.2.1 (by decide),
   (servo_pulse_mapping 38 200 90 180).2.2.2.2.2.2.1 (by decide)⟩

/-! ## CO2 frame extraction -/

/-- The acceptance condition one byte further is the condition on the tail. -/
theorem valid_frame_at_succ (b : Nat) (rest : List Nat) (k : Nat) :
    valid_frame_at (b :: rest) (k + 1) ↔ valid_frame_at rest k := by
  unfold valid_frame_at
  have e1 : k + 1 + 1 = (k + 1) + 1 := rfl
  have e2 : k + 1 + 2 = (k + 2) + 1 := by omega
  have e3 : k + 1 + 3 = (k + 3) + 1 := by omega
  have e4 : k + 1 + 4 = (k + 4) + 1 := by omega
  have e5 : k + 1 + 5 = (k + 5) + 1 := by omega
  rw [e2, e3, e4, e5]
  simp only [List.getD_cons_succ, List.length_cons]
  constructor
  · rintro ⟨h1, h2, h3⟩
    exact ⟨by omega, h2, h3⟩
  · rintro ⟨h1, h2, h3⟩
    exact ⟨by omega, h2, h3⟩

/-- One step of the loop on a buffer with at least six bytes left. -/
theorem find_valid_frame_loop_step (x0 x1 x2 x3 x4 x5 : Nat) (tail : List Nat) (i : Nat)
    (frame_out : List Nat) :
    find_valid_frame_loop (x0 :: x1 :: x2 :: x3 :: x4 :: x5 :: tail) i frame_out =
      if valid_frame_at (x0 :: x1 :: x2 :: x3 :: x4 :: x5 :: tail) 0 then
        (((i + 6 : Nat) : Int), [x0, x1, x2, x3, x4, x5])
      else find_valid_frame_loop (x1 :: x2 :: x3 :: x4 :: x5 :: tail) (i + 1) frame_out := by
  have hv : valid_frame_at (x0 :: x1 :: x2 :: x3 :: x4 :: x5 :: tail) 0 ↔
      (x0 = 0x2C ∧ (x0 + x1 + x2 + x3 + x4) % 256 = x5) := by
    unfold valid_frame_at
    simp
  rw [find_valid_frame_loop]
  simp only [JW01_FRAME_SIZE, JW01_HEADER_1, List.length_cons]
  rw [if_pos (by omega)]
  by_cases h0 : x0 = 0x2C
  · rw [if_pos h0]
    have hsum : List.foldl (fun acc x => (acc + x) % 256) 0
        (List.take (6 - 1) (x0 :: x1 :: x2 :: x3 :: x4 :: x5 :: tail)) =
        (x0 + x1 + x2 + x3 + x4) % 256 := by
      simp only [Nat.add_one_sub_one, List.take_succ_cons, List.take_zero, List.foldl_cons,
        List.foldl_nil, Nat.zero_add]
      omega
    have hget : (x0 :: x1 :: x2 :: x3 :: x4 :: x5 :: tail).getD (6 - 1) 0 = x5 := rfl
    simp only [hsum, hget]
    by_cases hs : (x0 + x1 + x2 + x3 + x4) % 256 = x5
    · rw [if_pos hs, if_pos (hv.2 ⟨h0, hs⟩)]
      rfl
    · rw [if_neg hs, if_neg (fun h => hs (hv.1 h).2)]
  · rw [if_neg h0, if_neg (fun h => h0 (hv.1 h).1)]

/-- With fewer than six bytes left the loop ends with -1. -/
theorem find_valid_frame_loop_short (rest : List Nat) (i : Nat) (frame_out : List Nat)
    (h : rest.length < 6) : find_valid_frame_loop rest i frame_out = (-1, frame_out) := by
  cases rest with
  | nil => rfl
  | cons b rest =>
    rw [find_valid_frame_loop]
    simp only [JW01_FRAME_SIZE]
    rw [if_neg (by omega)]

/-- What the loop returns from offset `i0` on, in terms of the acceptance
condition on the rest of the buffer. -/
theorem find_valid_frame_loop_spec (rest : List Nat) :
    ∀ (i0 : Nat) (frame_out : List Nat),
      ((∀ k, ¬ valid_frame_at rest k) →
        find_valid_frame_loop rest i0 frame_out = (-1, frame_out)) ∧
      (∀ k, valid_frame_at rest k → (∀ j, j < k → ¬ valid_frame_at rest j) →
        find_valid_frame_loop rest i0 frame_out =
          (((i0 + k + 6 : Nat) : Int), (rest.drop k).take 6)) := by
  induction rest with
  | nil =>
    intro i0 frame_out
    refine ⟨fun _ => rfl, fun k hk _ => ?_⟩
    exact absurd hk.1 (by simp)
  | cons b rest ih =>
    intro i0 frame_out
    by_cases hlen : (b :: rest).length < 6
    · refine ⟨fun _ => find_valid_frame_loop_short _ _ _ hlen, fun k hk _ => ?_⟩
      have := hk.1
      omega
    · obtain ⟨x1, x2, x3, x4, x5, tail, rfl⟩ :
          ∃ x1 x2 x3 x4 x5 tail, rest = x1 :: x2 :: x3 :: x4 :: x5 :: tail := by
        match rest, hlen with
        | x1 :: x2 :: x3 :: x4 :: x5 :: tail, _ => exact ⟨x1, x2, x3, x4, x5, tail, rfl⟩
        | [], h => exact absurd (by simp) h
        | [_], h => exact absurd (by simp) h
        | [_, _], h => exact absurd (by simp) h
        | [_, _, _], h => exact absurd (by simp) h
        | [_, _, _, _], h => exact absurd (by simp) h
      rw [find_valid_frame_loop_step]
      obtain ⟨ih1, ih2⟩ := ih (i0 + 1) frame_out
      by_cases h0 : valid_frame_at (b :: x1 :: x2 :: x3 :: x4 :: x5 :: tail) 0
      · rw [if_pos h0]
        refine ⟨fun hnone => absurd h0 (hnone 0), fun k hk hmin => ?_⟩
        have hk0 : k = 0 := by
          by_contra hne
          exact hmin 0 (Nat.pos_of_ne_zero hne) h0
        subst hk0
        rfl
      · rw [if_neg h0]
        refine ⟨fun hnone => ih1 (fun k hk => hnone (k + 1) ((valid_frame_at_succ _ _ _).2 hk)),
          fun k hk hmin => ?_⟩
        cases k with
        | zero => exact absurd hk h0
        | succ k =>
          rw [ih2 k ((valid_frame_at_succ _ _ _).1 hk)
            (fun j hj hvj => hmin (j + 1) (by omega) ((valid_frame_at_succ _ _ _).2 hvj))]
          rw [show i0 + 1 + k + 6 = i0 + (k + 1) + 6 by omega]
          rfl

/-- On two bytes, shift-and-or is multiply-and-add. -/
theorem decode_co2_ppm_eq (frame : List Nat) (hl : frame.getD 2 0 < 256)
    (hh : frame.getD 3 0 < 256) :
    decode_co2_ppm frame = frame.getD 3 0 * 256 + frame.getD 2 0 := by
  unfold decode_co2_ppm
  simp only []
  have hor : (frame.getD 3 0 <<< 8) ||| frame.getD 2 0 =
      frame.getD 3 0 * 256 + frame.getD 2 0 := by
    rw [Nat.shiftLeft_eq, Nat.mul_comm]
    exact (Nat.mul_add_lt_is_or (show frame.getD 2 0 < 2 ^ 8 from hl) _).symm
  rw [hor]
  exact Nat.mod_eq_of_lt (by omega)

/-- C27. CO2 frame extraction: for every byte buffer, `find_valid_frame` returns
-1 (and leaves `frame_out` alone) when no offset `i` with `i + 6 <= len` has
`buffer[i] = 0x2C` and `(buffer[i] + ... + buffer[i+4]) mod 256 = buffer[i+5]`;
otherwise it copies the six bytes at the smallest such offset `i` into
`frame_out` and returns `i + 6`. The value decoded from a frame is
`frame[3] * 256 + frame[2]`. The documented example frame `2c 02 ac 03 ff dc` is
accepted and decodes to 940 ppm, also through `co2_driver_read`. -/
theorem co2_frame_extraction (buffer frame_out : List Nat) :
    ((∀ i, ¬ valid_frame_at buffer i) →
      find_valid_frame buffer frame_out = (-1, frame_out)) ∧
    (∀ i, valid_frame_at buffer i → (∀ j, j < i → ¬ valid_frame_at buffer j) →
      find_valid_frame buffer frame_out =
        (((i + 6 : Nat) : Int), (buffer.drop i).take 6)) ∧
    (∀ frame : List Nat, frame.getD 2 0 < 256 → frame.getD 3 0 < 256 →
      decode_co2_ppm frame = frame.getD 3 0 * 256 + frame.getD 2 0) ∧
    find_valid_frame example_frame frame_out = (6, example_frame) ∧
    decode_co2_ppm example_frame = 940 ∧
    co2_driver_read true
        (some { co2_ppm := 0, tvoc_ppb := 0, ch2o_ppb := 0, valid := false })
        example_frame frame_out =
      (some { co2_ppm := 940, tvoc_ppb := 0, ch2o_ppb := 0, valid := true }, .ESP_OK) := by
  obtain ⟨h1, h2⟩ := find_valid_frame_loop_spec buffer 0 frame_out
  have hf : find_valid_frame example_frame frame_out = (6, example_frame) := rfl
  have hd : decode_co2_ppm example_frame = 940 := by decide
  refine ⟨h1, ?_, fun frame hl hh => decode_co2_ppm_eq frame hl hh, hf, hd, ?_⟩
  · intro i hi hmin
    have := h2 i hi hmin
    rw [Nat.zero_add] at this
    exact this
  · unfold co2_driver_read
    simp only [hf, hd]
    rfl

/-- Instance of C27: in a buffer whose first byte is not a header and in which
the example frame starts at offset 1, offset 1 is the smallest accepted one;
`find_valid_frame` returns 7 with the example frame in `frame_out`. A buffer of
three bytes has no accepted offset and gives -1. -/
theorem co2_frame_extraction_witness :
    valid_frame_at example_buffer 1 ∧ (∀ j, j < 1 → ¬ valid_frame_at example_buffer j) ∧
    find_valid_frame example_buffer [0, 0, 0, 0, 0, 0] = (7, example_frame) ∧
    find_valid_frame [0x2c, 0x02, 0xac] [0, 0, 0, 0, 0, 0] = (-1, [0, 0, 0, 0, 0, 0]) :=
  ⟨by decide, by decide,
   (co2_frame_extraction example_buffer [0, 0, 0, 0, 0, 0]).2.1 1 (by decide) (by decide),
   (co2_frame_extraction [0x2c, 0x02, 0xac] [0, 0, 0, 0, 0, 0]).1
     (fun i h => absurd h.1 (by simp))⟩

/-! ## The motor driver's recorded state and speed -/

/-- `set_pwm_duty` keeps a recorded speed of at most 100 and leaves the state. -/
theorem set_pwm_duty_speed (hw : Hardware) (motor : tb6612_motor_t) (speed : Nat)
    (h : motor.speed ≤ 100) :
    (set_pwm_duty hw motor speed).1.speed ≤ 100 ∧
    (set_pwm_duty hw motor speed).1.state = motor.state ∧
    (set_pwm_duty hw motor speed).1.direction = motor.direction := by
  unfold set_pwm_duty
  simp only []
  split_ifs with h1 h2 h3 <;> first
    | exact ⟨h, rfl, rfl⟩
    | exact ⟨le_refl _, rfl, rfl⟩
    | exact ⟨not_lt.mp h3, rfl, rfl⟩

/-- One driver call keeps the recorded speed at most 100. -/
theorem tb6612_apply_speed (hw : Hardware) (c : tb6612_call) (handle : Option tb6612_motor_t)
    (h : tb6612_get_speed handle ≤ 100) :
    tb6612_get_speed (tb6612_apply hw c handle) ≤ 100 := by
  cases handle with
  | none => cases c <;> exact Nat.zero_le _
  | some motor =>
    have hm : motor.speed ≤ 100 := h
    have hdir : ∀ d, (set_direction motor d).speed ≤ 100 := by
      intro d
      unfold set_direction
      split_ifs <;> exact hm
    have hstop : tb6612_get_speed (tb6612_stop hw (some motor)).1 ≤ 100 := by
      unfold tb6612_stop
      simp only []
      split_ifs
      · exact hm
      · exact (set_pwm_duty_speed hw motor 0 hm).1
      · exact (set_pwm_duty_speed hw motor 0 hm).1
    cases c with
    | forward speed =>
      show tb6612_get_speed (tb6612_forward hw (some motor) speed).1 ≤ 100
      unfold tb6612_forward
      simp only []
      split_ifs
      · exact hm
      · exact (set_pwm_duty_speed hw _ speed (hdir _)).1
      · exact (set_pwm_duty_speed hw _ speed (hdir _)).1
    | backward speed =>
      show tb6612_get_speed (tb6612_backward hw (some motor) speed).1 ≤ 100
      unfold tb6612_backward
      simp only []
      split_ifs
      · exact hm
      · exact (set_pwm_duty_speed hw _ speed (hdir _)).1
      · exact (set_pwm_duty_speed hw _ speed (hdir _)).1
    | stop => exact hstop
    | set_speed speed =>
      show tb6612_get_speed (tb6612_set_speed hw (some motor) speed).1 ≤ 100
      unfold tb6612_set_speed
      simp only []
      split_ifs
      · exact hm
      · exact hstop
      · exact (set_pwm_duty_speed hw motor speed hm).1
      · exact (set_pwm_duty_speed hw motor speed hm).1

/-- A sequence of driver calls keeps the recorded speed at most 100. -/
theorem tb6612_run_speed (hw : Hardware) (cs : List tb6612_call) :
    ∀ handle : Option tb6612_motor_t, tb6612_get_speed handle ≤ 100 →
      tb6612_get_speed (tb6612_run hw cs handle) ≤ 100 := by
  induction cs with
  | nil => exact fun _ h => h
  | cons c cs ih => exact fun handle h => ih _ (tb6612_apply_speed hw c handle h)

/-- The motor `tb6612_create` hands out records speed 0. -/
theorem tb6612_create_speed (hw : Hardware) (config : Option tb6612_config_t)
    (handle_given : Bool) :
    tb6612_get_speed (tb6612_create hw config handle_given).1 = 0 := by
  unfold tb6612_create
  cases config with
  | none => rfl
  | some cfg =>
    simp only []
    split_ifs <;> first
      | rfl
      | (show (set_pwm_duty hw _ 0).1.speed = 0
         unfold set_pwm_duty
         simp only []
         split_ifs <;> first | rfl | omega)

/-- C30 (evaluation of the code where the claim fails). The recorded speed is at
most 100 after every sequence of driver calls on a handle from `tb6612_create`,
whatever the hardware answers. But the recorded state can be STOPPED with a
non-zero speed: `tb6612_set_speed` with a non-zero speed writes the duty and the
speed and leaves the state alone. After the sequence of the ramp test,
`forward 0`, `set_speed 0`, `set_speed 10`, the state is STOPPED, the speed is 10
and the motor is driven forward (IN1 = 1, IN2 = 0, duty 102 of 1023); at the end
of the whole acceleration phase the state is still STOPPED at speed 100. The
same happens with `set_speed 10` directly after `tb6612_create`. -/
theorem motor_stopped_with_speed :
    (∀ (hw : Hardware) (cfg : tb6612_config_t) (calls : List tb6612_call),
      tb6612_get_speed (tb6612_run hw calls (tb6612_create hw (some cfg) true).1) ≤ 100) ∧
    (tb6612_create good_hardware (some motor_1_config) true).2 = .ESP_OK ∧
    tb6612_get_state (tb6612_create good_hardware (some motor_1_config) true).1
      = .TB6612_STATE_STOPPED ∧
    tb6612_get_speed (tb6612_create good_hardware (some motor_1_config) true).1 = 0 ∧
    tb6612_get_state (tb6612_run good_hardware ramp_start
      (tb6612_create good_hardware (some motor_1_config) true).1) = .TB6612_STATE_STOPPED ∧
    tb6612_get_speed (tb6612_run good_hardware ramp_start
      (tb6612_create good_hardware (some motor_1_config) true).1) = 10 ∧
    (tb6612_run good_hardware ramp_start
      (tb6612_create good_hardware (some motor_1_config) true).1).map
        (fun m => (m.in1, m.in2, m.duty)) = some (1, 0, 102) ∧
    tb6612_get_state (tb6612_run good_hardware ramp_acceleration
      (tb6612_create good_hardware (some motor_1_config) true).1) = .TB6612_STATE_STOPPED ∧
    tb6612_get_speed (tb6612_run good_hardware ramp_acceleration
      (tb6612_create good_hardware (some motor_1_config) true).1) = 100 ∧
    tb6612_get_state (tb6612_run good_hardware [.set_speed 10]
      (tb6612_create good_hardware (some motor_1_config) true).1) = .TB6612_STATE_STOPPED ∧
    tb6612_get_speed (tb6612_run good_hardware [.set_speed 10]
      (tb6612_create good_hardware (some motor_1_config) true).1) = 10 := by
  refine ⟨fun hw cfg calls => ?_, by decide, by decide, by decide, by decide, by decide,
    by decide, by decide, by decide, by decide, by decide⟩
  exact tb6612_run_speed hw calls _ (by rw [tb6612_create_speed]; exact Nat.zero_le _)

end AcService
